import Mathlib

/-!
Verification of the incoming synchronization integration engine
(`src/sync/incomingSyncUtils.js`).

The engine is embedded shallowly:

* Wire records are structures of optional strings (`WireRecord`), matching
  the flat string-keyed sync records.
* JavaScript numbers are modelled by `JsNum`: `null` (absent), `nan`
  (unparseable input), or a rational value.  The engine never produces
  infinities: every division in the source is guarded by a truthiness test
  on the divisor, so division only ever happens with a nonzero finite
  divisor.
* The Realm store is modelled as a list of entities tagged with their type
  name (`DB`), consumed through the narrow contract the engine uses:
  filtered lookup, create, upsert-by-identifier (`dbUpdate`, updating the
  supplied fields of an existing object as Realm's update mode does), and
  delete.  Realm objects are live inside a write transaction, so mutating a
  resolved object is modelled as writing through to the store and
  `database.save` needs no separate model.
* Collaborators of the engine that live in this repository but outside the
  provided sources (the `syncTranslators` translation tables, the settings
  lookup, the `generateUUID` generator, and the parent-side collection
  operations such as `addBatch`/`addItem`) are modelled from the spec; each
  such definition carries a comment saying so.
-/

/-- A JavaScript number as the engine sees it: `null` for an absent value,
`nan` for an unparseable string, or a finite rational. -/
inductive JsNum where
  | null : JsNum
  | nan : JsNum
  | num (q : ℚ) : JsNum
deriving DecidableEq, Repr

/-- JavaScript truthiness of a number: `null`, `NaN` and `0` are falsy. -/
def JsNum.truthy : JsNum → Bool
  | .num q => q ≠ 0
  | _ => false

/-- JavaScript multiplication on the values arising in the engine:
`null` coerces to `0`, `NaN` is absorbing. -/
def jsMul : JsNum → JsNum → JsNum
  | .nan, _ => .nan
  | _, .nan => .nan
  | .null, _ => .num 0
  | _, .null => .num 0
  | .num a, .num b => .num (a * b)

/-- JavaScript division.  In the source every division is guarded by a
truthiness test on the divisor, so the divisor is always a nonzero finite
number at the division; the remaining cases (division by `0`/`null`, which
JavaScript maps to an infinity) are unreachable and modelled as `nan`. -/
def jsDiv : JsNum → JsNum → JsNum
  | .nan, _ => .nan
  | _, .nan => .nan
  | .null, .num b => if b = 0 then .nan else .num 0
  | _, .null => .nan
  | .num a, .num b => if b = 0 then .nan else .num (a / b)

/-- JavaScript truthiness of an optional string: absent and empty are falsy. -/
def truthyStr : Option String → Bool
  | none => false
  | some s => s ≠ ""

/-- A date value.  `ofIso d t` stands for `new Date(d)` with the
hours/minutes/seconds overlay parsed from the six leading characters of
`t` when present; `clock n` stands for a wall-clock `new Date()` at tick
`n`. -/
inductive JsDate where
  | ofIso (date : String) (time : Option String) : JsDate
  | clock (t : Nat) : JsDate
deriving DecidableEq, Repr

/-- Numeric value of a list of decimal digits. -/
def natOfDigits (cs : List Char) : ℕ :=
  cs.foldl (fun acc c => 10 * acc + (c.toNat - '0'.toNat)) 0

/-- Models the JavaScript `parseFloat` builtin on the decimal strings the
sync wire format carries: an optional sign followed by the longest prefix
of `digits [. digits]`; `NaN` when no digit is found.  (Leading whitespace
and exponents do not occur in the wire data and are not modelled.)  The
value is assembled over the integers, with a single final division scaling
the fractional part. -/
def jsParseFloat (s : String) : JsNum :=
  let cs := s.toList
  let signNeg : Bool × List Char :=
    match cs with
    | '-' :: rest => (true, rest)
    | '+' :: rest => (false, rest)
    | _ => (false, cs)
  let intPart := signNeg.2.takeWhile Char.isDigit
  let rest := signNeg.2.dropWhile Char.isDigit
  let fracPart :=
    match rest with
    | '.' :: r => r.takeWhile Char.isDigit
    | _ => []
  if intPart.isEmpty && fracPart.isEmpty then .nan
  else
    let mag : ℕ := natOfDigits intPart * 10 ^ fracPart.length + natOfDigits fracPart
    let signed : ℤ := if signNeg.1 then -(mag : ℤ) else (mag : ℤ)
    if fracPart.isEmpty then .num (signed : ℚ)
    else .num ((signed : ℚ) / ((10 ^ fracPart.length : ℕ) : ℚ))

/-- `parseNumber(numberString)`: null when empty or absent, otherwise the
`parseFloat` of the string. -/
def parseNumber (numberString : Option String) : JsNum :=
  match numberString with
  | none => .null
  | some s => if s.length < 1 then .null else jsParseFloat s

/-- `parseBoolean(booleanString)`: falsy input is false, otherwise membership
in the literal list `['true', 'True', 'TRUE']`. -/
def parseBoolean (booleanString : Option String) : Bool :=
  match booleanString with
  | none => false
  | some s => s ≠ "" && (s = "true" || s = "True" || s = "TRUE")

/-- `parseDate(ISODate, ISOTime)`: null for an absent/empty date or the
`0000-00-00T00:00:00` sentinel; otherwise the date, with the time overlay
applied when the time string has at least six characters. -/
def parseDate (isoDate : Option String) (isoTime : Option String) : Option JsDate :=
  match isoDate with
  | none => none
  | some d =>
    if d.length < 1 || d = "0000-00-00T00:00:00" then none
    else
      some (.ofIso d (match isoTime with
        | some t => if 6 ≤ t.length then some (t.take 6) else none
        | none => none))

/-- One stored object.  The local schema is a fixed set of entity variants;
the model takes the union of their fields in a single structure and tags
each object with its type name (`etype`), mirroring Realm's per-type
tables.  Relations are held as identity references (the referenced
object's primary key).  The dependent collections (`batches`, `items`,
`transactions`, `numbersToReuse`, `transactionBatches`) are modelled from
the spec: each is maintained as the set of dependents pointing at the
parent, populated by the parent's add-dependent operation. -/
structure Entity where
  etype : String
  id : String
  category : Option String := none
  department : Option String := none
  code : Option String := none
  description : Option String := none
  name : Option String := none
  batch : Option String := none
  itemId : Option String := none
  itemName : Option String := none
  nameId : Option String := none
  phoneNumber : Option String := none
  emailAddress : Option String := none
  supplyingStoreId : Option String := none
  comment : Option String := none
  serialNumber : Option String := none
  theirRef : Option String := none
  note : Option String := none
  sequenceKey : Option String := none
  status : Option String := none
  type : Option String := none
  item : Option String := none
  supplier : Option String := none
  masterList : Option String := none
  billingAddress : Option String := none
  requisition : Option String := none
  user : Option String := none
  createdBy : Option String := none
  finalisedBy : Option String := none
  additions : Option String := none
  reductions : Option String := none
  stocktake : Option String := none
  itemBatch : Option String := none
  transaction : Option String := none
  numberSequence : Option String := none
  otherParty : Option String := none
  enteredBy : Option String := none
  line1 : Option String := none
  line2 : Option String := none
  line3 : Option String := none
  line4 : Option String := none
  zipCode : Option String := none
  username : Option String := none
  passwordHash : Option String := none
  defaultPackSize : JsNum := .null
  defaultPrice : JsNum := .null
  packSize : JsNum := .null
  numberOfPacks : JsNum := .null
  numberOfPacksSent : JsNum := .null
  costPrice : JsNum := .null
  sellPrice : JsNum := .null
  highestNumberUsed : JsNum := .null
  imprestQuantity : JsNum := .null
  daysToSupply : JsNum := .null
  stockOnHand : JsNum := .null
  dailyUsage : JsNum := .null
  requiredQuantity : JsNum := .null
  sortIndex : JsNum := .null
  snapshotNumberOfPacks : JsNum := .null
  countedNumberOfPacks : JsNum := .null
  number : JsNum := .null
  joinsThisStore : Bool := false
  isCustomer : Bool := false
  isSupplier : Bool := false
  isManufacturer : Bool := false
  isVisible : Bool := false
  expiryDate : Option JsDate := none
  entryDate : Option JsDate := none
  createdDate : Option JsDate := none
  stocktakeDate : Option JsDate := none
  confirmDate : Option JsDate := none
  expiry : Option JsDate := none
  batches : List String := []
  items : List String := []
  transactions : List String := []
  numbersToReuse : List String := []
  transactionBatches : List String := []
deriving DecidableEq, Repr

/-- The flat string-keyed data of one incoming sync record: every field the
dispatcher or the sanity checker reads, each possibly absent. -/
structure WireRecord where
  ID : Option String := none
  code : Option String := none
  item_name : Option String := none
  default_pack_size : Option String := none
  buy_price : Option String := none
  category_ID : Option String := none
  department_ID : Option String := none
  description : Option String := none
  Description : Option String := none
  department : Option String := none
  item_ID : Option String := none
  pack_size : Option String := none
  quantity : Option String := none
  expiry_date : Option String := none
  batch : Option String := none
  Batch : Option String := none
  cost_price : Option String := none
  sell_price : Option String := none
  name_ID : Option String := none
  store_ID : Option String := none
  inactive : Option String := none
  list_master_ID : Option String := none
  note : Option String := none
  item_master_ID : Option String := none
  imprest_quan : Option String := none
  name : Option String := none
  phone : Option String := none
  bill_address1 : Option String := none
  bill_address2 : Option String := none
  bill_address3 : Option String := none
  bill_address4 : Option String := none
  bill_postal_zip_code : Option String := none
  email : Option String := none
  category : Option String := none
  type : Option String := none
  customer : Option String := none
  supplier : Option String := none
  manufacturer : Option String := none
  supplying_store_id : Option String := none
  value : Option String := none
  number_to_use : Option String := none
  status : Option String := none
  date_entered : Option String := none
  daysToSupply : Option String := none
  serial_number : Option String := none
  user_ID : Option String := none
  requisition_ID : Option String := none
  Cust_stock_order : Option String := none
  stock_on_hand : Option String := none
  imprest_or_prev_quantity : Option String := none
  actualQuan : Option String := none
  comment : Option String := none
  line_number : Option String := none
  stock_take_created_date : Option String := none
  stock_take_date : Option String := none
  stock_take_time : Option String := none
  created_by_ID : Option String := none
  finalised_by_ID : Option String := none
  invad_additions_ID : Option String := none
  invad_reductions_ID : Option String := none
  stock_take_ID : Option String := none
  item_line_ID : Option String := none
  snapshot_qty : Option String := none
  snapshot_packsize : Option String := none
  expiry : Option String := none
  invoice_num : Option String := none
  entry_date : Option String := none
  confirm_date : Option String := none
  their_ref : Option String := none
  transaction_ID : Option String := none
deriving Repr

/-- The local store: the stored objects plus the state of the process-wide
unique identifier generator (`generateUUID` is repository code outside the
provided sources; modelled from the spec as a fresh-identifier counter). -/
structure DB where
  objects : List Entity
  nextUuid : Nat
deriving DecidableEq, Repr

/-- The identifier produced by the `n`-th call of the generator. -/
def uuidString (n : Nat) : String :=
  "uuid-" ++ toString n

/-- Modelled from the spec: `generateUUID()` returns a process-wide unique
identifier; successive calls are distinct. -/
def generateUUID (db : DB) : String × DB :=
  (uuidString db.nextUuid, { db with nextUuid := db.nextUuid + 1 })

/-- Modelled from the spec: the engine's collaborators that live outside the
provided sources.  `thisStoreId` is `settings.get(THIS_STORE_ID)`; `now` is
the wall clock read by placeholder construction; the remaining fields are
the `syncTranslators` translation tables, pure functions from an external
code to an internal value (`none` for JavaScript `null`/`undefined`).
`sequenceKeyTranslate` additionally takes the local store's identifier and
returns a falsy result when the named sequence does not belong to this
store. -/
structure Env where
  thisStoreId : String
  now : Nat
  nameTypeTranslate : Option String → Option String
  statusTranslate : Option String → Option String
  transactionTypeTranslate : Option String → Option String
  requisitionTypeTranslate : Option String → Option String
  sequenceKeyTranslate : Option String → String → Option String

/-- The filtered primary-key lookup `database.objects(type).filtered(keyField == k)`.
The two key fields used by the engine are `id` (the default) and
`sequenceKey`. -/
def keyFieldVal (e : Entity) (keyField : String) : Option String :=
  if keyField = "sequenceKey" then e.sequenceKey else some e.id

/-- The predicate of a primary-key lookup. -/
def keyPred (etype keyField k : String) (e : Entity) : Bool :=
  e.etype = etype && keyFieldVal e keyField = some k

/-- First stored object of the given type whose key field equals `k`. -/
def findByKey (db : DB) (etype : String) (keyField : String) (k : String) : Option Entity :=
  db.objects.find? (keyPred etype keyField k)

/-- First stored object of the given type with the given `id`. -/
def findObj (db : DB) (etype : String) (k : String) : Option Entity :=
  findByKey db etype "id" k

/-- `database.create(type, fields)`: store the given object. -/
def dbCreate (db : DB) (e : Entity) : Entity × DB :=
  (e, { db with objects := db.objects ++ [e] })

/-- `database.update(type, internalRecord)`: upsert by identifier.  When an
object with the identifier exists, the supplied fields overwrite it in
place (Realm update mode); otherwise a new object is created from the
supplied fields over the schema defaults.  `merge` writes exactly the
fields of the dispatcher's `internalRecord` (including `id := k`). -/
def dbUpdate (db : DB) (etype : String) (k : String) (merge : Entity → Entity) : Entity × DB :=
  match findObj db etype k with
  | some e =>
    (merge e,
     { db with objects := db.objects.map (fun x => if x.etype = etype && x.id = k then merge x else x) })
  | none =>
    dbCreate db (merge { etype := etype, id := k })

/-- A live-object mutation (`object.field = value`, `parent.addDependent(..)`)
written through to the store. -/
def modifyObject (db : DB) (etype : String) (k : String) (f : Entity → Entity) : DB :=
  { db with objects := db.objects.map (fun x => if x.etype = etype && x.id = k then f x else x) }

/-- `database.delete(type, object)`: remove the object (identified by its
type and primary key) from the store. -/
def dbDelete (db : DB) (etype : String) (k : String) : DB :=
  { db with objects := db.objects.filter (fun x => !(x.etype = etype && x.id = k)) }

/-- Modelled from the spec: a parent-side dependent collection is the set of
dependents pointing at the parent, so adding an already-present dependent
leaves it unchanged. -/
def insertIfAbsent (l : List String) (x : String) : List String :=
  if x ∈ l then l else l ++ [x]

/-- `generatePlaceholder(type, primaryKey)`: the default-valued template for
the given entity type, or `none` for the fatal
`throw new Error('Unsupported database object type.')` branch.  String
defaults are the literal `placeholder` marker, numeric defaults `0`, date
defaults the current wall clock, boolean defaults false.  The
`NumberSequence` template draws a fresh identifier from `generateUUID`
(threaded through the store's generator state). -/
def generatePlaceholder (env : Env) (db : DB) (type : String) (primaryKey : String) :
    Option (Entity × DB) :=
  let placeholderString : Option String := some "placeholder"
  let placeholderNumber : JsNum := .num 0
  let placeholderDate : Option JsDate := some (.clock env.now)
  match type with
  | "Address" =>
    some ({ etype := "Address", id := primaryKey }, db)
  | "Item" =>
    some ({ etype := "Item", id := primaryKey, code := placeholderString,
            name := placeholderString, defaultPackSize := placeholderNumber }, db)
  | "ItemCategory" =>
    some ({ etype := "ItemCategory", id := primaryKey, name := placeholderString }, db)
  | "ItemDepartment" =>
    some ({ etype := "ItemDepartment", id := primaryKey, name := placeholderString }, db)
  | "ItemBatch" =>
    some ({ etype := "ItemBatch", id := primaryKey, packSize := placeholderNumber,
            numberOfPacks := placeholderNumber, expiryDate := placeholderDate,
            batch := placeholderString, costPrice := placeholderNumber,
            sellPrice := placeholderNumber }, db)
  | "MasterList" =>
    some ({ etype := "MasterList", id := primaryKey, name := placeholderString }, db)
  | "Name" =>
    some ({ etype := "Name", id := primaryKey, name := placeholderString,
            code := placeholderString, type := placeholderString,
            isCustomer := false, isSupplier := false, isManufacturer := false }, db)
  | "NumberSequence" =>
    let fresh := generateUUID db
    some ({ etype := "NumberSequence", id := fresh.1, sequenceKey := some primaryKey }, fresh.2)
  | "Stocktake" =>
    some ({ etype := "Stocktake", id := primaryKey, name := placeholderString,
            createdDate := placeholderDate, status := placeholderString,
            serialNumber := placeholderString }, db)
  | "Transaction" =>
    some ({ etype := "Transaction", id := primaryKey, serialNumber := placeholderString,
            comment := placeholderString, entryDate := placeholderDate,
            type := placeholderString, status := placeholderString,
            theirRef := placeholderString }, db)
  | "TransactionCategory" =>
    some ({ etype := "TransactionCategory", id := primaryKey, name := placeholderString,
            code := placeholderString, type := placeholderString }, db)
  | "User" =>
    some ({ etype := "User", id := primaryKey, username := placeholderString,
            passwordHash := placeholderString }, db)
  | _ => none

/-- `getObject(database, type, primaryKey, primaryKeyField)`: null for a
falsy key; otherwise the first stored object matching the key, or a newly
created placeholder.  An `.error` result models the fatal throw of
`generatePlaceholder` for a type with no template. -/
def getObject (env : Env) (db : DB) (type : String) (primaryKey : Option String)
    (primaryKeyField : String) : Except Unit (Option Entity × DB) :=
  match primaryKey with
  | none => .ok (none, db)
  | some k =>
    if k.length < 1 then .ok (none, db)
    else
      match findByKey db type primaryKeyField k with
      | some e => .ok (some e, db)
      | none =>
        match generatePlaceholder env db type k with
        | some pd => .ok (some (dbCreate pd.2 pd.1).1, (dbCreate pd.2 pd.1).2)
        | none => .error ()

/-- The chained exact-match address query of `getOrCreateAddress`: all
Address objects, then one `filtered` step per supplied field. -/
def addressMatches (db : DB) (line1 line2 line3 line4 zipCode : Option String) : List Entity :=
  let results := db.objects.filter (fun e => e.etype = "Address")
  let results := match line1 with
    | some v => results.filter (fun e => e.line1 = some v)
    | none => results
  let results := match line2 with
    | some v => results.filter (fun e => e.line2 = some v)
    | none => results
  let results := match line3 with
    | some v => results.filter (fun e => e.line3 = some v)
    | none => results
  let results := match line4 with
    | some v => results.filter (fun e => e.line4 = some v)
    | none => results
  match zipCode with
  | some v => results.filter (fun e => e.zipCode = some v)
  | none => results

/-- `getOrCreateAddress(database, line1, .., zipCode)`: first match of the
query constrained by exactly the supplied fields, or a new Address with a
freshly generated identifier carrying exactly the supplied fields. -/
def getOrCreateAddress (db : DB) (line1 line2 line3 line4 zipCode : Option String) :
    Entity × DB :=
  match addressMatches db line1 line2 line3 line4 zipCode with
  | e :: _ => (e, db)
  | [] =>
    let fresh := generateUUID db
    dbCreate fresh.2
      { etype := "Address", id := fresh.1, line1 := line1, line2 := line2,
        line3 := line3, line4 := line4, zipCode := zipCode }

/-- `sanityCheckIncomingRecord(recordType, record)`: a non-empty `ID` plus
the per-type minimum required raw fields. -/
def sanityCheckIncomingRecord (recordType : String) (record : WireRecord) : Bool :=
  if !truthyStr record.ID then false
  else
    match recordType with
    | "Item" =>
      truthyStr record.code && truthyStr record.item_name && truthyStr record.default_pack_size
    | "ItemCategory" => record.Description.isSome
    | "ItemDepartment" => record.department.isSome
    | "ItemBatch" =>
      truthyStr record.item_ID && truthyStr record.pack_size && truthyStr record.quantity
        && truthyStr record.batch && truthyStr record.expiry_date
        && truthyStr record.cost_price && truthyStr record.sell_price
    | "ItemStoreJoin" => truthyStr record.item_ID && truthyStr record.store_ID
    | "MasterListNameJoin" => truthyStr record.name_ID && truthyStr record.list_master_ID
    | "MasterList" => record.description.isSome
    | "MasterListItem" => truthyStr record.item_ID
    | "Name" =>
      truthyStr record.name && truthyStr record.code && truthyStr record.type
        && truthyStr record.customer && truthyStr record.supplier
        && truthyStr record.manufacturer
    | "NameStoreJoin" => truthyStr record.name_ID && truthyStr record.store_ID
    | "NumberSequence" => truthyStr record.name && truthyStr record.value
    | "NumberToReuse" => truthyStr record.name && truthyStr record.number_to_use
    | "Requisition" =>
      truthyStr record.status && truthyStr record.date_entered && truthyStr record.type
        && truthyStr record.daysToSupply && truthyStr record.serial_number
    | "RequisitionItem" =>
      truthyStr record.requisition_ID && truthyStr record.item_ID
        && truthyStr record.stock_on_hand && truthyStr record.Cust_stock_order
    | "Stocktake" =>
      truthyStr record.Description && truthyStr record.stock_take_created_date
        && truthyStr record.status && truthyStr record.serial_number
    | "StocktakeBatch" =>
      truthyStr record.stock_take_ID && truthyStr record.item_line_ID
        && truthyStr record.snapshot_qty && truthyStr record.snapshot_packsize
        && truthyStr record.expiry && truthyStr record.Batch
        && truthyStr record.cost_price && truthyStr record.sell_price
    | "Transaction" =>
      truthyStr record.invoice_num && truthyStr record.name_ID && truthyStr record.entry_date
        && truthyStr record.type && truthyStr record.status
    | "TransactionCategory" =>
      truthyStr record.category && truthyStr record.code && truthyStr record.type
    | "TransactionBatch" =>
      truthyStr record.item_ID && truthyStr record.item_name && truthyStr record.item_line_ID
        && truthyStr record.batch && truthyStr record.expiry_date && truthyStr record.pack_size
        && truthyStr record.quantity && truthyStr record.transaction_ID
        && truthyStr record.cost_price && truthyStr record.sell_price
    | _ => false

/-- The identity reference held for a resolved object (`none` when the
relation is legitimately absent). -/
def refId (o : Option Entity) : Option String :=
  o.map Entity.id

/-- The `internalRecord` of the Item case. -/
def mergeItem (record : WireRecord) (category department : Option String)
    (packSize : JsNum) (e : Entity) : Entity :=
  { e with
    id := record.ID.getD "",
    category := category,
    code := record.code,
    defaultPackSize := .num 1,
    defaultPrice := if packSize.truthy then jsDiv (parseNumber record.buy_price) packSize
                    else .num 0,
    department := department,
    description := record.description,
    name := record.item_name }

/-- Item: resolve category and department, force pack size to one, derive
the per-unit default price, upsert. -/
def integrateItem (env : Env) (db : DB) (record : WireRecord) : Except Unit DB := do
  let packSize := parseNumber record.default_pack_size
  let r1 ← getObject env db "ItemCategory" record.category_ID "id"
  let r2 ← getObject env r1.2 "ItemDepartment" record.department_ID "id"
  return (dbUpdate r2.2 "Item" (record.ID.getD "")
    (mergeItem record (refId r1.1) (refId r2.1) packSize)).2

/-- The `internalRecord` of the ItemCategory case. -/
def mergeItemCategory (record : WireRecord) (e : Entity) : Entity :=
  { e with id := record.ID.getD "", name := record.Description }

/-- ItemCategory: plain field mapping. -/
def integrateItemCategory (db : DB) (record : WireRecord) : Except Unit DB :=
  .ok (dbUpdate db "ItemCategory" (record.ID.getD "") (mergeItemCategory record)).2

/-- The `internalRecord` of the ItemDepartment case. -/
def mergeItemDepartment (record : WireRecord) (e : Entity) : Entity :=
  { e with id := record.ID.getD "", name := record.department }

/-- ItemDepartment: plain field mapping. -/
def integrateItemDepartment (db : DB) (record : WireRecord) : Except Unit DB :=
  .ok (dbUpdate db "ItemDepartment" (record.ID.getD "") (mergeItemDepartment record)).2

/-- The `internalRecord` of the ItemBatch case. -/
def mergeItemBatch (record : WireRecord) (item supplier : Option String) (packSize : JsNum)
    (e : Entity) : Entity :=
  { e with
    id := record.ID.getD "",
    item := item,
    packSize := .num 1,
    numberOfPacks := jsMul (parseNumber record.quantity) packSize,
    expiryDate := parseDate record.expiry_date none,
    batch := record.batch,
    costPrice := if packSize.truthy then jsDiv (parseNumber record.sell_price) packSize
                 else .num 0,
    sellPrice := if packSize.truthy then jsDiv (parseNumber record.sell_price) packSize
                 else .num 0,
    supplier := supplier }

/-- ItemBatch: resolve item and supplier, pack-to-one normalize, upsert, and
register the batch with its item (`item.addBatch`; a TypeError on a null
item, unreachable once the sanity check has passed). -/
def integrateItemBatch (env : Env) (db : DB) (record : WireRecord) : Except Unit DB := do
  let ri ← getObject env db "Item" record.item_ID "id"
  let packSize := parseNumber record.pack_size
  let rs ← getObject env ri.2 "Name" record.name_ID "id"
  let u := dbUpdate rs.2 "ItemBatch" (record.ID.getD "")
    (mergeItemBatch record (refId ri.1) (refId rs.1) packSize)
  match ri.1 with
  | none => .error ()
  | some item =>
    return modifyObject u.2 "Item" item.id
      (fun e => { e with batches := insertIfAbsent e.batches u.1.id })

/-- The `internalRecord` of the ItemStoreJoin case. -/
def mergeItemStoreJoin (record : WireRecord) (joins : Bool) (e : Entity) : Entity :=
  { e with id := record.ID.getD "", itemId := record.item_ID, joinsThisStore := joins }

/-- ItemStoreJoin: record the join; when it joins this store, set the item's
visibility from the inverse of the `inactive` field. -/
def integrateItemStoreJoin (env : Env) (db : DB) (record : WireRecord) : Except Unit DB := do
  let joins : Bool := record.store_ID = some env.thisStoreId
  let u := dbUpdate db "ItemStoreJoin" (record.ID.getD "") (mergeItemStoreJoin record joins)
  if joins then do
    let ri ← getObject env u.2 "Item" record.item_ID "id"
    match ri.1 with
    | none => .error ()
    | some item =>
      return modifyObject ri.2 "Item" item.id
        (fun e => { e with isVisible := !parseBoolean record.inactive })
  else return u.2

/-- The `internalRecord` of the MasterListNameJoin case (here `name` holds
the identity reference to the joined Name). -/
def mergeMasterListNameJoin (record : WireRecord) (nameRef masterListRef : Option String)
    (e : Entity) : Entity :=
  { e with id := record.ID.getD "", name := nameRef, masterList := masterListRef }

/-- MasterListNameJoin: resolve both sides, set the Name's `masterList`
relation as a side effect, then record the join entity. -/
def integrateMasterListNameJoin (env : Env) (db : DB) (record : WireRecord) : Except Unit DB := do
  let rn ← getObject env db "Name" record.name_ID "id"
  let rm ← getObject env rn.2 "MasterList" record.list_master_ID "id"
  match rn.1 with
  | none => .error ()
  | some nameObj =>
    let db1 := modifyObject rm.2 "Name" nameObj.id (fun e => { e with masterList := refId rm.1 })
    return (dbUpdate db1 "MasterListNameJoin" (record.ID.getD "")
      (mergeMasterListNameJoin record (some nameObj.id) (refId rm.1))).2

/-- The `internalRecord` of the MasterList case. -/
def mergeMasterList (record : WireRecord) (e : Entity) : Entity :=
  { e with id := record.ID.getD "", name := record.description, note := record.note }

/-- MasterList: plain field mapping. -/
def integrateMasterList (db : DB) (record : WireRecord) : Except Unit DB :=
  .ok (dbUpdate db "MasterList" (record.ID.getD "") (mergeMasterList record)).2

/-- The `internalRecord` of the MasterListItem case. -/
def mergeMasterListItem (record : WireRecord) (item masterList : Option String)
    (e : Entity) : Entity :=
  { e with
    id := record.ID.getD "",
    item := item,
    imprestQuantity := parseNumber record.imprest_quan,
    masterList := masterList }

/-- MasterListItem: resolve the master list and item, upsert, and register
the item with its master list (`masterList.addItem`; a TypeError on a null
master list). -/
def integrateMasterListItem (env : Env) (db : DB) (record : WireRecord) : Except Unit DB := do
  let rm ← getObject env db "MasterList" record.item_master_ID "id"
  let ri ← getObject env rm.2 "Item" record.item_ID "id"
  let u := dbUpdate ri.2 "MasterListItem" (record.ID.getD "")
    (mergeMasterListItem record (refId ri.1) (refId rm.1))
  match rm.1 with
  | none => .error ()
  | some ml =>
    return modifyObject u.2 "MasterList" ml.id
      (fun e => { e with items := insertIfAbsent e.items u.1.id })

/-- The `internalRecord` of the Name case. -/
def mergeName (env : Env) (record : WireRecord) (billingAddress : Option String)
    (e : Entity) : Entity :=
  { e with
    id := record.ID.getD "",
    name := record.name,
    code := record.code,
    phoneNumber := record.phone,
    billingAddress := billingAddress,
    emailAddress := record.email,
    type := env.nameTypeTranslate record.type,
    isCustomer := parseBoolean record.customer,
    isSupplier := parseBoolean record.supplier,
    isManufacturer := parseBoolean record.manufacturer,
    supplyingStoreId := record.supplying_store_id }

/-- Name: resolve the billing address through the deduplicator, translate
the name type, upsert. -/
def integrateName (env : Env) (db : DB) (record : WireRecord) : Except Unit DB :=
  let a := getOrCreateAddress db record.bill_address1 record.bill_address2 record.bill_address3
    record.bill_address4 record.bill_postal_zip_code
  .ok (dbUpdate a.2 "Name" (record.ID.getD "") (mergeName env record (some a.1.id))).2

/-- The `internalRecord` of the NameStoreJoin case. -/
def mergeNameStoreJoin (record : WireRecord) (joins : Bool) (e : Entity) : Entity :=
  { e with id := record.ID.getD "", nameId := record.name_ID, joinsThisStore := joins }

/-- NameStoreJoin: record the join; when it joins this store, set the name's
visibility from the inverse of the `inactive` field. -/
def integrateNameStoreJoin (env : Env) (db : DB) (record : WireRecord) : Except Unit DB := do
  let joins : Bool := record.store_ID = some env.thisStoreId
  let u := dbUpdate db "NameStoreJoin" (record.ID.getD "") (mergeNameStoreJoin record joins)
  if joins then do
    let rn ← getObject env u.2 "Name" record.name_ID "id"
    match rn.1 with
    | none => .error ()
    | some nameObj =>
      return modifyObject rn.2 "Name" nameObj.id
        (fun e => { e with isVisible := !parseBoolean record.inactive })
  else return u.2

/-- The `internalRecord` of the NumberSequence case. -/
def mergeNumberSequence (record : WireRecord) (sequenceKey : Option String) (e : Entity) :
    Entity :=
  { e with
    id := record.ID.getD "",
    sequenceKey := sequenceKey,
    highestNumberUsed := parseNumber record.value }

/-- NumberSequence: translate the sequence name under this store's
identifier; a falsy key means the sequence belongs to another store and
integration is skipped. -/
def integrateNumberSequence (env : Env) (db : DB) (record : WireRecord) : Except Unit DB :=
  let sequenceKey := env.sequenceKeyTranslate record.name env.thisStoreId
  if !truthyStr sequenceKey then .ok db
  else .ok (dbUpdate db "NumberSequence" (record.ID.getD "")
    (mergeNumberSequence record sequenceKey)).2

/-- The `internalRecord` of the NumberToReuse case. -/
def mergeNumberToReuse (record : WireRecord) (numberSequence : Option String) (e : Entity) :
    Entity :=
  { e with
    id := record.ID.getD "",
    numberSequence := numberSequence,
    number := parseNumber record.number_to_use }

/-- NumberToReuse: translate the sequence name (skip when not this store's),
resolve the sequence by its `sequenceKey` field, upsert, and attach the
number to the sequence. -/
def integrateNumberToReuse (env : Env) (db : DB) (record : WireRecord) : Except Unit DB := do
  let sequenceKey := env.sequenceKeyTranslate record.name env.thisStoreId
  if !truthyStr sequenceKey then return db
  else do
    let rn ← getObject env db "NumberSequence" sequenceKey "sequenceKey"
    let u := dbUpdate rn.2 "NumberToReuse" (record.ID.getD "")
      (mergeNumberToReuse record (refId rn.1))
    match rn.1 with
    | none => .error ()
    | some ns =>
      return modifyObject u.2 "NumberSequence" ns.id
        (fun e => { e with numbersToReuse := insertIfAbsent e.numbersToReuse u.1.id })

/-- The `internalRecord` of the Requisition case. -/
def mergeRequisition (env : Env) (record : WireRecord) (user : Option String) (e : Entity) :
    Entity :=
  { e with
    id := record.ID.getD "",
    status := env.statusTranslate record.status,
    entryDate := parseDate record.date_entered none,
    daysToSupply := parseNumber record.daysToSupply,
    serialNumber := record.serial_number,
    user := user,
    type := env.requisitionTypeTranslate record.type }

/-- Requisition: translate status and type, resolve the user, upsert. -/
def integrateRequisition (env : Env) (db : DB) (record : WireRecord) : Except Unit DB := do
  let ru ← getObject env db "User" record.user_ID "id"
  return (dbUpdate ru.2 "Requisition" (record.ID.getD "")
    (mergeRequisition env record (refId ru.1))).2

/-- The `internalRecord` of the RequisitionItem case. -/
def mergeRequisitionItem (record : WireRecord) (requisitionRef itemRef : Option String)
    (dailyUsage : JsNum) (e : Entity) : Entity :=
  { e with
    id := record.ID.getD "",
    requisition := requisitionRef,
    item := itemRef,
    stockOnHand := parseNumber record.stock_on_hand,
    dailyUsage := dailyUsage,
    imprestQuantity := parseNumber record.imprest_or_prev_quantity,
    requiredQuantity := parseNumber record.actualQuan,
    comment := record.comment,
    sortIndex := parseNumber record.line_number }

/-- RequisitionItem: resolve the requisition (a fatal resolver error when it
is absent, since `generatePlaceholder` has no Requisition template), derive
the daily usage with the days-to-supply division guard, upsert, and
register the line with its requisition. -/
def integrateRequisitionItem (env : Env) (db : DB) (record : WireRecord) : Except Unit DB := do
  let rr ← getObject env db "Requisition" record.requisition_ID "id"
  match rr.1 with
  | none => .error ()
  | some requisition =>
    let dailyUsage := if requisition.daysToSupply.truthy
      then jsDiv (parseNumber record.Cust_stock_order) requisition.daysToSupply
      else .num 0
    let ri ← getObject env rr.2 "Item" record.item_ID "id"
    let u := dbUpdate ri.2 "RequisitionItem" (record.ID.getD "")
      (mergeRequisitionItem record (some requisition.id) (refId ri.1) dailyUsage)
    return modifyObject u.2 "Requisition" requisition.id
      (fun e => { e with items := insertIfAbsent e.items u.1.id })

/-- The `internalRecord` of the Stocktake case. -/
def mergeStocktake (env : Env) (record : WireRecord)
    (createdBy finalisedBy additions reductions : Option String) (e : Entity) : Entity :=
  { e with
    id := record.ID.getD "",
    name := record.Description,
    createdDate := parseDate record.stock_take_created_date none,
    stocktakeDate := parseDate record.stock_take_date record.stock_take_time,
    status := env.statusTranslate record.status,
    createdBy := createdBy,
    finalisedBy := finalisedBy,
    comment := record.comment,
    serialNumber := record.serial_number,
    additions := additions,
    reductions := reductions }

/-- Stocktake: resolve users and inventory-adjustment transactions,
translate the status, upsert. -/
def integrateStocktake (env : Env) (db : DB) (record : WireRecord) : Except Unit DB := do
  let r1 ← getObject env db "User" record.created_by_ID "id"
  let r2 ← getObject env r1.2 "User" record.finalised_by_ID "id"
  let r3 ← getObject env r2.2 "Transaction" record.invad_additions_ID "id"
  let r4 ← getObject env r3.2 "Transaction" record.invad_reductions_ID "id"
  return (dbUpdate r4.2 "Stocktake" (record.ID.getD "")
    (mergeStocktake env record (refId r1.1) (refId r2.1) (refId r3.1) (refId r4.1))).2

/-- The `internalRecord` of the StocktakeBatch case. -/
def mergeStocktakeBatch (record : WireRecord) (stocktakeRef itemBatchRef : Option String)
    (packSize numPacks : JsNum) (e : Entity) : Entity :=
  { e with
    id := record.ID.getD "",
    stocktake := stocktakeRef,
    itemBatch := itemBatchRef,
    snapshotNumberOfPacks := numPacks,
    packSize := .num 1,
    expiry := parseDate record.expiry none,
    batch := record.Batch,
    costPrice := if packSize.truthy then jsDiv (parseNumber record.cost_price) packSize
                 else .num 0,
    sellPrice := if packSize.truthy then jsDiv (parseNumber record.sell_price) packSize
                 else .num 0,
    countedNumberOfPacks := numPacks,
    sortIndex := parseNumber record.line_number }

/-- StocktakeBatch: resolve the stocktake and item batch, pack-to-one
normalize the snapshot quantities, upsert, and register the batch with its
stocktake. -/
def integrateStocktakeBatch (env : Env) (db : DB) (record : WireRecord) : Except Unit DB := do
  let rs ← getObject env db "Stocktake" record.stock_take_ID "id"
  let packSize := parseNumber record.snapshot_packsize
  let numPacks := jsMul (parseNumber record.snapshot_qty) packSize
  let rb ← getObject env rs.2 "ItemBatch" record.item_line_ID "id"
  let u := dbUpdate rb.2 "StocktakeBatch" (record.ID.getD "")
    (mergeStocktakeBatch record (refId rs.1) (refId rb.1) packSize numPacks)
  match rs.1 with
  | none => .error ()
  | some st =>
    return modifyObject u.2 "Stocktake" st.id
      (fun e => { e with batches := insertIfAbsent e.batches u.1.id })

/-- The `internalRecord` of the Transaction case. -/
def mergeTransaction (env : Env) (record : WireRecord) (e : Entity) : Entity :=
  { e with
    id := record.ID.getD "",
    serialNumber := record.invoice_num,
    comment := record.comment,
    entryDate := parseDate record.entry_date none,
    type := env.transactionTypeTranslate record.type,
    status := env.statusTranslate record.status,
    confirmDate := parseDate record.confirm_date none,
    theirRef := record.their_ref }

/-- Transaction: upsert, then set the other party, entering user and
category on the live object, and register the transaction with the other
party (`otherParty.addTransaction`; a TypeError on a null other party). -/
def integrateTransaction (env : Env) (db : DB) (record : WireRecord) : Except Unit DB := do
  let rop ← getObject env db "Name" record.name_ID "id"
  let u := dbUpdate rop.2 "Transaction" (record.ID.getD "") (mergeTransaction env record)
  let tid := u.1.id
  let db1 := modifyObject u.2 "Transaction" tid (fun e => { e with otherParty := refId rop.1 })
  let ru ← getObject env db1 "User" record.user_ID "id"
  let db2 := modifyObject ru.2 "Transaction" tid (fun e => { e with enteredBy := refId ru.1 })
  let rc ← getObject env db2 "TransactionCategory" record.category_ID "id"
  let db3 := modifyObject rc.2 "Transaction" tid (fun e => { e with category := refId rc.1 })
  match rop.1 with
  | none => .error ()
  | some op =>
    return modifyObject db3 "Name" op.id
      (fun e => { e with transactions := insertIfAbsent e.transactions tid })

/-- The `internalRecord` of the TransactionCategory case. -/
def mergeTransactionCategory (env : Env) (record : WireRecord) (e : Entity) : Entity :=
  { e with
    id := record.ID.getD "",
    name := record.category,
    code := record.code,
    type := env.transactionTypeTranslate record.type }

/-- TransactionCategory: plain field mapping with type translation. -/
def integrateTransactionCategory (env : Env) (db : DB) (record : WireRecord) : Except Unit DB :=
  .ok (dbUpdate db "TransactionCategory" (record.ID.getD "")
    (mergeTransactionCategory env record)).2

/-- The `internalRecord` of the TransactionBatch case. -/
def mergeTransactionBatch (record : WireRecord) (itemBatchRef transactionRef : Option String)
    (packSize : JsNum) (e : Entity) : Entity :=
  { e with
    id := record.ID.getD "",
    itemId := record.item_ID,
    itemName := record.item_name,
    itemBatch := itemBatchRef,
    packSize := .num 1,
    numberOfPacks := jsMul (parseNumber record.quantity) packSize,
    numberOfPacksSent := jsMul (parseNumber record.quantity) packSize,
    transaction := transactionRef,
    note := record.note,
    costPrice := if packSize.truthy then jsDiv (parseNumber record.cost_price) packSize
                 else .num 0,
    sellPrice := if packSize.truthy then jsDiv (parseNumber record.sell_price) packSize
                 else .num 0,
    sortIndex := parseNumber record.line_number,
    expiryDate := parseDate record.expiry_date none,
    batch := record.batch }

/-- TransactionBatch: resolve the transaction, item batch and item, re-link
the item batch's item relation, pack-to-one normalize, upsert, and register
the batch with both its transaction and its item batch.  The null cases of
the live-object operations (TypeErrors in the source) are unreachable once
the sanity check has passed. -/
def integrateTransactionBatch (env : Env) (db : DB) (record : WireRecord) : Except Unit DB := do
  let rt ← getObject env db "Transaction" record.transaction_ID "id"
  let rb ← getObject env rt.2 "ItemBatch" record.item_line_ID "id"
  let ri ← getObject env rb.2 "Item" record.item_ID "id"
  match rb.1, ri.1, rt.1 with
  | some ib, some item, some tx =>
    let db1 := modifyObject ri.2 "ItemBatch" ib.id (fun e => { e with item := some item.id })
    let db2 := modifyObject db1 "Item" item.id
      (fun e => { e with batches := insertIfAbsent e.batches ib.id })
    let packSize := parseNumber record.pack_size
    let u := dbUpdate db2 "TransactionBatch" (record.ID.getD "")
      (mergeTransactionBatch record (some ib.id) (some tx.id) packSize)
    let db3 := modifyObject u.2 "Transaction" tx.id
      (fun e => { e with batches := insertIfAbsent e.batches u.1.id })
    return modifyObject db3 "ItemBatch" ib.id
      (fun e => { e with transactionBatches := insertIfAbsent e.transactionBatches u.1.id })
  | _, _, _ => .error ()

/-- `createOrUpdateRecord(database, settings, recordType, record)`: after
the sanity check, dispatch on the internal record type; unsupported types
are silently ignored. -/
def createOrUpdateRecord (env : Env) (db : DB) (recordType : String) (record : WireRecord) :
    Except Unit DB :=
  if !sanityCheckIncomingRecord recordType record then .ok db
  else
    match recordType with
    | "Item" => integrateItem env db record
    | "ItemCategory" => integrateItemCategory db record
    | "ItemDepartment" => integrateItemDepartment db record
    | "ItemBatch" => integrateItemBatch env db record
    | "ItemStoreJoin" => integrateItemStoreJoin env db record
    | "MasterListNameJoin" => integrateMasterListNameJoin env db record
    | "MasterList" => integrateMasterList db record
    | "MasterListItem" => integrateMasterListItem env db record
    | "Name" => integrateName env db record
    | "NameStoreJoin" => integrateNameStoreJoin env db record
    | "NumberSequence" => integrateNumberSequence env db record
    | "NumberToReuse" => integrateNumberToReuse env db record
    | "Requisition" => integrateRequisition env db record
    | "RequisitionItem" => integrateRequisitionItem env db record
    | "Stocktake" => integrateStocktake env db record
    | "StocktakeBatch" => integrateStocktakeBatch env db record
    | "Transaction" => integrateTransaction env db record
    | "TransactionCategory" => integrateTransactionCategory env db record
    | "TransactionBatch" => integrateTransactionBatch env db record
    | _ => .ok db

/-- The record types the Deletion Handler supports (the fallthrough case
labels of its switch). -/
def deletableTypes : List String :=
  ["Item", "ItemBatch", "ItemCategory", "ItemDepartment", "ItemStoreJoin", "MasterList",
   "MasterListItem", "MasterListNameJoin", "Name", "NameStoreJoin", "NumberSequence",
   "NumberToReuse", "Requisition", "RequisitionItem", "Stocktake", "StocktakeBatch",
   "Transaction", "TransactionBatch", "TransactionCategory"]

/-- `deleteRecord(database, recordType, recordId)`: resolve via `getObject`
(which creates a placeholder when the record is absent, and throws for a
type with no placeholder template), then delete; unsupported types are
silently ignored.  The `none` case (`database.delete` applied to the null
returned for a falsy id) is modelled as the TypeError it would raise. -/
def deleteRecord (env : Env) (db : DB) (recordType : String) (recordId : Option String) :
    Except Unit DB :=
  if recordType ∈ deletableTypes then
    match getObject env db recordType recordId "id" with
    | .error u => .error u
    | .ok r =>
      match r.1 with
      | some e => .ok (dbDelete r.2 recordType e.id)
      | none => .error ()
  else .ok db

/-- A concrete collaborator environment for the concrete runs below. -/
def envW : Env :=
  { thisStoreId := "store1", now := 7,
    nameTypeTranslate := fun s => s,
    statusTranslate := fun s => s,
    transactionTypeTranslate := fun s => s,
    requisitionTypeTranslate := fun s => s,
    sequenceKeyTranslate := fun s _ => s }

/-- A collaborator environment whose sequence-key table owns no sequence of
this store. -/
def envNoSeq : Env :=
  { envW with sequenceKeyTranslate := fun _ _ => none }

/-- The empty store. -/
def dbW : DB := { objects := [], nextUuid := 0 }

/-- Runs an integration step, keeping the fallback store on the error path. -/
def runOk (x : Except Unit DB) (fallback : DB) : DB :=
  match x with
  | .ok d => d
  | .error _ => fallback

/-- C7 counterexample: `tRUE` equals `true` case-insensitively (character
by character under lowercasing), yet `parseBoolean` rejects it — the
translation is the literal list `['true', 'True', 'TRUE']`, not a
case-insensitive comparison. -/
theorem c7_parseBoolean_not_case_insensitive :
    parseBoolean (some "tRUE") = false
    ∧ "tRUE".toList.map Char.toLower = "true".toList := by
  constructor
  · rfl
  · decide

/-- C7 (amended): `parseBoolean s` is true exactly when `s` is one of the
three literal spellings `true`, `True`, `TRUE`; absent or empty input gives
false. -/
theorem c7_parseBoolean_amended :
    (∀ s : Option String,
      parseBoolean s = true ↔ s = some "true" ∨ s = some "True" ∨ s = some "TRUE")
    ∧ parseBoolean none = false ∧ parseBoolean (some "") = false := by
  refine ⟨fun s => ?_, rfl, rfl⟩
  cases s with
  | none => simp [parseBoolean]
  | some v =>
    constructor
    · intro h
      simp only [parseBoolean, Bool.and_eq_true, Bool.or_eq_true, decide_eq_true_eq, ne_eq] at h
      obtain ⟨h1, h2⟩ := h
      simp only [Option.some.injEq]
      tauto
    · intro h
      rcases h with h | h | h <;> simp only [Option.some.injEq] at h <;> subst h <;> decide

/-- C9: the sanity check is asymmetric about empty strings.  For
ItemCategory, ItemDepartment and MasterList the single descriptive field
only has to be present (a string — the empty string passes), while for
every other supported type each required field must be truthy, i.e.
present and non-empty.  The two closing conjuncts exhibit the asymmetry
concretely: an empty `Description` passes for ItemCategory, an empty
`name` fails for Name. -/
theorem c9_sanity_check_empty_string_asymmetry :
    (∀ r : WireRecord,
      sanityCheckIncomingRecord "ItemCategory" r = (truthyStr r.ID && r.Description.isSome))
    ∧ (∀ r : WireRecord,
      sanityCheckIncomingRecord "ItemDepartment" r = (truthyStr r.ID && r.department.isSome))
    ∧ (∀ r : WireRecord,
      sanityCheckIncomingRecord "MasterList" r = (truthyStr r.ID && r.description.isSome))
    ∧ (∀ r : WireRecord,
      sanityCheckIncomingRecord "Item" r =
        (truthyStr r.ID && (truthyStr r.code && truthyStr r.item_name
          && truthyStr r.default_pack_size)))
    ∧ (∀ r : WireRecord,
      sanityCheckIncomingRecord "ItemBatch" r =
        (truthyStr r.ID && (truthyStr r.item_ID && truthyStr r.pack_size
          && truthyStr r.quantity && truthyStr r.batch && truthyStr r.expiry_date
          && truthyStr r.cost_price && truthyStr r.sell_price)))
    ∧ (∀ r : WireRecord,
      sanityCheckIncomingRecord "ItemStoreJoin" r =
        (truthyStr r.ID && (truthyStr r.item_ID && truthyStr r.store_ID)))
    ∧ (∀ r : WireRecord,
      sanityCheckIncomingRecord "MasterListNameJoin" r =
        (truthyStr r.ID && (truthyStr r.name_ID && truthyStr r.list_master_ID)))
    ∧ (∀ r : WireRecord,
      sanityCheckIncomingRecord "MasterListItem" r = (truthyStr r.ID && truthyStr r.item_ID))
    ∧ (∀ r : WireRecord,
      sanityCheckIncomingRecord "Name" r =
        (truthyStr r.ID && (truthyStr r.name && truthyStr r.code && truthyStr r.type
          && truthyStr r.customer && truthyStr r.supplier && truthyStr r.manufacturer)))
    ∧ (∀ r : WireRecord,
      sanityCheckIncomingRecord "NameStoreJoin" r =
        (truthyStr r.ID && (truthyStr r.name_ID && truthyStr r.store_ID)))
    ∧ (∀ r : WireRecord,
      sanityCheckIncomingRecord "NumberSequence" r =
        (truthyStr r.ID && (truthyStr r.name && truthyStr r.value)))
    ∧ (∀ r : WireRecord,
      sanityCheckIncomingRecord "NumberToReuse" r =
        (truthyStr r.ID && (truthyStr r.name && truthyStr r.number_to_use)))
    ∧ (∀ r : WireRecord,
      sanityCheckIncomingRecord "Requisition" r =
        (truthyStr r.ID && (truthyStr r.status && truthyStr r.date_entered
          && truthyStr r.type && truthyStr r.daysToSupply && truthyStr r.serial_number)))
    ∧ (∀ r : WireRecord,
      sanityCheckIncomingRecord "RequisitionItem" r =
        (truthyStr r.ID && (truthyStr r.requisition_ID && truthyStr r.item_ID
          && truthyStr r.stock_on_hand && truthyStr r.Cust_stock_order)))
    ∧ (∀ r : WireRecord,
      sanityCheckIncomingRecord "Stocktake" r =
        (truthyStr r.ID && (truthyStr r.Description && truthyStr r.stock_take_created_date
          && truthyStr r.status && truthyStr r.serial_number)))
    ∧ (∀ r : WireRecord,
      sanityCheckIncomingRecord "StocktakeBatch" r =
        (truthyStr r.ID && (truthyStr r.stock_take_ID && truthyStr r.item_line_ID
          && truthyStr r.snapshot_qty && truthyStr r.snapshot_packsize && truthyStr r.expiry
          && truthyStr r.Batch && truthyStr r.cost_price && truthyStr r.sell_price)))
    ∧ (∀ r : WireRecord,
      sanityCheckIncomingRecord "Transaction" r =
        (truthyStr r.ID && (truthyStr r.invoice_num && truthyStr r.name_ID
          && truthyStr r.entry_date && truthyStr r.type && truthyStr r.status)))
    ∧ (∀ r : WireRecord,
      sanityCheckIncomingRecord "TransactionCategory" r =
        (truthyStr r.ID && (truthyStr r.category && truthyStr r.code && truthyStr r.type)))
    ∧ (∀ r : WireRecord,
      sanityCheckIncomingRecord "TransactionBatch" r =
        (truthyStr r.ID && (truthyStr r.item_ID && truthyStr r.item_name
          && truthyStr r.item_line_ID && truthyStr r.batch && truthyStr r.expiry_date
          && truthyStr r.pack_size && truthyStr r.quantity && truthyStr r.transaction_ID
          && truthyStr r.cost_price && truthyStr r.sell_price)))
    ∧ sanityCheckIncomingRecord "ItemCategory" { ID := some "a", Description := some "" } = true
    ∧ sanityCheckIncomingRecord "Name"
        { ID := some "a", name := some "", code := some "c", type := some "t",
          customer := some "f", supplier := some "f", manufacturer := some "f" } = false := by
  refine ⟨?_, ?_, ?_, ?_, ?_, ?_, ?_, ?_, ?_, ?_, ?_, ?_, ?_, ?_, ?_, ?_, ?_, ?_, ?_,
    by decide, by decide⟩ <;>
    intro r <;>
    rcases h : truthyStr r.ID with _ | _ <;>
    simp [sanityCheckIncomingRecord, h]

/-- C6: when the sequence-name translation under this store's identifier is
null, integrating a NumberSequence or NumberToReuse record creates and
updates nothing — the store is returned unchanged and no error is raised.
The translation tables live outside the provided sources and are modelled
from the spec as the environment's `sequenceKeyTranslate`. -/
theorem c6_store_scoped_sequence_skip (env : Env) (db : DB) (r : WireRecord)
    (h : env.sequenceKeyTranslate r.name env.thisStoreId = none) :
    createOrUpdateRecord env db "NumberSequence" r = .ok db
    ∧ createOrUpdateRecord env db "NumberToReuse" r = .ok db := by
  constructor
  · by_cases hs : sanityCheckIncomingRecord "NumberSequence" r = true
    · simp [createOrUpdateRecord, hs, integrateNumberSequence, h, truthyStr]
    · simp [createOrUpdateRecord, hs]
  · by_cases hs : sanityCheckIncomingRecord "NumberToReuse" r = true
    · simp [createOrUpdateRecord, hs, integrateNumberToReuse, h, truthyStr, pure, Except.pure]
    · simp [createOrUpdateRecord, hs]

/-- Witness for C6: a concrete sequence record under an environment whose
sequence table owns nothing is skipped for both record types. -/
theorem c6_store_scoped_sequence_skip_witness :
    createOrUpdateRecord envNoSeq dbW "NumberSequence"
      { ID := some "n1", name := some "supplier_invoice_number", value := some "5",
        number_to_use := some "3" } = .ok dbW
    ∧ createOrUpdateRecord envNoSeq dbW "NumberToReuse"
      { ID := some "n1", name := some "supplier_invoice_number", value := some "5",
        number_to_use := some "3" } = .ok dbW :=
  c6_store_scoped_sequence_skip envNoSeq dbW
    { ID := some "n1", name := some "supplier_invoice_number", value := some "5",
      number_to_use := some "3" } rfl

theorem find?_map_pres {α : Type} (p : α → Bool) (g : α → α) (l : List α)
    (hp : ∀ x ∈ l, p (g x) = p x) :
    (l.map g).find? p = (l.find? p).map g := by
  induction l with
  | nil => rfl
  | cons a t ih =>
    rcases ha : p a with _ | _ <;>
      simp_all [List.find?_cons]

theorem find?_cond_map_id {α : Type} (p q : α → Bool) (g : α → α) (l : List α)
    (hg : ∀ x ∈ l, q x = true → g x = x) :
    (l.map (fun x => if q x then g x else x)).find? p = l.find? p := by
  have : l.map (fun x => if q x then g x else x) = l := by
    rw [List.map_congr_left (g := id), List.map_id]
    intro a ha
    by_cases hq : q a = true <;> simp [hq, hg a ha]
  rw [this]

theorem map_cond_id {α : Type} (q : α → Bool) (g : α → α) (l : List α)
    (hg : ∀ x ∈ l, q x = true → g x = x) :
    l.map (fun x => if q x then g x else x) = l := by
  rw [List.map_congr_left (g := id), List.map_id]
  intro a ha
  by_cases hq : q a = true <;> simp [hq, hg a ha]

theorem keyPred_of_pres (t f k : String) (e : Entity) (g : Entity → Entity)
    (h1 : (g e).etype = e.etype) (h2 : keyFieldVal (g e) f = keyFieldVal e f) :
    keyPred t f k (g e) = keyPred t f k e := by
  simp [keyPred, h1, h2]

theorem findByKey_modifyObject_pres (db : DB) (t2 k2 : String) (g : Entity → Entity)
    (t f k : String)
    (hg : ∀ x, (g x).etype = x.etype ∧ keyFieldVal (g x) f = keyFieldVal x f) :
    findByKey (modifyObject db t2 k2 g) t f k
      = (findByKey db t f k).map (fun x => if x.etype = t2 && x.id = k2 then g x else x) := by
  unfold findByKey modifyObject
  apply find?_map_pres
  intro x _
  by_cases hx : (x.etype = t2 && x.id = k2) = true <;>
    simp only [hx, if_true, if_false, Bool.not_eq_true] at * <;>
    simp [hx, keyPred, (hg x).1, (hg x).2]

theorem findByKey_modifyObject_other (db : DB) (t2 k2 : String) (g : Entity → Entity)
    (t f k : String) (ht : t ≠ t2) (hty : ∀ x, (g x).etype = x.etype) :
    findByKey (modifyObject db t2 k2 g) t f k = findByKey db t f k := by
  unfold findByKey modifyObject
  rw [find?_map_pres]
  · rcases he : db.objects.find? (keyPred t f k) with _ | e
    · rfl
    · have hp := List.find?_some he
      have het : e.etype = t := by
        simp only [keyPred, Bool.and_eq_true, decide_eq_true_eq] at hp
        exact hp.1
      simp [het, ht]
  · intro x _
    by_cases hx : (x.etype = t2 && x.id = k2) = true
    · have hxe : x.etype = t2 := by
        simp only [Bool.and_eq_true, decide_eq_true_eq] at hx
        exact hx.1
      have hgx : (g x).etype = t2 := by rw [hty x, hxe]
      have h1 : keyPred t f k (g x) = false := by simp [keyPred, hgx, Ne.symm ht]
      have h2 : keyPred t f k x = false := by simp [keyPred, hxe, Ne.symm ht]
      simp [hx, h1, h2]
    · simp [hx]

theorem length_not_lt_one (s : String) (h : s ≠ "") : ¬(s.length < 1) := by
  simp only [Nat.lt_one_iff]
  intro hz
  exact h (String.ext (List.length_eq_zero.mp hz))

theorem find?_append_or {α : Type} (l : List α) (p : α → Bool) (a : α) :
    (l ++ [a]).find? p = (l.find? p).or (if p a then some a else none) := by
  rw [List.find?_append]
  rcases h : p a with _ | _ <;> simp [List.find?, h]

theorem findByKey_dbCreate (db : DB) (e : Entity) (t f k : String) :
    findByKey (dbCreate db e).2 t f k
      = (findByKey db t f k).or (if keyPred t f k e then some e else none) := by
  unfold findByKey dbCreate
  exact find?_append_or db.objects (keyPred t f k) e

theorem keyFieldVal_id (e : Entity) : keyFieldVal e "id" = some e.id := by
  simp [keyFieldVal]

theorem keyPred_id (t k : String) (e : Entity) :
    keyPred t "id" k e = (e.etype = t && e.id = k) := by
  simp [keyPred, keyFieldVal]

theorem findObj_dbUpdate_self (db : DB) (t k : String) (m : Entity → Entity)
    (hty : ∀ x, (m x).etype = x.etype) (hid : ∀ x, (m x).id = k) :
    findObj (dbUpdate db t k m).2 t k
      = some (m ((findObj db t k).getD { etype := t, id := k })) := by
  rcases he : findObj db t k with _ | e
  · unfold findObj at he ⊢
    unfold dbUpdate findObj
    rw [he]
    rw [findByKey_dbCreate, he]
    have hpred : keyPred t "id" k (m { etype := t, id := k }) = true := by
      simp [keyPred_id, hty, hid]
    simp [hpred]
  · unfold findObj at he ⊢
    unfold dbUpdate findObj
    rw [he]
    unfold findByKey at he ⊢
    simp only
    rw [find?_map_pres]
    · rw [he]
      have hp := List.find?_some he
      rw [keyPred_id] at hp
      simp only [Bool.and_eq_true, decide_eq_true_eq] at hp
      simp [hp.1, hp.2]
    · intro x _
      by_cases hx : (x.etype = t && x.id = k) = true
      · have hxp : x.etype = t ∧ x.id = k := by
          simpa [Bool.and_eq_true, decide_eq_true_eq] using hx
        have h1 : keyPred t "id" k (m x) = true := by
          simp [keyPred_id, hty, hid, hxp.1]
        have h2 : keyPred t "id" k x = true := by
          simp [keyPred_id, hxp.1, hxp.2]
        simp [hx, h1, h2]
      · simp [hx]

theorem findByKey_dbUpdate_other (db : DB) (t0 k0 : String) (m : Entity → Entity)
    (t f k : String) (ht : t ≠ t0) (hty : ∀ x, (m x).etype = x.etype) :
    findByKey (dbUpdate db t0 k0 m).2 t f k = findByKey db t f k := by
  rcases he : findObj db t0 k0 with _ | e
  · unfold dbUpdate
    rw [he]
    rw [findByKey_dbCreate]
    have hpred : keyPred t f k (m { etype := t0, id := k0 }) = false := by
      have : (m { etype := t0, id := k0 }).etype = t0 := hty _
      simp [keyPred, this, Ne.symm ht]
    simp [hpred]
  · unfold dbUpdate
    rw [he]
    unfold findByKey
    simp only
    rw [find?_map_pres]
    · rcases hf : db.objects.find? (keyPred t f k) with _ | a
      · rfl
      · have hp := List.find?_some hf
        have hat : a.etype = t := by
          simp only [keyPred, Bool.and_eq_true, decide_eq_true_eq] at hp
          exact hp.1
        have : ¬(a.etype = t0 && a.id = k0) = true := by
          simp [hat, ht]
        simp [this]
        intro h1 h2
        exact absurd (hat.symm.trans h1) ht
    · intro x _
      by_cases hx : (x.etype = t0 && x.id = k0) = true
      · have hxe : x.etype = t0 := by
          simp only [Bool.and_eq_true, decide_eq_true_eq] at hx
          exact hx.1
        have hgx : (m x).etype = t0 := by rw [hty x, hxe]
        have h1 : keyPred t f k (m x) = false := by simp [keyPred, hgx, Ne.symm ht]
        have h2 : keyPred t f k x = false := by simp [keyPred, hxe, Ne.symm ht]
        simp [hx, h1, h2]
      · simp [hx]

theorem dbUpdate_pointwise_id (db : DB) (t k : String) (m : Entity → Entity) (e : Entity)
    (he : findObj db t k = some e)
    (hm : ∀ x ∈ db.objects, x.etype = t → x.id = k → m x = x) :
    dbUpdate db t k m = (m e, db) := by
  unfold dbUpdate
  rw [he]
  have : db.objects.map (fun x => if x.etype = t && x.id = k then m x else x) = db.objects := by
    apply map_cond_id
    intro x hx hq
    have hxp : x.etype = t ∧ x.id = k := by
      simpa [Bool.and_eq_true, decide_eq_true_eq] using hq
    exact hm x hx hxp.1 hxp.2
  rw [this]

theorem modifyObject_pointwise_id (db : DB) (t k : String) (g : Entity → Entity)
    (hg : ∀ x ∈ db.objects, x.etype = t → x.id = k → g x = x) :
    modifyObject db t k g = db := by
  unfold modifyObject
  have : db.objects.map (fun x => if x.etype = t && x.id = k then g x else x) = db.objects := by
    apply map_cond_id
    intro x hx hq
    have hxp : x.etype = t ∧ x.id = k := by
      simpa [Bool.and_eq_true, decide_eq_true_eq] using hq
    exact hg x hx hxp.1 hxp.2
  rw [this]

theorem getObject_found (env : Env) (db : DB) (t f k : String) (e : Entity)
    (hk : k ≠ "") (he : findByKey db t f k = some e) :
    getObject env db t (some k) f = .ok (some e, db) := by
  unfold getObject
  simp [length_not_lt_one k hk, he]

theorem getObject_ok_cases (env : Env) (db : DB) (t : String) (k : Option String) (f : String)
    (res : Option Entity) (db2 : DB)
    (h : getObject env db t k f = .ok (res, db2)) :
    (res = none ∧ db2 = db ∧ (k = none ∨ k = some "")) ∨
    (∃ s e, k = some s ∧ s ≠ "" ∧ findByKey db t f s = some e ∧ res = some e ∧ db2 = db) ∨
    (∃ s pd, k = some s ∧ s ≠ "" ∧ findByKey db t f s = none
      ∧ generatePlaceholder env db t s = some pd ∧ res = some pd.1
      ∧ db2 = (dbCreate pd.2 pd.1).2) := by
  rcases k with _ | s
  · left
    unfold getObject at h
    simp at h
    exact ⟨h.1.symm, h.2.symm, Or.inl rfl⟩
  · by_cases hs : s = ""
    · left
      subst hs
      unfold getObject at h
      simp [String.length] at h
      exact ⟨h.1.symm, h.2.symm, Or.inr rfl⟩
    · simp only [getObject] at h
      rw [if_neg (length_not_lt_one s hs)] at h
      rcases hf : findByKey db t f s with _ | e
      · rw [hf] at h
        rcases hp : generatePlaceholder env db t s with _ | pd
        · rw [hp] at h
          cases h
        · rw [hp] at h
          simp at h
          right; right
          exact ⟨s, pd, rfl, hs, hf, hp, h.1.symm, h.2.symm⟩
      · rw [hf] at h
        simp at h
        right; left
        exact ⟨s, e, rfl, hs, hf, h.1.symm, h.2.symm⟩

theorem findObj_modifyObject_other (db : DB) (t2 k2 : String) (g : Entity → Entity)
    (t k : String) (ht : t ≠ t2) (hty : ∀ x, (g x).etype = x.etype) :
    findObj (modifyObject db t2 k2 g) t k = findObj db t k :=
  findByKey_modifyObject_other db t2 k2 g t "id" k ht hty

theorem findObj_dbUpdate_other (db : DB) (t0 k0 : String) (m : Entity → Entity)
    (t k : String) (ht : t ≠ t0) (hty : ∀ x, (m x).etype = x.etype) :
    findObj (dbUpdate db t0 k0 m).2 t k = findObj db t k :=
  findByKey_dbUpdate_other db t0 k0 m t "id" k ht hty

theorem integrateItem_target (env : Env) (db db1 : DB) (r : WireRecord)
    (hok : integrateItem env db r = .ok db1) :
    ∃ cat dept x, findObj db1 "Item" (r.ID.getD "")
      = some (mergeItem r cat dept (parseNumber r.default_pack_size) x) := by
  unfold integrateItem at hok
  rcases hg1 : getObject env db "ItemCategory" r.category_ID "id" with u | p1
  · rw [hg1] at hok
    simp [Bind.bind, Except.bind] at hok
  · rw [hg1] at hok
    simp only [Bind.bind, Except.bind] at hok
    rcases hg2 : getObject env p1.2 "ItemDepartment" r.department_ID "id" with u | p2
    · rw [hg2] at hok
      simp at hok
    · rw [hg2] at hok
      simp only [pure, Except.pure, Except.ok.injEq] at hok
      subst hok
      rw [findObj_dbUpdate_self]
      rotate_left
      · intro x
        rfl
      · intro x
        rfl
      exact ⟨_, _, _, rfl⟩

theorem integrateItemBatch_target (env : Env) (db db1 : DB) (r : WireRecord)
    (hok : integrateItemBatch env db r = .ok db1) :
    ∃ item supplier x, findObj db1 "ItemBatch" (r.ID.getD "")
      = some (mergeItemBatch r item supplier (parseNumber r.pack_size) x) := by
  unfold integrateItemBatch at hok
  rcases hg1 : getObject env db "Item" r.item_ID "id" with u | p1
  · rw [hg1] at hok
    simp [Bind.bind, Except.bind] at hok
  · rw [hg1] at hok
    simp only [Bind.bind, Except.bind] at hok
    rcases hg2 : getObject env p1.2 "Name" r.name_ID "id" with u | p2
    · rw [hg2] at hok
      simp at hok
    · rw [hg2] at hok
      simp only at hok
      rcases h1 : p1.1 with _ | item
      · rw [h1] at hok
        cases hok
      · rw [h1] at hok
        simp only [pure, Except.pure, Except.ok.injEq] at hok
        subst hok
        rw [findObj_modifyObject_other]
        rotate_left
        · decide
        · intro x
          rfl
        rw [findObj_dbUpdate_self]
        rotate_left
        · intro x
          rfl
        · intro x
          rfl
        exact ⟨_, _, _, rfl⟩

theorem integrateStocktakeBatch_target (env : Env) (db db1 : DB) (r : WireRecord)
    (hok : integrateStocktakeBatch env db r = .ok db1) :
    ∃ st ib x, findObj db1 "StocktakeBatch" (r.ID.getD "")
      = some (mergeStocktakeBatch r st ib (parseNumber r.snapshot_packsize)
          (jsMul (parseNumber r.snapshot_qty) (parseNumber r.snapshot_packsize)) x) := by
  unfold integrateStocktakeBatch at hok
  rcases hg1 : getObject env db "Stocktake" r.stock_take_ID "id" with u | p1
  · rw [hg1] at hok
    simp [Bind.bind, Except.bind] at hok
  · rw [hg1] at hok
    simp only [Bind.bind, Except.bind] at hok
    rcases hg2 : getObject env p1.2 "ItemBatch" r.item_line_ID "id" with u | p2
    · rw [hg2] at hok
      simp at hok
    · rw [hg2] at hok
      simp only at hok
      rcases h1 : p1.1 with _ | st
      · rw [h1] at hok
        cases hok
      · rw [h1] at hok
        simp only [pure, Except.pure, Except.ok.injEq] at hok
        subst hok
        rw [findObj_modifyObject_other]
        rotate_left
        · decide
        · intro x
          rfl
        rw [findObj_dbUpdate_self]
        rotate_left
        · intro x
          rfl
        · intro x
          rfl
        exact ⟨_, _, _, rfl⟩

theorem integrateTransactionBatch_target (env : Env) (db db1 : DB) (r : WireRecord)
    (hok : integrateTransactionBatch env db r = .ok db1) :
    ∃ ib tx x, findObj db1 "TransactionBatch" (r.ID.getD "")
      = some (mergeTransactionBatch r ib tx (parseNumber r.pack_size) x) := by
  unfold integrateTransactionBatch at hok
  rcases hg1 : getObject env db "Transaction" r.transaction_ID "id" with u | p1
  · rw [hg1] at hok
    simp [Bind.bind, Except.bind] at hok
  · rw [hg1] at hok
    simp only [Bind.bind, Except.bind] at hok
    rcases hg2 : getObject env p1.2 "ItemBatch" r.item_line_ID "id" with u | p2
    · rw [hg2] at hok
      simp at hok
    · rw [hg2] at hok
      simp only [Bind.bind, Except.bind] at hok
      rcases hg3 : getObject env p2.2 "Item" r.item_ID "id" with u | p3
      · rw [hg3] at hok
        simp at hok
      · rw [hg3] at hok
        simp only at hok
        rcases h1 : p2.1 with _ | ib
        · rw [h1] at hok
          cases hok
        · rcases h2 : p3.1 with _ | item
          · rw [h1, h2] at hok
            cases hok
          · rcases h3 : p1.1 with _ | tx
            · rw [h1, h2, h3] at hok
              cases hok
            · rw [h1, h2, h3] at hok
              simp only [pure, Except.pure, Except.ok.injEq] at hok
              subst hok
              rw [findObj_modifyObject_other]
              rotate_left
              · decide
              · intro x
                rfl
              rw [findObj_modifyObject_other]
              rotate_left
              · decide
              · intro x
                rfl
              rw [findObj_dbUpdate_self]
              rotate_left
              · intro x
                rfl
              · intro x
                rfl
              exact ⟨_, _, _, rfl⟩

theorem integrateRequisitionItem_target (env : Env) (db db1 : DB) (r : WireRecord)
    (hok : integrateRequisitionItem env db r = .ok db1) :
    ∃ k req itemRef x, r.requisition_ID = some k ∧ k ≠ ""
      ∧ findObj db "Requisition" k = some req
      ∧ findObj db1 "RequisitionItem" (r.ID.getD "")
        = some (mergeRequisitionItem r (some req.id) itemRef
            (if req.daysToSupply.truthy
             then jsDiv (parseNumber r.Cust_stock_order) req.daysToSupply
             else .num 0) x) := by
  unfold integrateRequisitionItem at hok
  rcases hg1 : getObject env db "Requisition" r.requisition_ID "id" with u | p1
  · rw [hg1] at hok
    simp [Bind.bind, Except.bind] at hok
  · rw [hg1] at hok
    simp only [Bind.bind, Except.bind] at hok
    rcases h1 : p1.1 with _ | req
    · rw [h1] at hok
      cases hok
    · rw [h1] at hok
      simp only at hok
      rcases getObject_ok_cases env db "Requisition" r.requisition_ID "id" p1.1 p1.2
          (by rw [hg1]) with ⟨hres, _, _⟩ | ⟨s, e, hk, hs, hf, hres, hdb⟩ |
          ⟨s, pd, hk, hs, hf, hp, hres, hdb⟩
      · rw [h1] at hres
        cases hres
      · rw [h1] at hres
        injection hres with hres
        subst hres
        rcases hg2 : getObject env p1.2 "Item" r.item_ID "id" with u | p2
        · rw [hg2] at hok
          simp at hok
        · rw [hg2] at hok
          simp only [pure, Except.pure, Except.ok.injEq] at hok
          subst hok
          refine ⟨s, req, refId p2.1,
            (findObj p2.2 "RequisitionItem" (r.ID.getD "")).getD
              { etype := "RequisitionItem", id := r.ID.getD "" },
            hk, hs, hf, ?hfind⟩
          case hfind =>
            rw [findObj_modifyObject_other]
            rotate_left
            · decide
            · intro x
              rfl
            rw [findObj_dbUpdate_self]
            rotate_left
            · intro x
              rfl
            · intro x
              rfl
      · simp [generatePlaceholder] at hp

/-- C4: pack-size normalization.  For an ItemBatch, StocktakeBatch or
TransactionBatch record that passes the sanity check, with pack size
parsing to `P` and quantity to `Q`, the integrated entity stores
`packSize = 1` and its pack-count fields (`numberOfPacks`;
`snapshotNumberOfPacks` and `countedNumberOfPacks`; `numberOfPacks` and
`numberOfPacksSent`) equal to `P * Q`. -/
theorem c4_pack_size_normalization (env : Env) :
    (∀ (db db1 : DB) (r : WireRecord) (P Q : ℚ),
      sanityCheckIncomingRecord "ItemBatch" r = true →
      parseNumber r.pack_size = .num P →
      parseNumber r.quantity = .num Q →
      createOrUpdateRecord env db "ItemBatch" r = .ok db1 →
      ∃ e, findObj db1 "ItemBatch" (r.ID.getD "") = some e
        ∧ e.packSize = .num 1 ∧ e.numberOfPacks = .num (P * Q))
    ∧ (∀ (db db1 : DB) (r : WireRecord) (P Q : ℚ),
      sanityCheckIncomingRecord "StocktakeBatch" r = true →
      parseNumber r.snapshot_packsize = .num P →
      parseNumber r.snapshot_qty = .num Q →
      createOrUpdateRecord env db "StocktakeBatch" r = .ok db1 →
      ∃ e, findObj db1 "StocktakeBatch" (r.ID.getD "") = some e
        ∧ e.packSize = .num 1 ∧ e.snapshotNumberOfPacks = .num (P * Q)
        ∧ e.countedNumberOfPacks = .num (P * Q))
    ∧ (∀ (db db1 : DB) (r : WireRecord) (P Q : ℚ),
      sanityCheckIncomingRecord "TransactionBatch" r = true →
      parseNumber r.pack_size = .num P →
      parseNumber r.quantity = .num Q →
      createOrUpdateRecord env db "TransactionBatch" r = .ok db1 →
      ∃ e, findObj db1 "TransactionBatch" (r.ID.getD "") = some e
        ∧ e.packSize = .num 1 ∧ e.numberOfPacks = .num (P * Q)
        ∧ e.numberOfPacksSent = .num (P * Q)) := by
  refine ⟨?_, ?_, ?_⟩
  · intro db db1 r P Q hsane hP hQ hok
    rw [createOrUpdateRecord, hsane] at hok
    simp only [Bool.not_true, Bool.false_eq_true, if_false] at hok
    obtain ⟨item, supplier, x, hfind⟩ := integrateItemBatch_target env db db1 r hok
    refine ⟨_, hfind, rfl, ?_⟩
    show jsMul (parseNumber r.quantity) (parseNumber r.pack_size) = JsNum.num (P * Q)
    rw [hP, hQ]
    show JsNum.num (Q * P) = JsNum.num (P * Q)
    rw [mul_comm]
  · intro db db1 r P Q hsane hP hQ hok
    rw [createOrUpdateRecord, hsane] at hok
    simp only [Bool.not_true, Bool.false_eq_true, if_false] at hok
    obtain ⟨st, ib, x, hfind⟩ := integrateStocktakeBatch_target env db db1 r hok
    refine ⟨_, hfind, rfl, ?_, ?_⟩ <;>
    · show jsMul (parseNumber r.snapshot_qty) (parseNumber r.snapshot_packsize) = JsNum.num (P * Q)
      rw [hP, hQ]
      show JsNum.num (Q * P) = JsNum.num (P * Q)
      rw [mul_comm]
  · intro db db1 r P Q hsane hP hQ hok
    rw [createOrUpdateRecord, hsane] at hok
    simp only [Bool.not_true, Bool.false_eq_true, if_false] at hok
    obtain ⟨ib, tx, x, hfind⟩ := integrateTransactionBatch_target env db db1 r hok
    refine ⟨_, hfind, rfl, ?_, ?_⟩ <;>
    · show jsMul (parseNumber r.quantity) (parseNumber r.pack_size) = JsNum.num (P * Q)
      rw [hP, hQ]
      show JsNum.num (Q * P) = JsNum.num (P * Q)
      rw [mul_comm]

/-- A concrete ItemBatch record: pack size 3, quantity 2. -/
def rITB : WireRecord :=
  { ID := some "b1", item_ID := some "i1", pack_size := some "3", quantity := some "2",
    batch := some "B", expiry_date := some "2020-01-01", cost_price := some "5",
    sell_price := some "10" }

/-- A concrete StocktakeBatch record: snapshot pack size 3, quantity 2. -/
def rSTB : WireRecord :=
  { ID := some "sb1", stock_take_ID := some "st1", item_line_ID := some "ib1",
    snapshot_qty := some "2", snapshot_packsize := some "3", expiry := some "2020-01-01",
    Batch := some "B", cost_price := some "5", sell_price := some "10" }

/-- A concrete TransactionBatch record: pack size 3, quantity 2. -/
def rTXB : WireRecord :=
  { ID := some "tb1", item_ID := some "i1", item_name := some "nm",
    item_line_ID := some "ib1", batch := some "B", expiry_date := some "2020-01-01",
    pack_size := some "3", quantity := some "2", transaction_ID := some "t1",
    cost_price := some "5", sell_price := some "10" }

/-- Witness for C4: the three concrete batch records integrate on the empty
store with pack size 1 and six packs. -/
theorem c4_pack_size_normalization_witness :
    (∃ e, findObj (runOk (createOrUpdateRecord envW dbW "ItemBatch" rITB) dbW)
        "ItemBatch" (rITB.ID.getD "") = some e
      ∧ e.packSize = .num 1 ∧ e.numberOfPacks = .num (3 * 2))
    ∧ (∃ e, findObj (runOk (createOrUpdateRecord envW dbW "StocktakeBatch" rSTB) dbW)
        "StocktakeBatch" (rSTB.ID.getD "") = some e
      ∧ e.packSize = .num 1 ∧ e.snapshotNumberOfPacks = .num (3 * 2)
      ∧ e.countedNumberOfPacks = .num (3 * 2))
    ∧ (∃ e, findObj (runOk (createOrUpdateRecord envW dbW "TransactionBatch" rTXB) dbW)
        "TransactionBatch" (rTXB.ID.getD "") = some e
      ∧ e.packSize = .num 1 ∧ e.numberOfPacks = .num (3 * 2)
      ∧ e.numberOfPacksSent = .num (3 * 2)) :=
  ⟨(c4_pack_size_normalization envW).1 dbW _ rITB 3 2 (by decide) (by decide) (by decide) rfl,
   (c4_pack_size_normalization envW).2.1 dbW _ rSTB 3 2 (by decide) (by decide) (by decide) rfl,
   (c4_pack_size_normalization envW).2.2 dbW _ rTXB 3 2 (by decide) (by decide) (by decide) rfl⟩

/-- C5: division by zero is guarded, never an error.  A RequisitionItem
whose resolved Requisition has `daysToSupply = 0` integrates with
`dailyUsage = 0` (a plain zero, not NaN or an infinity); an Item or batch
record whose pack size parses to `0` integrates with derived prices
(`defaultPrice`, `costPrice`, `sellPrice`) equal to `0`; and a batch or
item record with the pack size absent altogether fails the sanity check,
so integration is a silent no-op rather than an error. -/
theorem c5_division_guards (env : Env) :
    (∀ (db db1 : DB) (r : WireRecord) (k : String) (q : Entity),
      r.requisition_ID = some k →
      findObj db "Requisition" k = some q →
      q.daysToSupply = .num 0 →
      sanityCheckIncomingRecord "RequisitionItem" r = true →
      createOrUpdateRecord env db "RequisitionItem" r = .ok db1 →
      ∃ e, findObj db1 "RequisitionItem" (r.ID.getD "") = some e ∧ e.dailyUsage = .num 0)
    ∧ (∀ (db db1 : DB) (r : WireRecord),
      sanityCheckIncomingRecord "Item" r = true →
      parseNumber r.default_pack_size = .num 0 →
      createOrUpdateRecord env db "Item" r = .ok db1 →
      ∃ e, findObj db1 "Item" (r.ID.getD "") = some e ∧ e.defaultPrice = .num 0)
    ∧ (∀ (db db1 : DB) (r : WireRecord),
      sanityCheckIncomingRecord "ItemBatch" r = true →
      parseNumber r.pack_size = .num 0 →
      createOrUpdateRecord env db "ItemBatch" r = .ok db1 →
      ∃ e, findObj db1 "ItemBatch" (r.ID.getD "") = some e
        ∧ e.costPrice = .num 0 ∧ e.sellPrice = .num 0)
    ∧ (∀ (db db1 : DB) (r : WireRecord),
      sanityCheckIncomingRecord "StocktakeBatch" r = true →
      parseNumber r.snapshot_packsize = .num 0 →
      createOrUpdateRecord env db "StocktakeBatch" r = .ok db1 →
      ∃ e, findObj db1 "StocktakeBatch" (r.ID.getD "") = some e
        ∧ e.costPrice = .num 0 ∧ e.sellPrice = .num 0)
    ∧ (∀ (db db1 : DB) (r : WireRecord),
      sanityCheckIncomingRecord "TransactionBatch" r = true →
      parseNumber r.pack_size = .num 0 →
      createOrUpdateRecord env db "TransactionBatch" r = .ok db1 →
      ∃ e, findObj db1 "TransactionBatch" (r.ID.getD "") = some e
        ∧ e.costPrice = .num 0 ∧ e.sellPrice = .num 0)
    ∧ (∀ (db : DB) (r : WireRecord), r.pack_size = none →
      createOrUpdateRecord env db "ItemBatch" r = .ok db
      ∧ createOrUpdateRecord env db "TransactionBatch" r = .ok db)
    ∧ (∀ (db : DB) (r : WireRecord), r.default_pack_size = none →
      createOrUpdateRecord env db "Item" r = .ok db)
    ∧ (∀ (db : DB) (r : WireRecord), r.snapshot_packsize = none →
      createOrUpdateRecord env db "StocktakeBatch" r = .ok db) := by
  refine ⟨?_, ?_, ?_, ?_, ?_, ?_, ?_, ?_⟩
  · intro db db1 r k q hk hq hq0 hsane hok
    rw [createOrUpdateRecord, hsane] at hok
    simp only [Bool.not_true, Bool.false_eq_true, if_false] at hok
    obtain ⟨k1, req, itemRef, x, hk1, hks, hfq, hfind⟩ :=
      integrateRequisitionItem_target env db db1 r hok
    rw [hk] at hk1
    injection hk1 with hk1
    subst hk1
    rw [hq] at hfq
    injection hfq with hfq
    subst hfq
    refine ⟨_, hfind, ?_⟩
    show (if q.daysToSupply.truthy
          then jsDiv (parseNumber r.Cust_stock_order) q.daysToSupply
          else .num 0) = JsNum.num 0
    rw [hq0]
    simp [JsNum.truthy]
  · intro db db1 r hsane hP0 hok
    rw [createOrUpdateRecord, hsane] at hok
    simp only [Bool.not_true, Bool.false_eq_true, if_false] at hok
    obtain ⟨cat, dept, x, hfind⟩ := integrateItem_target env db db1 r hok
    refine ⟨_, hfind, ?_⟩
    show (if (parseNumber r.default_pack_size).truthy
          then jsDiv (parseNumber r.buy_price) (parseNumber r.default_pack_size)
          else .num 0) = JsNum.num 0
    rw [hP0]
    simp [JsNum.truthy]
  · intro db db1 r hsane hP0 hok
    rw [createOrUpdateRecord, hsane] at hok
    simp only [Bool.not_true, Bool.false_eq_true, if_false] at hok
    obtain ⟨item, supplier, x, hfind⟩ := integrateItemBatch_target env db db1 r hok
    refine ⟨_, hfind, ?_, ?_⟩ <;>
    · show (if (parseNumber r.pack_size).truthy
            then jsDiv (parseNumber r.sell_price) (parseNumber r.pack_size)
            else .num 0) = JsNum.num 0
      rw [hP0]
      simp [JsNum.truthy]
  · intro db db1 r hsane hP0 hok
    rw [createOrUpdateRecord, hsane] at hok
    simp only [Bool.not_true, Bool.false_eq_true, if_false] at hok
    obtain ⟨st, ib, x, hfind⟩ := integrateStocktakeBatch_target env db db1 r hok
    refine ⟨_, hfind, ?_, ?_⟩
    · show (if (parseNumber r.snapshot_packsize).truthy
            then jsDiv (parseNumber r.cost_price) (parseNumber r.snapshot_packsize)
            else .num 0) = JsNum.num 0
      rw [hP0]
      simp [JsNum.truthy]
    · show (if (parseNumber r.snapshot_packsize).truthy
            then jsDiv (parseNumber r.sell_price) (parseNumber r.snapshot_packsize)
            else .num 0) = JsNum.num 0
      rw [hP0]
      simp [JsNum.truthy]
  · intro db db1 r hsane hP0 hok
    rw [createOrUpdateRecord, hsane] at hok
    simp only [Bool.not_true, Bool.false_eq_true, if_false] at hok
    obtain ⟨ib, tx, x, hfind⟩ := integrateTransactionBatch_target env db db1 r hok
    refine ⟨_, hfind, ?_, ?_⟩
    · show (if (parseNumber r.pack_size).truthy
            then jsDiv (parseNumber r.cost_price) (parseNumber r.pack_size)
            else .num 0) = JsNum.num 0
      rw [hP0]
      simp [JsNum.truthy]
    · show (if (parseNumber r.pack_size).truthy
            then jsDiv (parseNumber r.sell_price) (parseNumber r.pack_size)
            else .num 0) = JsNum.num 0
      rw [hP0]
      simp [JsNum.truthy]
  · intro db r hnone
    constructor <;>
    · have hs : truthyStr r.pack_size = false := by rw [hnone]; rfl
      by_cases hid : truthyStr r.ID = true <;>
        simp [createOrUpdateRecord, sanityCheckIncomingRecord, hid, hs]
  · intro db r hnone
    have hs : truthyStr r.default_pack_size = false := by rw [hnone]; rfl
    by_cases hid : truthyStr r.ID = true <;>
      simp [createOrUpdateRecord, sanityCheckIncomingRecord, hid, hs]
  · intro db r hnone
    have hs : truthyStr r.snapshot_packsize = false := by rw [hnone]; rfl
    by_cases hid : truthyStr r.ID = true <;>
      simp [createOrUpdateRecord, sanityCheckIncomingRecord, hid, hs]

/-- A stored Requisition whose days to supply is zero. -/
def reqZeroDays : Entity := { etype := "Requisition", id := "r1", daysToSupply := .num 0 }

/-- A store holding only `reqZeroDays`. -/
def dbReq : DB := { objects := [reqZeroDays], nextUuid := 0 }

/-- A RequisitionItem record pointing at `reqZeroDays`. -/
def rRQI : WireRecord :=
  { ID := some "ri1", requisition_ID := some "r1", item_ID := some "i1",
    stock_on_hand := some "5", Cust_stock_order := some "10" }

/-- Witness for C5: concrete zero-pack-size and zero-days-to-supply records
integrate with zero derived values, and records with the pack size absent
are silently skipped. -/
theorem c5_division_guards_witness :
    (∃ e, findObj (runOk (createOrUpdateRecord envW dbReq "RequisitionItem" rRQI) dbReq)
        "RequisitionItem" (rRQI.ID.getD "") = some e ∧ e.dailyUsage = .num 0)
    ∧ (∃ e, findObj (runOk (createOrUpdateRecord envW dbW "Item"
          { ID := some "i1", code := some "c", item_name := some "n",
            default_pack_size := some "0" }) dbW)
        "Item" "i1" = some e ∧ e.defaultPrice = .num 0)
    ∧ (∃ e, findObj (runOk (createOrUpdateRecord envW dbW "ItemBatch"
          { rITB with pack_size := some "0" }) dbW)
        "ItemBatch" (rITB.ID.getD "") = some e ∧ e.costPrice = .num 0 ∧ e.sellPrice = .num 0)
    ∧ (∃ e, findObj (runOk (createOrUpdateRecord envW dbW "StocktakeBatch"
          { rSTB with snapshot_packsize := some "0" }) dbW)
        "StocktakeBatch" (rSTB.ID.getD "") = some e
      ∧ e.costPrice = .num 0 ∧ e.sellPrice = .num 0)
    ∧ (∃ e, findObj (runOk (createOrUpdateRecord envW dbW "TransactionBatch"
          { rTXB with pack_size := some "0" }) dbW)
        "TransactionBatch" (rTXB.ID.getD "") = some e
      ∧ e.costPrice = .num 0 ∧ e.sellPrice = .num 0)
    ∧ createOrUpdateRecord envW dbW "ItemBatch" {} = .ok dbW
    ∧ createOrUpdateRecord envW dbW "TransactionBatch" {} = .ok dbW
    ∧ createOrUpdateRecord envW dbW "Item" {} = .ok dbW
    ∧ createOrUpdateRecord envW dbW "StocktakeBatch" {} = .ok dbW :=
  ⟨(c5_division_guards envW).1 dbReq _ rRQI "r1" reqZeroDays rfl rfl rfl (by decide) rfl,
   (c5_division_guards envW).2.1 dbW _
     { ID := some "i1", code := some "c", item_name := some "n",
       default_pack_size := some "0" } (by decide) (by decide) rfl,
   (c5_division_guards envW).2.2.1 dbW _ { rITB with pack_size := some "0" }
     (by decide) (by decide) rfl,
   (c5_division_guards envW).2.2.2.1 dbW _ { rSTB with snapshot_packsize := some "0" }
     (by decide) (by decide) rfl,
   (c5_division_guards envW).2.2.2.2.1 dbW _ { rTXB with pack_size := some "0" }
     (by decide) (by decide) rfl,
   ((c5_division_guards envW).2.2.2.2.2.1 dbW {} rfl).1,
   ((c5_division_guards envW).2.2.2.2.2.1 dbW {} rfl).2,
   (c5_division_guards envW).2.2.2.2.2.2.1 dbW {} rfl,
   (c5_division_guards envW).2.2.2.2.2.2.2 dbW {} rfl⟩

/-- C3 (code defect): placeholder construction is not total over the entity
types the engine requests.  `generatePlaceholder` has no Requisition
template, yet the Requisition is resolved through `getObject` both during
RequisitionItem integration and during deletion, so a RequisitionItem
arriving before its Requisition — or a delete for an absent Requisition —
hits the fatal `Unsupported database object type` branch. -/
theorem c3_requisition_placeholder_missing :
    generatePlaceholder envW dbW "Requisition" "r1" = none
    ∧ createOrUpdateRecord envW dbW "RequisitionItem" rRQI = .error ()
    ∧ deleteRecord envW dbW "Requisition" (some "r1") = .error () :=
  ⟨rfl, rfl, rfl⟩

/-- C2 counterexample: deleting an absent Requisition is not a no-op — it
throws, because the resolver tries to build a placeholder for a type with
no template. -/
theorem c2_delete_absent_requisition_throws :
    deleteRecord envW dbW "Requisition" (some "r2") = .error () := rfl

/-- The deletable types that have a placeholder template. -/
def templatedDeletable : List String :=
  ["Item", "ItemBatch", "ItemCategory", "ItemDepartment", "MasterList", "Name",
   "NumberSequence", "Stocktake", "Transaction", "TransactionCategory"]

/-- The deletable types with no placeholder template. -/
def untemplatedDeletable : List String :=
  ["ItemStoreJoin", "MasterListItem", "MasterListNameJoin", "NameStoreJoin",
   "NumberToReuse", "Requisition", "RequisitionItem", "StocktakeBatch", "TransactionBatch"]

theorem findObj_none_clean (db : DB) (t k : String) (h : findObj db t k = none) :
    ∀ e ∈ db.objects, ¬(e.etype = t ∧ e.id = k) := by
  intro e he hc
  have := List.find?_eq_none.mp h e he
  apply this
  simp [keyPred, keyFieldVal, hc.1, hc.2]

theorem deleteRecord_absent_generic (env : Env) (db : DB) (t k : String)
    (pd : Entity × DB)
    (hmem : t ∈ deletableTypes) (hk : k ≠ "") (habs : findObj db t k = none)
    (hp : generatePlaceholder env db t k = some pd)
    (hty : pd.1.etype = t)
    (hobj : pd.2.objects = db.objects)
    (hclean : ∀ e ∈ db.objects, ¬(e.etype = t ∧ e.id = pd.1.id)) :
    ∃ db1, deleteRecord env db t (some k) = .ok db1 ∧ db1.objects = db.objects := by
  unfold deleteRecord
  rw [if_pos hmem]
  simp only [getObject]
  rw [if_neg (length_not_lt_one k hk)]
  rw [show findByKey db t "id" k = none from habs, hp]
  refine ⟨_, rfl, ?_⟩
  show ((dbCreate pd.2 pd.1).2.objects.filter
    (fun x => !(x.etype = t && x.id = (dbCreate pd.2 pd.1).1.id))) = db.objects
  unfold dbCreate
  rw [List.filter_append, hobj]
  have h1 : db.objects.filter (fun x => !(x.etype = t && x.id = pd.1.id)) = db.objects := by
    apply List.filter_eq_self.mpr
    intro e he
    have := hclean e he
    simp only [Bool.not_eq_eq_eq_not, Bool.not_true, Bool.and_eq_false_iff]
    by_cases h : e.etype = t
    · right
      simp only [decide_eq_false_iff_not]
      intro hid
      exact this ⟨h, hid⟩
    · left
      simp [h]
  have h2 : List.filter (fun x => !(x.etype = t && x.id = pd.1.id)) [pd.1] = [] := by
    simp [List.filter, hty]
  rw [h1, h2, List.append_nil]

/-- C2 (amended): `deleteRecord` resolves through `getObject`, which does
create a placeholder when the identifier is absent.  For the deletable
types that have a placeholder template, deleting an absent identifier
creates the placeholder and immediately deletes it, so no error is raised
and the stored objects are unchanged (for NumberSequence this needs the
freshly drawn identifier not to collide with a stored one); for the
deletable types without a template, deleting an absent identifier throws
the fatal unsupported-type error instead of being a no-op. -/
theorem c2_delete_absent_amended (env : Env) (db : DB) (t k : String) :
    (t ∈ templatedDeletable → k ≠ "" → findObj db t k = none →
      (∀ e ∈ db.objects, e.id ≠ uuidString db.nextUuid) →
      ∃ db1, deleteRecord env db t (some k) = .ok db1 ∧ db1.objects = db.objects)
    ∧ (t ∈ untemplatedDeletable → k ≠ "" → findObj db t k = none →
      deleteRecord env db t (some k) = .error ()) := by
  constructor
  · intro hmem hk habs hfresh
    have hclean := findObj_none_clean db t k habs
    simp only [templatedDeletable, List.mem_cons, List.not_mem_nil, or_false] at hmem
    rcases hmem with h | h | h | h | h | h | h | h | h | h <;> subst h
    case inl =>
      exact deleteRecord_absent_generic env db _ k _ (by decide) hk habs rfl rfl rfl hclean
    all_goals
      first
      | exact deleteRecord_absent_generic env db _ k _ (by decide) hk habs rfl rfl rfl hclean
      | exact deleteRecord_absent_generic env db _ k _ (by decide) hk habs rfl rfl rfl
          (fun e he hc => hfresh e he hc.2)
  · intro hmem hk habs
    simp only [untemplatedDeletable, List.mem_cons, List.not_mem_nil, or_false] at hmem
    rcases hmem with h | h | h | h | h | h | h | h | h <;> subst h <;>
    · unfold deleteRecord
      rw [if_pos (by decide)]
      simp only [getObject]
      rw [if_neg (length_not_lt_one k hk)]
      rw [show findByKey db _ "id" k = none from habs]
      rfl

/-- Witness for C2 (amended): on the empty store, deleting an absent Item
leaves the store unchanged without error, and deleting an absent
Requisition throws. -/
theorem c2_delete_absent_amended_witness :
    (∃ db1, deleteRecord envW dbW "Item" (some "i9") = .ok db1
      ∧ db1.objects = dbW.objects)
    ∧ deleteRecord envW dbW "Requisition" (some "r9") = .error () :=
  ⟨(c2_delete_absent_amended envW dbW "Item" "i9").1 (by decide) (by decide) rfl
      (by intro e he; cases he),
   (c2_delete_absent_amended envW dbW "Requisition" "r9").2 (by decide) (by decide) rfl⟩

/-- C10: `getOrCreateAddress` with no address fields supplied never yields
null.  With nothing supplied, no `filtered` step runs: if the store holds
any Address the first one is returned and the store is untouched; only on
a store with no Address is a new one created, carrying nothing but the
freshly generated identifier. -/
theorem c10_get_address_no_fields (db : DB) :
    (∀ e rest, db.objects.filter (fun x => x.etype = "Address") = e :: rest →
      getOrCreateAddress db none none none none none = (e, db))
    ∧ (db.objects.filter (fun x => x.etype = "Address") = [] →
      (getOrCreateAddress db none none none none none).1.etype = "Address"
      ∧ (getOrCreateAddress db none none none none none).1.id = uuidString db.nextUuid
      ∧ (getOrCreateAddress db none none none none none).1.line1 = none
      ∧ (getOrCreateAddress db none none none none none).1.line2 = none
      ∧ (getOrCreateAddress db none none none none none).1.line3 = none
      ∧ (getOrCreateAddress db none none none none none).1.line4 = none
      ∧ (getOrCreateAddress db none none none none none).1.zipCode = none
      ∧ (getOrCreateAddress db none none none none none).2.objects
          = db.objects ++ [(getOrCreateAddress db none none none none none).1]) := by
  constructor
  · intro e rest h
    unfold getOrCreateAddress
    simp only [addressMatches]
    rw [h]
  · intro h
    unfold getOrCreateAddress
    simp only [addressMatches]
    rw [h]
    exact ⟨rfl, rfl, rfl, rfl, rfl, rfl, rfl, rfl⟩

/-- A stored Address with one line. -/
def addrE : Entity := { etype := "Address", id := "a1", line1 := some "L" }

/-- A store holding only `addrE`. -/
def dbAddr : DB := { objects := [addrE], nextUuid := 5 }

/-- Witness for C10: on a store with one Address the call returns it
unchanged; on the empty store it creates an identifier-only Address. -/
theorem c10_get_address_no_fields_witness :
    getOrCreateAddress dbAddr none none none none none = (addrE, dbAddr)
    ∧ ((getOrCreateAddress dbW none none none none none).1.etype = "Address"
      ∧ (getOrCreateAddress dbW none none none none none).1.id = uuidString dbW.nextUuid
      ∧ (getOrCreateAddress dbW none none none none none).1.line1 = none
      ∧ (getOrCreateAddress dbW none none none none none).1.line2 = none
      ∧ (getOrCreateAddress dbW none none none none none).1.line3 = none
      ∧ (getOrCreateAddress dbW none none none none none).1.line4 = none
      ∧ (getOrCreateAddress dbW none none none none none).1.zipCode = none
      ∧ (getOrCreateAddress dbW none none none none none).2.objects
          = dbW.objects ++ [(getOrCreateAddress dbW none none none none none).1]) :=
  ⟨(c10_get_address_no_fields dbAddr).1 addrE [] rfl,
   (c10_get_address_no_fields dbW).2 rfl⟩

theorem getOrCreateAddress_found (db : DB) (line1 line2 line3 line4 zipCode : Option String)
    (e : Entity) (rest : List Entity)
    (h : addressMatches db line1 line2 line3 line4 zipCode = e :: rest) :
    getOrCreateAddress db line1 line2 line3 line4 zipCode = (e, db) := by
  unfold getOrCreateAddress
  rw [h]

theorem getOrCreateAddress_created (db : DB) (line1 line2 line3 line4 zipCode : Option String)
    (h : addressMatches db line1 line2 line3 line4 zipCode = []) :
    getOrCreateAddress db line1 line2 line3 line4 zipCode
      = ({ etype := "Address", id := uuidString db.nextUuid, line1 := line1, line2 := line2,
           line3 := line3, line4 := line4, zipCode := zipCode },
         { objects := db.objects
             ++ [{ etype := "Address", id := uuidString db.nextUuid, line1 := line1,
                   line2 := line2, line3 := line3, line4 := line4, zipCode := zipCode }],
           nextUuid := db.nextUuid + 1 }) := by
  unfold getOrCreateAddress
  rw [h]
  rfl

theorem addressMatches_line1_zip (db : DB) (l1 z : String)
    (hno : ∀ e ∈ db.objects, e.etype = "Address" → e.line1 ≠ some l1) :
    addressMatches db (some l1) none none none (some z) = [] := by
  simp only [addressMatches]
  have h1 : (db.objects.filter (fun e => e.etype = "Address")).filter
      (fun e => e.line1 = some l1) = [] := by
    apply List.filter_eq_nil_iff.mpr
    intro a ha
    obtain ⟨ham, hap⟩ := List.mem_filter.mp ha
    have := hno a ham (by simpa using hap)
    simp [this]
  rw [h1]
  rfl

theorem addressMatches_append_hit (db : DB) (l1 z : String) (a : Entity)
    (hno : ∀ e ∈ db.objects, e.etype = "Address" → e.line1 ≠ some l1)
    (hae : a.etype = "Address") (hal : a.line1 = some l1) (haz : a.zipCode = some z) :
    addressMatches { objects := db.objects ++ [a], nextUuid := db.nextUuid + 1 }
      (some l1) none none none (some z) = [a] := by
  simp only [addressMatches]
  rw [List.filter_append, List.filter_append]
  have h1 : (db.objects.filter (fun e => e.etype = "Address")).filter
      (fun e => e.line1 = some l1) = [] := by
    apply List.filter_eq_nil_iff.mpr
    intro b hb
    obtain ⟨hbm, hbp⟩ := List.mem_filter.mp hb
    have := hno b hbm (by simpa using hbp)
    simp [this]
  rw [h1]
  have h2 : List.filter (fun e => e.line1 = some l1)
      (List.filter (fun e => e.etype = "Address") [a]) = [a] := by
    simp [List.filter, hae, hal]
  rw [h2]
  simp [List.filter, haz]

theorem addressMatches_append_miss (db : DB) (l1 z z2 : String) (a : Entity)
    (hno : ∀ e ∈ db.objects, e.etype = "Address" → e.line1 ≠ some l1)
    (haz : a.zipCode = some z) (hz : z ≠ z2) :
    addressMatches { objects := db.objects ++ [a], nextUuid := db.nextUuid + 1 }
      (some l1) none none none (some z2) = [] := by
  simp only [addressMatches]
  rw [List.filter_append, List.filter_append]
  have h1 : (db.objects.filter (fun e => e.etype = "Address")).filter
      (fun e => e.line1 = some l1) = [] := by
    apply List.filter_eq_nil_iff.mpr
    intro b hb
    obtain ⟨hbm, hbp⟩ := List.mem_filter.mp hb
    have := hno b hbm (by simpa using hbp)
    simp [this]
  rw [h1]
  apply List.filter_eq_nil_iff.mpr
  intro b hb
  simp only [List.nil_append] at hb
  have hb2 := (List.mem_filter.mp hb).1
  have hb3 := (List.mem_filter.mp hb2).1
  have : b = a := by
    rcases List.mem_singleton.mp hb3 with h
    exact h
  subst this
  rw [haz]
  simp only [decide_eq_true_eq, Option.some.injEq]
  exact hz

/-- C8: the Address Deduplicator queries on exactly the supplied fields and
returns the first match, creating a fresh-identifier Address carrying
exactly the supplied fields only when nothing matches.  Consequently —
starting from a store with no Address on the given first line — two calls
supplying the same (line1, zip) return the same Address with no second
creation, and a third call differing only in zip appends a second,
different Address. -/
theorem c8_address_dedup :
    (∀ (db : DB) (l1 l2 l3 l4 z : Option String) (e : Entity) (rest : List Entity),
      addressMatches db l1 l2 l3 l4 z = e :: rest →
      getOrCreateAddress db l1 l2 l3 l4 z = (e, db))
    ∧ (∀ (db : DB) (l1 l2 l3 l4 z : Option String),
      addressMatches db l1 l2 l3 l4 z = [] →
      getOrCreateAddress db l1 l2 l3 l4 z
        = ({ etype := "Address", id := uuidString db.nextUuid, line1 := l1, line2 := l2,
             line3 := l3, line4 := l4, zipCode := z },
           { objects := db.objects
               ++ [{ etype := "Address", id := uuidString db.nextUuid, line1 := l1,
                     line2 := l2, line3 := l3, line4 := l4, zipCode := z }],
             nextUuid := db.nextUuid + 1 }))
    ∧ (∀ (db : DB) (l1 z z2 : String) (a1 a2 a3 : Entity) (dbA db2 db3 : DB),
      (∀ e ∈ db.objects, e.etype = "Address" → e.line1 ≠ some l1) →
      z ≠ z2 →
      getOrCreateAddress db (some l1) none none none (some z) = (a1, dbA) →
      getOrCreateAddress dbA (some l1) none none none (some z) = (a2, db2) →
      getOrCreateAddress dbA (some l1) none none none (some z2) = (a3, db3) →
      (a2 = a1 ∧ db2 = dbA)
      ∧ (db3.objects = dbA.objects ++ [a3] ∧ a3 ≠ a1)) := by
  refine ⟨getOrCreateAddress_found, getOrCreateAddress_created, ?_⟩
  intro db l1 z z2 a1 a2 a3 dbA db2 db3 hno hz hc1 hc2 hc3
  rw [getOrCreateAddress_created db (some l1) none none none (some z)
    (addressMatches_line1_zip db l1 z hno)] at hc1
  injection hc1 with ha1 hdbA
  subst hdbA
  rw [getOrCreateAddress_found _ (some l1) none none none (some z) _ []
    (addressMatches_append_hit db l1 z _ hno rfl rfl rfl)] at hc2
  injection hc2 with ha2 hdb2
  rw [getOrCreateAddress_created _ (some l1) none none none (some z2)
    (addressMatches_append_miss db l1 z z2 _ hno rfl hz)] at hc3
  injection hc3 with ha3 hdb3
  refine ⟨⟨?_, hdb2.symm⟩, ?_, ?_⟩
  · rw [← ha2]
    exact ha1
  · rw [← hdb3, ← ha3]
  · rw [← ha3, ← ha1]
    intro hcontra
    have := congrArg Entity.zipCode hcontra
    simp only [Option.some.injEq] at this
    exact hz this.symm

/-- Witness for C8: on a one-Address store the matching call returns that
Address; on the empty store a call creates the supplied-fields Address; and
the two-identical-calls-then-different-zip scenario returns the same
Address twice and then appends a different one. -/
theorem c8_address_dedup_witness :
    getOrCreateAddress dbAddr (some "L") none none none none = (addrE, dbAddr)
    ∧ getOrCreateAddress dbW (some "L") none none none (some "Z")
      = ({ etype := "Address", id := uuidString dbW.nextUuid, line1 := some "L",
           line2 := none, line3 := none, line4 := none, zipCode := some "Z" },
         { objects := dbW.objects
             ++ [{ etype := "Address", id := uuidString dbW.nextUuid, line1 := some "L",
                   line2 := none, line3 := none, line4 := none, zipCode := some "Z" }],
           nextUuid := dbW.nextUuid + 1 })
    ∧ (((getOrCreateAddress (getOrCreateAddress dbW (some "L") none none none (some "Z")).2
          (some "L") none none none (some "Z")).1
        = (getOrCreateAddress dbW (some "L") none none none (some "Z")).1
      ∧ (getOrCreateAddress (getOrCreateAddress dbW (some "L") none none none (some "Z")).2
          (some "L") none none none (some "Z")).2
        = (getOrCreateAddress dbW (some "L") none none none (some "Z")).2)
      ∧ ((getOrCreateAddress (getOrCreateAddress dbW (some "L") none none none (some "Z")).2
            (some "L") none none none (some "Y")).2.objects
          = (getOrCreateAddress dbW (some "L") none none none (some "Z")).2.objects
            ++ [(getOrCreateAddress (getOrCreateAddress dbW (some "L") none none none
                  (some "Z")).2 (some "L") none none none (some "Y")).1]
        ∧ (getOrCreateAddress (getOrCreateAddress dbW (some "L") none none none (some "Z")).2
            (some "L") none none none (some "Y")).1
          ≠ (getOrCreateAddress dbW (some "L") none none none (some "Z")).1)) :=
  ⟨c8_address_dedup.1 dbAddr (some "L") none none none none addrE [] rfl,
   c8_address_dedup.2.1 dbW (some "L") none none none (some "Z") rfl,
   c8_address_dedup.2.2 dbW "L" "Z" "Y" _ _ _ _ _ _
     (by intro e he; cases he) (by decide) rfl rfl rfl⟩

/-- The identity reference the Dispatcher ends up holding for an optional
key resolved by id: none for a falsy key, otherwise the key itself. -/
def refKey (k : Option String) : Option String :=
  match k with
  | none => none
  | some s => if s.length < 1 then none else some s

/-- Every stored object of the given type and id satisfies `P`. -/
def MatchAll (db : DB) (t k : String) (P : Entity → Prop) : Prop :=
  ∀ x ∈ db.objects, x.etype = t → x.id = k → P x

/-- The store holds an object of type `t` whose key field `f` equals `s`. -/
def hasKey (db : DB) (t f s : String) : Prop :=
  (findByKey db t f s).isSome

theorem insertIfAbsent_mem (l : List String) (x : String) : x ∈ insertIfAbsent l x := by
  unfold insertIfAbsent
  by_cases h : x ∈ l <;> simp [h]

theorem insertIfAbsent_of_mem (l : List String) (x : String) (h : x ∈ l) :
    insertIfAbsent l x = l := by
  simp [insertIfAbsent, h]

theorem mem_insertIfAbsent_of_mem (l : List String) (x y : String) (h : x ∈ l) :
    x ∈ insertIfAbsent l y := by
  unfold insertIfAbsent
  by_cases hy : y ∈ l <;> simp [hy, h]

theorem hasKey_modifyObject (db : DB) (t2 k2 : String) (g : Entity → Entity) (t f s : String)
    (hty : ∀ x, (g x).etype = x.etype)
    (hkf : ∀ x, keyFieldVal (g x) f = keyFieldVal x f) :
    hasKey db t f s → hasKey (modifyObject db t2 k2 g) t f s := by
  intro h
  unfold hasKey at h ⊢
  rw [findByKey_modifyObject_pres db t2 k2 g t f s (fun x => ⟨hty x, hkf x⟩)]
  rcases he : findByKey db t f s with _ | e
  · rw [he] at h
    cases h
  · simp

theorem hasKey_dbCreate (db : DB) (e : Entity) (t f s : String) :
    hasKey db t f s → hasKey (dbCreate db e).2 t f s := by
  intro h
  unfold hasKey at h ⊢
  rw [findByKey_dbCreate]
  rcases he : findByKey db t f s with _ | a
  · rw [he] at h
    cases h
  · simp [Option.or]

theorem hasKey_dbUpdate (db : DB) (t0 k0 : String) (m : Entity → Entity) (t f s : String)
    (hty : ∀ x, (m x).etype = x.etype)
    (hkf : ∀ x, x.etype = t0 → x.id = k0 → keyFieldVal (m x) f = keyFieldVal x f) :
    hasKey db t f s → hasKey (dbUpdate db t0 k0 m).2 t f s := by
  intro h
  unfold hasKey at h ⊢
  unfold dbUpdate
  rcases he : findObj db t0 k0 with _ | e0
  · exact hasKey_dbCreate db _ t f s h
  · unfold findByKey at h ⊢
    simp only
    rw [find?_map_pres]
    · rcases hf : db.objects.find? (keyPred t f s) with _ | a
      · rw [hf] at h
        cases h
      · simp
    · intro x _
      by_cases hx : (x.etype = t0 && x.id = k0) = true
      · have hxp : x.etype = t0 ∧ x.id = k0 := by
          simpa [Bool.and_eq_true, decide_eq_true_eq] using hx
        have h1 : (m x).etype = x.etype := hty x
        have h2 : keyFieldVal (m x) f = keyFieldVal x f := hkf x hxp.1 hxp.2
        simp [hx, keyPred, h1, h2]
      · simp [hx]

theorem MatchAll_dbCreate (db : DB) (e : Entity) (t k : String) (P : Entity → Prop)
    (he : e.etype = t → e.id = k → P e) :
    MatchAll db t k P → MatchAll (dbCreate db e).2 t k P := by
  intro h x hx hxt hxk
  rcases List.mem_append.mp hx with hm | hm
  · exact h x hm hxt hxk
  · rw [List.mem_singleton.mp hm]
    rw [List.mem_singleton.mp hm] at hxt hxk
    exact he hxt hxk

theorem MatchAll_modifyObject_pres (db : DB) (t2 k2 : String) (g : Entity → Entity)
    (t k : String) (P : Entity → Prop)
    (hty : ∀ x, (g x).etype = x.etype) (hid : ∀ x, (g x).id = x.id)
    (hP : ∀ x, P x → P (g x)) :
    MatchAll db t k P → MatchAll (modifyObject db t2 k2 g) t k P := by
  intro h y hy hyt hyk
  obtain ⟨x, hxm, hxe⟩ := List.mem_map.mp hy
  by_cases hq : (x.etype = t2 && x.id = k2) = true
  · rw [if_pos hq] at hxe
    subst hxe
    rw [hty x] at hyt
    rw [hid x] at hyk
    exact hP x (h x hxm hyt hyk)
  · rw [if_neg hq] at hxe
    subst hxe
    exact h x hxm hyt hyk

theorem MatchAll_modifyObject_other (db : DB) (t2 k2 : String) (g : Entity → Entity)
    (t k : String) (P : Entity → Prop) (ht : t ≠ t2)
    (hty : ∀ x, (g x).etype = x.etype) :
    MatchAll db t k P → MatchAll (modifyObject db t2 k2 g) t k P := by
  intro h y hy hyt hyk
  obtain ⟨x, hxm, hxe⟩ := List.mem_map.mp hy
  by_cases hq : (x.etype = t2 && x.id = k2) = true
  · rw [if_pos hq] at hxe
    subst hxe
    rw [hty x] at hyt
    have hxt2 : x.etype = t2 := by
      have := (Bool.and_eq_true _ _).mp hq
      simpa using this.1
    rw [hxt2] at hyt
    exact absurd hyt.symm ht
  · rw [if_neg hq] at hxe
    subst hxe
    exact h x hxm hyt hyk

theorem MatchAll_dbUpdate_other (db : DB) (t0 k0 : String) (m : Entity → Entity)
    (t k : String) (P : Entity → Prop) (ht : t ≠ t0)
    (hty : ∀ x, (m x).etype = x.etype) :
    MatchAll db t k P → MatchAll (dbUpdate db t0 k0 m).2 t k P := by
  intro h
  unfold dbUpdate
  rcases he : findObj db t0 k0 with _ | e0
  · refine MatchAll_dbCreate db _ t k P ?_ h
    intro hty2 _
    rw [hty _] at hty2
    exact absurd hty2.symm ht
  · exact MatchAll_modifyObject_other db t0 k0 m t k P ht hty h

theorem MatchAll_of_find (db : DB) (t k : String) (P : Entity → Prop) (e : Entity)
    (hall : MatchAll db t k P) (he : findObj db t k = some e) :
    P e ∧ e.etype = t ∧ e.id = k := by
  have hm := List.mem_of_find?_eq_some he
  have hp := List.find?_some he
  rw [keyPred_id] at hp
  have hp2 : e.etype = t ∧ e.id = k := by
    simpa [Bool.and_eq_true, decide_eq_true_eq] using hp
  exact ⟨hall e hm hp2.1 hp2.2, hp2⟩

theorem dbUpdate_matching_fixed (db : DB) (t k : String) (m : Entity → Entity)
    (hidem : ∀ x, m (m x) = m x) :
    MatchAll (dbUpdate db t k m).2 t k (fun x => m x = x) := by
  unfold dbUpdate
  rcases he : findObj db t k with _ | e0
  · intro y hy hyt hyk
    rcases List.mem_append.mp hy with hm | hm
    · have hnp := List.find?_eq_none.mp he y hm
      rw [keyPred_id] at hnp
      exact absurd (by simp [hyt, hyk]) hnp
    · rw [List.mem_singleton.mp hm]
      exact hidem _
  · intro y hy hyt hyk
    obtain ⟨x, hxm, hxe⟩ := List.mem_map.mp hy
    by_cases hq : (x.etype = t && x.id = k) = true
    · rw [if_pos hq] at hxe
      subst hxe
      exact hidem x
    · rw [if_neg hq] at hxe
      subst hxe
      exact absurd (by simp [hyt, hyk]) hq

theorem modifyObject_matching_post (db : DB) (t k : String) (g : Entity → Entity)
    (Q : Entity → Prop) (hQ : ∀ x, Q (g x)) :
    MatchAll (modifyObject db t k g) t k Q := by
  intro y hy hyt hyk
  obtain ⟨x, hxm, hxe⟩ := List.mem_map.mp hy
  by_cases hq : (x.etype = t && x.id = k) = true
  · rw [if_pos hq] at hxe
    subst hxe
    exact hQ x
  · rw [if_neg hq] at hxe
    subst hxe
    exact absurd (by simp [hyt, hyk]) hq

theorem dbUpdate_stable (db : DB) (t k : String) (m : Entity → Entity)
    (hk : hasKey db t "id" k)
    (hfix : MatchAll db t k (fun x => m x = x)) :
    ∃ e, dbUpdate db t k m = (e, db) ∧ e.id = k ∧ e.etype = t := by
  unfold hasKey at hk
  rcases he : findByKey db t "id" k with _ | e
  · rw [he] at hk
    cases hk
  · obtain ⟨hme, het, hei⟩ := MatchAll_of_find db t k _ e hfix he
    refine ⟨e, ?_, hei, het⟩
    have := dbUpdate_pointwise_id db t k m e he (fun x hx hxt hxk => hfix x hx hxt hxk)
    rw [this, hme]

theorem modifyObject_stable (db : DB) (t k : String) (g : Entity → Entity)
    (hg : MatchAll db t k (fun x => g x = x)) :
    modifyObject db t k g = db :=
  modifyObject_pointwise_id db t k g (fun x hx hxt hxk => hg x hx hxt hxk)

theorem findByKey_congr_objects (db db2 : DB) (t f s : String)
    (h : db.objects = db2.objects) : findByKey db t f s = findByKey db2 t f s := by
  unfold findByKey
  rw [h]

theorem getObject_byid_run (env : Env) (db : DB) (t : String) (k : Option String)
    (res : Option Entity) (db2 : DB)
    (h : getObject env db t k "id" = .ok (res, db2))
    (hpl : ∀ s pd, generatePlaceholder env db t s = some pd →
      pd.1.etype = t ∧ pd.1.id = s ∧ pd.2.objects = db.objects) :
    refId res = refKey k
    ∧ (db2.objects = db.objects ∨ ∃ p, db2.objects = db.objects ++ [p])
    ∧ (∀ s, k = some s → s ≠ "" → hasKey db2 t "id" s) := by
  rcases getObject_ok_cases env db t k "id" res db2 h with ⟨hres, hdb, hk⟩ |
    ⟨s, e, hk, hs, hf, hres, hdb⟩ | ⟨s, pd, hk, hs, hf, hp, hres, hdb⟩
  · subst hres
    subst hdb
    refine ⟨?_, Or.inl rfl, ?_⟩
    · rcases hk with hk | hk <;> subst hk <;> rfl
    · intro s hks hs
      rcases hk with hk | hk <;> rw [hk] at hks
      · cases hks
      · injection hks with hks
        exact absurd hks.symm hs
  · subst hk
    subst hres
    subst hdb
    have hpred := List.find?_some hf
    rw [keyPred_id] at hpred
    have hei : e.id = s := by
      simpa using ((Bool.and_eq_true _ _).mp hpred).2
    refine ⟨?_, Or.inl rfl, ?_⟩
    · show some e.id = refKey (some s)
      rw [hei]
      simp only [refKey]
      rw [if_neg (length_not_lt_one s hs)]
    · intro s2 hks hs2
      injection hks with hks
      subst hks
      unfold hasKey
      rw [hf]
      rfl
  · subst hk
    subst hres
    subst hdb
    obtain ⟨hpe, hpi, hpo⟩ := hpl s pd hp
    refine ⟨?_, Or.inr ⟨pd.1, by show (dbCreate pd.2 pd.1).2.objects = _; simp [dbCreate, hpo]⟩, ?_⟩
    · show some pd.1.id = refKey (some s)
      rw [hpi]
      simp only [refKey]
      rw [if_neg (length_not_lt_one s hs)]
    · intro s2 hks hs2
      injection hks with hks
      subst hks
      unfold hasKey
      rw [findByKey_dbCreate]
      rw [findByKey_congr_objects pd.2 db t "id" s hpo, hf]
      have hpred : keyPred t "id" s pd.1 = true := by
        rw [keyPred_id]
        simp [hpe, hpi]
      simp [hpred, Option.or]

theorem getObject_byid_stable (env : Env) (dbX : DB) (t : String) (k : Option String)
    (hk : ∀ s, k = some s → s ≠ "" → hasKey dbX t "id" s) :
    ∃ res2, getObject env dbX t k "id" = .ok (res2, dbX) ∧ refId res2 = refKey k := by
  rcases k with _ | s
  · exact ⟨none, rfl, rfl⟩
  · by_cases hs : s = ""
    · subst hs
      exact ⟨none, by simp [getObject, String.length], rfl⟩
    · obtain ⟨e, he⟩ := Option.isSome_iff_exists.mp (hk s rfl hs)
      refine ⟨some e, getObject_found env dbX t "id" s e hs he, ?_⟩
      have hpred := List.find?_some he
      rw [keyPred_id] at hpred
      have hei : e.id = s := by
        simpa using ((Bool.and_eq_true _ _).mp hpred).2
      show some e.id = refKey (some s)
      rw [hei]
      simp only [refKey]
      rw [if_neg (length_not_lt_one s hs)]

theorem getObject_seqkey_run (env : Env) (db : DB) (k : String) (res : Option Entity)
    (db2 : DB) (hk : k ≠ "")
    (h : getObject env db "NumberSequence" (some k) "sequenceKey" = .ok (res, db2)) :
    ∃ e, res = some e ∧ findByKey db2 "NumberSequence" "sequenceKey" k = some e
      ∧ (db2.objects = db.objects ∨ db2.objects = db.objects ++ [e]) := by
  rcases getObject_ok_cases env db "NumberSequence" (some k) "sequenceKey" res db2 h with
    ⟨hres, hdb, hks⟩ | ⟨s, e, hks, hs, hf, hres, hdb⟩ | ⟨s, pd, hks, hs, hf, hp, hres, hdb⟩
  · rcases hks with hks | hks
    · cases hks
    · injection hks with hks
      exact absurd hks hk
  · injection hks with hks
    subst hks
    subst hres
    subst hdb
    exact ⟨e, rfl, hf, Or.inl rfl⟩
  · injection hks with hks
    subst hks
    subst hres
    subst hdb
    simp only [generatePlaceholder] at hp
    injection hp with hp
    subst hp
    refine ⟨_, rfl, ?_, Or.inr rfl⟩
    rw [findByKey_dbCreate]
    rw [show findByKey (generateUUID db).2 "NumberSequence" "sequenceKey" k = none from ?_]
    · have hpred : keyPred "NumberSequence" "sequenceKey" k
          { etype := "NumberSequence", id := (generateUUID db).1, sequenceKey := some k } = true := by
        simp [keyPred, keyFieldVal]
      simp [hpred, Option.or]
    · rw [findByKey_congr_objects (generateUUID db).2 db "NumberSequence" "sequenceKey" k rfl]
      exact hf

theorem hasKey_dbUpdate_self (db : DB) (t k : String) (m : Entity → Entity)
    (hty : ∀ x, (m x).etype = x.etype) (hid : ∀ x, (m x).id = k) :
    hasKey (dbUpdate db t k m).2 t "id" k := by
  show (findObj (dbUpdate db t k m).2 t k).isSome
  rw [findObj_dbUpdate_self db t k m hty hid]
  rfl

theorem integrateItemCategory_idem (db db1 : DB) (r : WireRecord)
    (hok : integrateItemCategory db r = .ok db1) :
    integrateItemCategory db1 r = .ok db1 := by
  unfold integrateItemCategory at hok ⊢
  injection hok with hok
  subst hok
  obtain ⟨e, he, _, _⟩ := dbUpdate_stable _ "ItemCategory" (r.ID.getD "") (mergeItemCategory r)
    (hasKey_dbUpdate_self db "ItemCategory" (r.ID.getD "") (mergeItemCategory r)
      (fun x => rfl) (fun x => rfl))
    (dbUpdate_matching_fixed db "ItemCategory" (r.ID.getD "") (mergeItemCategory r)
      (fun x => rfl))
  rw [he]

theorem integrateItemDepartment_idem (db db1 : DB) (r : WireRecord)
    (hok : integrateItemDepartment db r = .ok db1) :
    integrateItemDepartment db1 r = .ok db1 := by
  unfold integrateItemDepartment at hok ⊢
  injection hok with hok
  subst hok
  obtain ⟨e, he, _, _⟩ := dbUpdate_stable _ "ItemDepartment" (r.ID.getD "")
    (mergeItemDepartment r)
    (hasKey_dbUpdate_self db "ItemDepartment" (r.ID.getD "") (mergeItemDepartment r)
      (fun x => rfl) (fun x => rfl))
    (dbUpdate_matching_fixed db "ItemDepartment" (r.ID.getD "") (mergeItemDepartment r)
      (fun x => rfl))
  rw [he]

theorem integrateMasterList_idem (db db1 : DB) (r : WireRecord)
    (hok : integrateMasterList db r = .ok db1) :
    integrateMasterList db1 r = .ok db1 := by
  unfold integrateMasterList at hok ⊢
  injection hok with hok
  subst hok
  obtain ⟨e, he, _, _⟩ := dbUpdate_stable _ "MasterList" (r.ID.getD "") (mergeMasterList r)
    (hasKey_dbUpdate_self db "MasterList" (r.ID.getD "") (mergeMasterList r)
      (fun x => rfl) (fun x => rfl))
    (dbUpdate_matching_fixed db "MasterList" (r.ID.getD "") (mergeMasterList r)
      (fun x => rfl))
  rw [he]

theorem integrateTransactionCategory_idem (env : Env) (db db1 : DB) (r : WireRecord)
    (hok : integrateTransactionCategory env db r = .ok db1) :
    integrateTransactionCategory env db1 r = .ok db1 := by
  unfold integrateTransactionCategory at hok ⊢
  injection hok with hok
  subst hok
  obtain ⟨e, he, _, _⟩ := dbUpdate_stable _ "TransactionCategory" (r.ID.getD "")
    (mergeTransactionCategory env r)
    (hasKey_dbUpdate_self db "TransactionCategory" (r.ID.getD "")
      (mergeTransactionCategory env r) (fun x => rfl) (fun x => rfl))
    (dbUpdate_matching_fixed db "TransactionCategory" (r.ID.getD "")
      (mergeTransactionCategory env r) (fun x => rfl))
  rw [he]

theorem integrateNumberSequence_idem (env : Env) (db db1 : DB) (r : WireRecord)
    (hok : integrateNumberSequence env db r = .ok db1) :
    integrateNumberSequence env db1 r = .ok db1 := by
  unfold integrateNumberSequence at hok ⊢
  rcases hg : truthyStr (env.sequenceKeyTranslate r.name env.thisStoreId) with _ | _
  · simp only [hg, Bool.not_false, if_true] at hok
    injection hok with hok
    subst hok
    simp [hg]
  · simp only [hg, Bool.not_true, Bool.false_eq_true, if_false] at hok ⊢
    injection hok with hok
    subst hok
    obtain ⟨e, he, _, _⟩ := dbUpdate_stable _ "NumberSequence" (r.ID.getD "")
      (mergeNumberSequence r (env.sequenceKeyTranslate r.name env.thisStoreId))
      (hasKey_dbUpdate_self db "NumberSequence" (r.ID.getD "")
        (mergeNumberSequence r (env.sequenceKeyTranslate r.name env.thisStoreId))
        (fun x => rfl) (fun x => rfl))
      (dbUpdate_matching_fixed db "NumberSequence" (r.ID.getD "")
        (mergeNumberSequence r (env.sequenceKeyTranslate r.name env.thisStoreId))
        (fun x => rfl))
    rw [he]

theorem hasKey_mono_objects (dbA dbB : DB) (t f s : String)
    (h : dbB.objects = dbA.objects ∨ ∃ p, dbB.objects = dbA.objects ++ [p]) :
    hasKey dbA t f s → hasKey dbB t f s := by
  intro hk
  unfold hasKey at hk ⊢
  rcases h with h | ⟨p, h⟩
  · rw [findByKey_congr_objects dbB dbA t f s h]
    exact hk
  · unfold findByKey at hk ⊢
    rw [h, find?_append_or]
    rcases he : dbA.objects.find? (keyPred t f s) with _ | a
    · rw [he] at hk
      cases hk
    · simp [Option.or]

theorem placeholder_fact_template (env : Env) (db : DB) (t : String)
    (htmpl : ∀ s, ∃ q, generatePlaceholder env db t s = some (q, db)
      ∧ Entity.etype q = t ∧ Entity.id q = s) :
    ∀ s pd, generatePlaceholder env db t s = some pd →
      pd.1.etype = t ∧ pd.1.id = s ∧ pd.2.objects = db.objects := by
  intro s pd hp
  obtain ⟨q, hq, hqe, hqi⟩ := htmpl s
  rw [hq] at hp
  injection hp with hp
  subst hp
  exact ⟨hqe, hqi, rfl⟩

theorem kf_id_set (m : Entity → Entity) (t0 k0 : String) (hid : ∀ x, (m x).id = k0) :
    ∀ x, x.etype = t0 → x.id = k0 → keyFieldVal (m x) "id" = keyFieldVal x "id" := by
  intro x _ hxk
  simp [keyFieldVal, hid x, hxk]

theorem integrateItem_idem (env : Env) (db db1 : DB) (r : WireRecord)
    (hok : integrateItem env db r = .ok db1) :
    integrateItem env db1 r = .ok db1 := by
  unfold integrateItem at hok ⊢
  rcases hg1 : getObject env db "ItemCategory" r.category_ID "id" with u | p1
  · rw [hg1] at hok
    simp [Bind.bind, Except.bind] at hok
  rw [hg1] at hok
  simp only [Bind.bind, Except.bind] at hok
  obtain ⟨href1, hext1, hhk1⟩ := getObject_byid_run env db "ItemCategory" r.category_ID
    p1.1 p1.2 (by rw [hg1])
    (placeholder_fact_template env db "ItemCategory" (fun s => ⟨_, rfl, rfl, rfl⟩))
  rcases hg2 : getObject env p1.2 "ItemDepartment" r.department_ID "id" with u | p2
  · rw [hg2] at hok
    simp at hok
  rw [hg2] at hok
  simp only [pure, Except.pure, Except.ok.injEq] at hok
  obtain ⟨href2, hext2, hhk2⟩ := getObject_byid_run env p1.2 "ItemDepartment" r.department_ID
    p2.1 p2.2 (by rw [hg2])
    (placeholder_fact_template env p1.2 "ItemDepartment" (fun s => ⟨_, rfl, rfl, rfl⟩))
  rw [href1, href2] at hok
  subst hok
  have hk1 : ∀ s, r.category_ID = some s → s ≠ "" →
      hasKey (dbUpdate p2.2 "Item" (r.ID.getD "")
        (mergeItem r (refKey r.category_ID) (refKey r.department_ID)
          (parseNumber r.default_pack_size))).2 "ItemCategory" "id" s := by
    intro s hks hs
    exact hasKey_dbUpdate p2.2 "Item" (r.ID.getD "") _ "ItemCategory" "id" s
      (fun x => rfl) (kf_id_set _ "Item" (r.ID.getD "") (fun x => rfl))
      (hasKey_mono_objects p1.2 p2.2 "ItemCategory" "id" s hext2 (hhk1 s hks hs))
  obtain ⟨res1, hstep1, href1b⟩ := getObject_byid_stable env
    (dbUpdate p2.2 "Item" (r.ID.getD "")
      (mergeItem r (refKey r.category_ID) (refKey r.department_ID)
        (parseNumber r.default_pack_size))).2
    "ItemCategory" r.category_ID hk1
  rw [hstep1]
  simp only [Bind.bind, Except.bind]
  have hk2 : ∀ s, r.department_ID = some s → s ≠ "" →
      hasKey (dbUpdate p2.2 "Item" (r.ID.getD "")
        (mergeItem r (refKey r.category_ID) (refKey r.department_ID)
          (parseNumber r.default_pack_size))).2 "ItemDepartment" "id" s := by
    intro s hks hs
    exact hasKey_dbUpdate p2.2 "Item" (r.ID.getD "") _ "ItemDepartment" "id" s
      (fun x => rfl) (kf_id_set _ "Item" (r.ID.getD "") (fun x => rfl))
      (hhk2 s hks hs)
  obtain ⟨res2, hstep2, href2b⟩ := getObject_byid_stable env
    (dbUpdate p2.2 "Item" (r.ID.getD "")
      (mergeItem r (refKey r.category_ID) (refKey r.department_ID)
        (parseNumber r.default_pack_size))).2
    "ItemDepartment" r.department_ID hk2
  rw [hstep2]
  simp only [pure, Except.pure]
  rw [href1b, href2b]
  obtain ⟨e, he, _, _⟩ := dbUpdate_stable _ "Item" (r.ID.getD "")
    (mergeItem r (refKey r.category_ID) (refKey r.department_ID)
      (parseNumber r.default_pack_size))
    (hasKey_dbUpdate_self p2.2 "Item" (r.ID.getD "")
      (mergeItem r (refKey r.category_ID) (refKey r.department_ID)
        (parseNumber r.default_pack_size)) (fun x => rfl) (fun x => rfl))
    (dbUpdate_matching_fixed p2.2 "Item" (r.ID.getD "")
      (mergeItem r (refKey r.category_ID) (refKey r.department_ID)
        (parseNumber r.default_pack_size)) (fun x => rfl))
  rw [he]

theorem integrateRequisition_idem (env : Env) (db db1 : DB) (r : WireRecord)
    (hok : integrateRequisition env db r = .ok db1) :
    integrateRequisition env db1 r = .ok db1 := by
  unfold integrateRequisition at hok ⊢
  rcases hg1 : getObject env db "User" r.user_ID "id" with u | p1
  · rw [hg1] at hok
    simp [Bind.bind, Except.bind] at hok
  rw [hg1] at hok
  simp only [Bind.bind, Except.bind, pure, Except.pure, Except.ok.injEq] at hok
  obtain ⟨href1, hext1, hhk1⟩ := getObject_byid_run env db "User" r.user_ID p1.1 p1.2
    (by rw [hg1]) (placeholder_fact_template env db "User" (fun s => ⟨_, rfl, rfl, rfl⟩))
  rw [href1] at hok
  subst hok
  have hk1 : ∀ s, r.user_ID = some s → s ≠ "" →
      hasKey (dbUpdate p1.2 "Requisition" (r.ID.getD "")
        (mergeRequisition env r (refKey r.user_ID))).2 "User" "id" s := by
    intro s hks hs
    exact hasKey_dbUpdate p1.2 "Requisition" (r.ID.getD "") _ "User" "id" s (fun x => rfl)
      (kf_id_set _ "Requisition" (r.ID.getD "") (fun x => rfl)) (hhk1 s hks hs)
  obtain ⟨res1, hstep1, href1b⟩ := getObject_byid_stable env
    (dbUpdate p1.2 "Requisition" (r.ID.getD "") (mergeRequisition env r (refKey r.user_ID))).2
    "User" r.user_ID hk1
  rw [hstep1]
  simp only [Bind.bind, Except.bind, pure, Except.pure]
  rw [href1b]
  obtain ⟨e, he, _, _⟩ := dbUpdate_stable _ "Requisition" (r.ID.getD "")
    (mergeRequisition env r (refKey r.user_ID))
    (hasKey_dbUpdate_self p1.2 "Requisition" (r.ID.getD "")
      (mergeRequisition env r (refKey r.user_ID)) (fun x => rfl) (fun x => rfl))
    (dbUpdate_matching_fixed p1.2 "Requisition" (r.ID.getD "")
      (mergeRequisition env r (refKey r.user_ID)) (fun x => rfl))
  rw [he]

theorem integrateStocktake_idem (env : Env) (db db1 : DB) (r : WireRecord)
    (hok : integrateStocktake env db r = .ok db1) :
    integrateStocktake env db1 r = .ok db1 := by
  unfold integrateStocktake at hok ⊢
  rcases hg1 : getObject env db "User" r.created_by_ID "id" with u | p1
  · rw [hg1] at hok
    simp [Bind.bind, Except.bind] at hok
  rw [hg1] at hok
  simp only [Bind.bind, Except.bind] at hok
  obtain ⟨href1, hext1, hhk1⟩ := getObject_byid_run env db "User" r.created_by_ID p1.1 p1.2
    (by rw [hg1]) (placeholder_fact_template env db "User" (fun s => ⟨_, rfl, rfl, rfl⟩))
  rcases hg2 : getObject env p1.2 "User" r.finalised_by_ID "id" with u | p2
  · rw [hg2] at hok
    simp at hok
  rw [hg2] at hok
  simp only [Bind.bind, Except.bind] at hok
  obtain ⟨href2, hext2, hhk2⟩ := getObject_byid_run env p1.2 "User" r.finalised_by_ID p2.1 p2.2
    (by rw [hg2]) (placeholder_fact_template env p1.2 "User" (fun s => ⟨_, rfl, rfl, rfl⟩))
  rcases hg3 : getObject env p2.2 "Transaction" r.invad_additions_ID "id" with u | p3
  · rw [hg3] at hok
    simp at hok
  rw [hg3] at hok
  simp only [Bind.bind, Except.bind] at hok
  obtain ⟨href3, hext3, hhk3⟩ := getObject_byid_run env p2.2 "Transaction" r.invad_additions_ID
    p3.1 p3.2 (by rw [hg3])
    (placeholder_fact_template env p2.2 "Transaction" (fun s => ⟨_, rfl, rfl, rfl⟩))
  rcases hg4 : getObject env p3.2 "Transaction" r.invad_reductions_ID "id" with u | p4
  · rw [hg4] at hok
    simp at hok
  rw [hg4] at hok
  simp only [Bind.bind, Except.bind, pure, Except.pure, Except.ok.injEq] at hok
  obtain ⟨href4, hext4, hhk4⟩ := getObject_byid_run env p3.2 "Transaction" r.invad_reductions_ID
    p4.1 p4.2 (by rw [hg4])
    (placeholder_fact_template env p3.2 "Transaction" (fun s => ⟨_, rfl, rfl, rfl⟩))
  rw [href1, href2, href3, href4] at hok
  subst hok
  have hkU : ∀ s, (r.created_by_ID = some s ∨ r.finalised_by_ID = some s) → s ≠ "" →
      hasKey (dbUpdate p4.2 "Stocktake" (r.ID.getD "")
        (mergeStocktake env r (refKey r.created_by_ID) (refKey r.finalised_by_ID)
          (refKey r.invad_additions_ID) (refKey r.invad_reductions_ID))).2 "User" "id" s := by
    intro s hks hs
    have hbase : hasKey p3.2 "User" "id" s := by
      rcases hks with hks | hks
      · exact hasKey_mono_objects p2.2 p3.2 "User" "id" s hext3
          (hasKey_mono_objects p1.2 p2.2 "User" "id" s hext2 (hhk1 s hks hs))
      · exact hasKey_mono_objects p2.2 p3.2 "User" "id" s hext3 (hhk2 s hks hs)
    exact hasKey_dbUpdate p4.2 "Stocktake" (r.ID.getD "") _ "User" "id" s (fun x => rfl)
      (kf_id_set _ "Stocktake" (r.ID.getD "") (fun x => rfl))
      (hasKey_mono_objects p3.2 p4.2 "User" "id" s hext4 hbase)
  have hkT : ∀ s, (r.invad_additions_ID = some s ∨ r.invad_reductions_ID = some s) → s ≠ "" →
      hasKey (dbUpdate p4.2 "Stocktake" (r.ID.getD "")
        (mergeStocktake env r (refKey r.created_by_ID) (refKey r.finalised_by_ID)
          (refKey r.invad_additions_ID) (refKey r.invad_reductions_ID))).2
        "Transaction" "id" s := by
    intro s hks hs
    have hbase : hasKey p4.2 "Transaction" "id" s := by
      rcases hks with hks | hks
      · exact hasKey_mono_objects p3.2 p4.2 "Transaction" "id" s hext4 (hhk3 s hks hs)
      · exact hhk4 s hks hs
    exact hasKey_dbUpdate p4.2 "Stocktake" (r.ID.getD "") _ "Transaction" "id" s (fun x => rfl)
      (kf_id_set _ "Stocktake" (r.ID.getD "") (fun x => rfl)) hbase
  obtain ⟨res1, hstep1, href1b⟩ := getObject_byid_stable env
    (dbUpdate p4.2 "Stocktake" (r.ID.getD "")
      (mergeStocktake env r (refKey r.created_by_ID) (refKey r.finalised_by_ID)
        (refKey r.invad_additions_ID) (refKey r.invad_reductions_ID))).2
    "User" r.created_by_ID (fun s hks hs => hkU s (Or.inl hks) hs)
  rw [hstep1]
  simp only [Bind.bind, Except.bind]
  obtain ⟨res2, hstep2, href2b⟩ := getObject_byid_stable env
    (dbUpdate p4.2 "Stocktake" (r.ID.getD "")
      (mergeStocktake env r (refKey r.created_by_ID) (refKey r.finalised_by_ID)
        (refKey r.invad_additions_ID) (refKey r.invad_reductions_ID))).2
    "User" r.finalised_by_ID (fun s hks hs => hkU s (Or.inr hks) hs)
  rw [hstep2]
  simp only [Bind.bind, Except.bind]
  obtain ⟨res3, hstep3, href3b⟩ := getObject_byid_stable env
    (dbUpdate p4.2 "Stocktake" (r.ID.getD "")
      (mergeStocktake env r (refKey r.created_by_ID) (refKey r.finalised_by_ID)
        (refKey r.invad_additions_ID) (refKey r.invad_reductions_ID))).2
    "Transaction" r.invad_additions_ID (fun s hks hs => hkT s (Or.inl hks) hs)
  rw [hstep3]
  simp only [Bind.bind, Except.bind]
  obtain ⟨res4, hstep4, href4b⟩ := getObject_byid_stable env
    (dbUpdate p4.2 "Stocktake" (r.ID.getD "")
      (mergeStocktake env r (refKey r.created_by_ID) (refKey r.finalised_by_ID)
        (refKey r.invad_additions_ID) (refKey r.invad_reductions_ID))).2
    "Transaction" r.invad_reductions_ID (fun s hks hs => hkT s (Or.inr hks) hs)
  rw [hstep4]
  simp only [Bind.bind, Except.bind, pure, Except.pure]
  rw [href1b, href2b, href3b, href4b]
  obtain ⟨e, he, _, _⟩ := dbUpdate_stable _ "Stocktake" (r.ID.getD "")
    (mergeStocktake env r (refKey r.created_by_ID) (refKey r.finalised_by_ID)
      (refKey r.invad_additions_ID) (refKey r.invad_reductions_ID))
    (hasKey_dbUpdate_self p4.2 "Stocktake" (r.ID.getD "")
      (mergeStocktake env r (refKey r.created_by_ID) (refKey r.finalised_by_ID)
        (refKey r.invad_additions_ID) (refKey r.invad_reductions_ID))
      (fun x => rfl) (fun x => rfl))
    (dbUpdate_matching_fixed p4.2 "Stocktake" (r.ID.getD "")
      (mergeStocktake env r (refKey r.created_by_ID) (refKey r.finalised_by_ID)
        (refKey r.invad_additions_ID) (refKey r.invad_reductions_ID))
      (fun x => rfl))
  rw [he]

theorem filter_map_invariant {α : Type} (p : α → Bool) (G : α → α) (l : List α)
    (h : ∀ x ∈ l, (p x = false ∧ p (G x) = false) ∨ G x = x) :
    (l.map G).filter p = l.filter p := by
  induction l with
  | nil => rfl
  | cons a t ih =>
    have ht := ih (fun x hx => h x (List.mem_cons_of_mem a hx))
    rcases h a (List.mem_cons_self a t) with ⟨h1, h2⟩ | h3
    · simp [List.filter_cons, h1, h2, ht]
    · rw [List.map_cons, h3, List.filter_cons, List.filter_cons, ht]

theorem filter_address_dbUpdate (db : DB) (t0 k0 : String) (m : Entity → Entity)
    (ht : t0 ≠ "Address") (hty : ∀ x, (m x).etype = x.etype) :
    (dbUpdate db t0 k0 m).2.objects.filter (fun e => e.etype = "Address")
      = db.objects.filter (fun e => e.etype = "Address") := by
  unfold dbUpdate
  rcases he : findObj db t0 k0 with _ | e0
  · show (db.objects ++ [m { etype := t0, id := k0 }]).filter (fun e => e.etype = "Address") = _
    rw [List.filter_append]
    have : (m { etype := t0, id := k0 } : Entity).etype = t0 := hty _
    simp [List.filter, this, ht]
  · show (db.objects.map (fun x => if x.etype = t0 && x.id = k0 then m x else x)).filter
      (fun e => e.etype = "Address") = _
    apply filter_map_invariant
    intro x _
    by_cases hq : (x.etype = t0 && x.id = k0) = true
    · left
      have hxe : x.etype = t0 := by
        have := (Bool.and_eq_true _ _).mp hq
        simpa using this.1
      rw [if_pos hq]
      constructor
      · simp [hxe, ht]
      · simp [hty x, hxe, ht]
    · right
      rw [if_neg hq]

theorem addressMatches_congr_objects (dbA dbB : DB) (a1 a2 a3 a4 az : Option String)
    (h : dbA.objects = dbB.objects) :
    addressMatches dbA a1 a2 a3 a4 az = addressMatches dbB a1 a2 a3 a4 az := by
  simp only [addressMatches]
  rw [h]

theorem addressMatches_dbUpdate_other (db : DB) (t0 k0 : String) (m : Entity → Entity)
    (a1 a2 a3 a4 az : Option String) (ht : t0 ≠ "Address")
    (hty : ∀ x, (m x).etype = x.etype) :
    addressMatches (dbUpdate db t0 k0 m).2 a1 a2 a3 a4 az
      = addressMatches db a1 a2 a3 a4 az := by
  simp only [addressMatches]
  rw [filter_address_dbUpdate db t0 k0 m ht hty]

theorem addressMatches_append (objs extra : List Entity) (n n2 n3 : Nat)
    (a1 a2 a3 a4 az : Option String) :
    addressMatches { objects := objs ++ extra, nextUuid := n } a1 a2 a3 a4 az
      = addressMatches { objects := objs, nextUuid := n2 } a1 a2 a3 a4 az
        ++ addressMatches { objects := extra, nextUuid := n3 } a1 a2 a3 a4 az := by
  simp only [addressMatches]
  rcases a1 with _ | v1 <;> rcases a2 with _ | v2 <;> rcases a3 with _ | v3 <;>
    rcases a4 with _ | v4 <;> rcases az with _ | vz <;>
    simp [List.filter_append]

theorem addressMatches_created_singleton (u : String) (n : Nat)
    (a1 a2 a3 a4 az : Option String) :
    addressMatches
      { objects := [{ etype := "Address", id := u, line1 := a1, line2 := a2, line3 := a3,
                      line4 := a4, zipCode := az }], nextUuid := n } a1 a2 a3 a4 az
      = [{ etype := "Address", id := u, line1 := a1, line2 := a2, line3 := a3,
           line4 := a4, zipCode := az }] := by
  simp only [addressMatches]
  rcases a1 with _ | v1 <;> rcases a2 with _ | v2 <;> rcases a3 with _ | v3 <;>
    rcases a4 with _ | v4 <;> rcases az with _ | vz <;>
    simp [List.filter]

theorem getOrCreateAddress_first (db : DB) (a1 a2 a3 a4 az : Option String) :
    ∃ rest, addressMatches (getOrCreateAddress db a1 a2 a3 a4 az).2 a1 a2 a3 a4 az
      = (getOrCreateAddress db a1 a2 a3 a4 az).1 :: rest := by
  rcases hm : addressMatches db a1 a2 a3 a4 az with _ | ⟨e, rest⟩
  · rw [getOrCreateAddress_created db a1 a2 a3 a4 az hm]
    refine ⟨[], ?_⟩
    show addressMatches { objects := db.objects ++ [_], nextUuid := db.nextUuid + 1 }
      a1 a2 a3 a4 az = _
    rw [addressMatches_append db.objects _ (db.nextUuid + 1) db.nextUuid db.nextUuid]
    rw [addressMatches_congr_objects { objects := db.objects, nextUuid := db.nextUuid } db
      a1 a2 a3 a4 az rfl, hm]
    rw [addressMatches_created_singleton]
    rfl
  · rw [getOrCreateAddress_found db a1 a2 a3 a4 az e rest hm]
    exact ⟨rest, hm⟩

theorem integrateName_idem (env : Env) (db db1 : DB) (r : WireRecord)
    (hok : integrateName env db r = .ok db1) :
    integrateName env db1 r = .ok db1 := by
  simp only [integrateName, Except.ok.injEq] at hok
  subst hok
  obtain ⟨rest, hrest⟩ := getOrCreateAddress_first db r.bill_address1 r.bill_address2
    r.bill_address3 r.bill_address4 r.bill_postal_zip_code
  have htrans := addressMatches_dbUpdate_other
    (getOrCreateAddress db r.bill_address1 r.bill_address2 r.bill_address3 r.bill_address4
      r.bill_postal_zip_code).2
    "Name" (r.ID.getD "")
    (mergeName env r (some (getOrCreateAddress db r.bill_address1 r.bill_address2
      r.bill_address3 r.bill_address4 r.bill_postal_zip_code).1.id))
    r.bill_address1 r.bill_address2 r.bill_address3 r.bill_address4 r.bill_postal_zip_code
    (by decide) (fun x => rfl)
  rw [hrest] at htrans
  simp only [integrateName]
  have hga := getOrCreateAddress_found _ r.bill_address1 r.bill_address2 r.bill_address3
    r.bill_address4 r.bill_postal_zip_code _ rest htrans
  obtain ⟨e, he, _, _⟩ := dbUpdate_stable _ "Name" (r.ID.getD "")
    (mergeName env r (some (getOrCreateAddress db r.bill_address1 r.bill_address2
      r.bill_address3 r.bill_address4 r.bill_postal_zip_code).1.id))
    (hasKey_dbUpdate_self (getOrCreateAddress db r.bill_address1 r.bill_address2
      r.bill_address3 r.bill_address4 r.bill_postal_zip_code).2 "Name" (r.ID.getD "")
      (mergeName env r (some (getOrCreateAddress db r.bill_address1 r.bill_address2
        r.bill_address3 r.bill_address4 r.bill_postal_zip_code).1.id))
      (fun x => rfl) (fun x => rfl))
    (dbUpdate_matching_fixed (getOrCreateAddress db r.bill_address1 r.bill_address2
      r.bill_address3 r.bill_address4 r.bill_postal_zip_code).2 "Name" (r.ID.getD "")
      (mergeName env r (some (getOrCreateAddress db r.bill_address1 r.bill_address2
        r.bill_address3 r.bill_address4 r.bill_postal_zip_code).1.id))
      (fun x => rfl))
  rw [hga]
  exact congrArg (fun p => Except.ok p.2) he

theorem refKey_eq_some (k : Option String) (s : String) (h : refKey k = some s) :
    k = some s ∧ s ≠ "" := by
  rcases k with _ | s0
  · cases h
  · simp only [refKey] at h
    by_cases hl : s0.length < 1
    · rw [if_pos hl] at h
      cases h
    · rw [if_neg hl] at h
      injection h with h
      subst h
      refine ⟨rfl, ?_⟩
      intro hc
      subst hc
      exact hl (by decide)

theorem refId_eq_some (o : Option Entity) (s : String) (h : refId o = some s) :
    ∃ e, o = some e ∧ e.id = s := by
  rcases o with _ | e
  · cases h
  · refine ⟨e, rfl, ?_⟩
    injection h with h

theorem dbUpdate_fst_id (db : DB) (t k : String) (m : Entity → Entity)
    (hid : ∀ x, (m x).id = k) : (dbUpdate db t k m).1.id = k := by
  unfold dbUpdate
  rcases he : findObj db t k with _ | e
  · exact hid _
  · exact hid _

theorem dbUpdate_stable_snd (db : DB) (t k : String) (m : Entity → Entity)
    (hk : hasKey db t "id" k)
    (hfix : MatchAll db t k (fun x => m x = x)) :
    (dbUpdate db t k m).2 = db := by
  obtain ⟨e, he, _, _⟩ := dbUpdate_stable db t k m hk hfix
  rw [he]

theorem MatchAll_congr_objects (db db2 : DB) (t k : String) (P : Entity → Prop)
    (h2 : db2.objects = db.objects) (h : MatchAll db t k P) : MatchAll db2 t k P := by
  intro x hx hxt hxk
  rw [h2] at hx
  exact h x hx hxt hxk

theorem MatchAll_append (db db2 : DB) (p : Entity) (t k : String) (P : Entity → Prop)
    (h2 : db2.objects = db.objects ++ [p]) (he : p.etype = t → p.id = k → P p)
    (h : MatchAll db t k P) : MatchAll db2 t k P := by
  intro x hx hxt hxk
  rw [h2] at hx
  rcases List.mem_append.mp hx with hm | hm
  · exact h x hm hxt hxk
  · rw [List.mem_singleton.mp hm] at hxt hxk ⊢
    exact he hxt hxk

theorem findByKey_append_found (db db2 : DB) (p : Entity) (t f k : String) (e : Entity)
    (h2 : db2.objects = db.objects ++ [p]) (he : findByKey db t f k = some e) :
    findByKey db2 t f k = some e := by
  unfold findByKey at he ⊢
  rw [h2, find?_append_or, he]
  rfl

theorem getObject_byid_run2 (env : Env) (db : DB) (t : String) (k : Option String)
    (res : Option Entity) (db2 : DB)
    (h : getObject env db t k "id" = .ok (res, db2))
    (hpl : ∀ s pd, generatePlaceholder env db t s = some pd →
      pd.1.etype = t ∧ pd.1.id = s ∧ pd.2.objects = db.objects) :
    refId res = refKey k
    ∧ (db2.objects = db.objects ∨ ∃ p, p.etype = t ∧ db2.objects = db.objects ++ [p])
    ∧ (∀ s, k = some s → s ≠ "" → hasKey db2 t "id" s) := by
  rcases getObject_ok_cases env db t k "id" res db2 h with ⟨hres, hdb, hk⟩ |
    ⟨s, e, hk, hs, hf, hres, hdb⟩ | ⟨s, pd, hk, hs, hf, hp, hres, hdb⟩
  · subst hres
    subst hdb
    refine ⟨?_, Or.inl rfl, ?_⟩
    · rcases hk with hk | hk <;> subst hk <;> rfl
    · intro s hks hs
      rcases hk with hk | hk <;> rw [hk] at hks
      · cases hks
      · injection hks with hks
        exact absurd hks.symm hs
  · subst hk
    subst hres
    subst hdb
    have hpred := List.find?_some hf
    rw [keyPred_id] at hpred
    have hei : e.id = s := by
      simpa using ((Bool.and_eq_true _ _).mp hpred).2
    refine ⟨?_, Or.inl rfl, ?_⟩
    · show some e.id = refKey (some s)
      rw [hei]
      simp only [refKey]
      rw [if_neg (length_not_lt_one s hs)]
    · intro s2 hks hs2
      injection hks with hks
      subst hks
      unfold hasKey
      rw [hf]
      rfl
  · subst hk
    subst hres
    subst hdb
    obtain ⟨hpe, hpi, hpo⟩ := hpl s pd hp
    refine ⟨?_,
      Or.inr ⟨pd.1, hpe, by show (dbCreate pd.2 pd.1).2.objects = _; simp [dbCreate, hpo]⟩, ?_⟩
    · show some pd.1.id = refKey (some s)
      rw [hpi]
      simp only [refKey]
      rw [if_neg (length_not_lt_one s hs)]
    · intro s2 hks hs2
      injection hks with hks
      subst hks
      unfold hasKey
      rw [findByKey_dbCreate]
      rw [findByKey_congr_objects pd.2 db t "id" s hpo, hf]
      have hpred : keyPred t "id" s pd.1 = true := by
        rw [keyPred_id]
        simp [hpe, hpi]
      simp [hpred, Option.or]

theorem integrateItemStoreJoin_idem (env : Env) (db db1 : DB) (r : WireRecord)
    (hok : integrateItemStoreJoin env db r = .ok db1) :
    integrateItemStoreJoin env db1 r = .ok db1 := by
  unfold integrateItemStoreJoin at hok ⊢
  rcases hj : (decide (r.store_ID = some env.thisStoreId)) with _ | _
  · simp only [hj, Bool.false_eq_true, if_false, pure, Except.pure, Except.ok.injEq] at hok ⊢
    subst hok
    exact dbUpdate_stable_snd _ "ItemStoreJoin" (r.ID.getD "")
      (mergeItemStoreJoin r false)
      (hasKey_dbUpdate_self db "ItemStoreJoin" (r.ID.getD "") (mergeItemStoreJoin r false)
        (fun x => rfl) (fun x => rfl))
      (dbUpdate_matching_fixed db "ItemStoreJoin" (r.ID.getD "") (mergeItemStoreJoin r false)
        (fun x => rfl))
  · simp only [hj, if_true] at hok ⊢
    rcases hg1 : getObject env
        (dbUpdate db "ItemStoreJoin" (r.ID.getD "") (mergeItemStoreJoin r true)).2
        "Item" r.item_ID "id" with u | p1
    · rw [hg1] at hok
      simp [Bind.bind, Except.bind] at hok
    rw [hg1] at hok
    simp only [Bind.bind, Except.bind] at hok
    obtain ⟨href1, hext1, hhk1⟩ := getObject_byid_run2 env
      (dbUpdate db "ItemStoreJoin" (r.ID.getD "") (mergeItemStoreJoin r true)).2
      "Item" r.item_ID p1.1 p1.2 (by rw [hg1])
      (placeholder_fact_template env _ "Item" (fun s => ⟨_, rfl, rfl, rfl⟩))
    rcases hri : p1.1 with _ | item
    · rw [hri] at hok
      simp at hok
    rw [hri] at hok
    simp only [pure, Except.pure, Except.ok.injEq] at hok
    subst hok
    rw [hri] at href1
    obtain ⟨hkid, hknz⟩ := refKey_eq_some r.item_ID item.id href1.symm
    have hextw : p1.2.objects =
        (dbUpdate db "ItemStoreJoin" (r.ID.getD "") (mergeItemStoreJoin r true)).2.objects
        ∨ ∃ p, p1.2.objects =
          (dbUpdate db "ItemStoreJoin" (r.ID.getD "") (mergeItemStoreJoin r true)).2.objects
            ++ [p] := by
      rcases hext1 with h | ⟨p, _, hp⟩
      · exact Or.inl h
      · exact Or.inr ⟨p, hp⟩
    have hkJ : hasKey (modifyObject p1.2 "Item" item.id
        (fun e => { e with isVisible := !parseBoolean r.inactive }))
        "ItemStoreJoin" "id" (r.ID.getD "") := by
      refine hasKey_modifyObject p1.2 "Item" item.id _ "ItemStoreJoin" "id" (r.ID.getD "")
        (fun x => rfl) (fun x => by simp [keyFieldVal]) ?_
      refine hasKey_mono_objects _ p1.2 "ItemStoreJoin" "id" (r.ID.getD "") hextw ?_
      exact hasKey_dbUpdate_self db "ItemStoreJoin" (r.ID.getD "") (mergeItemStoreJoin r true)
        (fun x => rfl) (fun x => rfl)
    have hfixJ : MatchAll (modifyObject p1.2 "Item" item.id
        (fun e => { e with isVisible := !parseBoolean r.inactive }))
        "ItemStoreJoin" (r.ID.getD "")
        (fun x => mergeItemStoreJoin r true x = x) := by
      refine MatchAll_modifyObject_other p1.2 "Item" item.id _ "ItemStoreJoin" (r.ID.getD "")
        _ (by decide) (fun x => rfl) ?_
      have hbase := dbUpdate_matching_fixed db "ItemStoreJoin" (r.ID.getD "")
        (mergeItemStoreJoin r true) (fun x => rfl)
      rcases hext1 with h | ⟨p, hpe, hp⟩
      · exact MatchAll_congr_objects _ p1.2 "ItemStoreJoin" (r.ID.getD "") _ h hbase
      · refine MatchAll_append _ p1.2 p "ItemStoreJoin" (r.ID.getD "") _ hp ?_ hbase
        intro h1 _
        exact absurd (hpe.symm.trans h1) (by decide)
    rw [dbUpdate_stable_snd _ "ItemStoreJoin" (r.ID.getD "") (mergeItemStoreJoin r true)
      hkJ hfixJ]
    obtain ⟨res2, hstep2, href2⟩ := getObject_byid_stable env
      (modifyObject p1.2 "Item" item.id
        (fun e => { e with isVisible := !parseBoolean r.inactive }))
      "Item" r.item_ID
      (fun s hks hs => by
        rw [hkid] at hks
        injection hks with hks
        subst hks
        refine hasKey_modifyObject p1.2 "Item" item.id _ "Item" "id" item.id
          (fun x => rfl) (fun x => by simp [keyFieldVal]) ?_
        exact hhk1 item.id hkid hknz)
    rw [hstep2]
    simp only [Bind.bind, Except.bind]
    rw [hkid] at href2
    have hrk : refKey (some item.id) = some item.id := by
      simp only [refKey]
      rw [if_neg (length_not_lt_one item.id hknz)]
    rw [hrk] at href2
    obtain ⟨item2, hres2, hid2⟩ := refId_eq_some res2 item.id href2
    rw [hres2]
    simp only [pure, Except.pure, Except.ok.injEq]
    rw [hid2]
    have hQ := modifyObject_matching_post p1.2 "Item" item.id
      (fun e => { e with isVisible := !parseBoolean r.inactive })
      (fun x => x.isVisible = !parseBoolean r.inactive) (fun x => rfl)
    refine modifyObject_stable _ "Item" item.id _ ?_
    intro x hx hxt hxk
    have hq := hQ x hx hxt hxk
    show { x with isVisible := !parseBoolean r.inactive } = x
    rw [← hq]

theorem integrateNameStoreJoin_idem (env : Env) (db db1 : DB) (r : WireRecord)
    (hok : integrateNameStoreJoin env db r = .ok db1) :
    integrateNameStoreJoin env db1 r = .ok db1 := by
  unfold integrateNameStoreJoin at hok ⊢
  rcases hj : (decide (r.store_ID = some env.thisStoreId)) with _ | _
  · simp only [hj, Bool.false_eq_true, if_false, pure, Except.pure, Except.ok.injEq] at hok ⊢
    subst hok
    exact dbUpdate_stable_snd _ "NameStoreJoin" (r.ID.getD "")
      (mergeNameStoreJoin r false)
      (hasKey_dbUpdate_self db "NameStoreJoin" (r.ID.getD "") (mergeNameStoreJoin r false)
        (fun x => rfl) (fun x => rfl))
      (dbUpdate_matching_fixed db "NameStoreJoin" (r.ID.getD "") (mergeNameStoreJoin r false)
        (fun x => rfl))
  · simp only [hj, if_true] at hok ⊢
    rcases hg1 : getObject env
        (dbUpdate db "NameStoreJoin" (r.ID.getD "") (mergeNameStoreJoin r true)).2
        "Name" r.name_ID "id" with u | p1
    · rw [hg1] at hok
      simp [Bind.bind, Except.bind] at hok
    rw [hg1] at hok
    simp only [Bind.bind, Except.bind] at hok
    obtain ⟨href1, hext1, hhk1⟩ := getObject_byid_run2 env
      (dbUpdate db "NameStoreJoin" (r.ID.getD "") (mergeNameStoreJoin r true)).2
      "Name" r.name_ID p1.1 p1.2 (by rw [hg1])
      (placeholder_fact_template env _ "Name" (fun s => ⟨_, rfl, rfl, rfl⟩))
    rcases hri : p1.1 with _ | nameObj
    · rw [hri] at hok
      simp at hok
    rw [hri] at hok
    simp only [pure, Except.pure, Except.ok.injEq] at hok
    subst hok
    rw [hri] at href1
    obtain ⟨hkid, hknz⟩ := refKey_eq_some r.name_ID nameObj.id href1.symm
    have hextw : p1.2.objects =
        (dbUpdate db "NameStoreJoin" (r.ID.getD "") (mergeNameStoreJoin r true)).2.objects
        ∨ ∃ p, p1.2.objects =
          (dbUpdate db "NameStoreJoin" (r.ID.getD "") (mergeNameStoreJoin r true)).2.objects
            ++ [p] := by
      rcases hext1 with h | ⟨p, _, hp⟩
      · exact Or.inl h
      · exact Or.inr ⟨p, hp⟩
    have hkJ : hasKey (modifyObject p1.2 "Name" nameObj.id
        (fun e => { e with isVisible := !parseBoolean r.inactive }))
        "NameStoreJoin" "id" (r.ID.getD "") := by
      refine hasKey_modifyObject p1.2 "Name" nameObj.id _ "NameStoreJoin" "id" (r.ID.getD "")
        (fun x => rfl) (fun x => by simp [keyFieldVal]) ?_
      refine hasKey_mono_objects _ p1.2 "NameStoreJoin" "id" (r.ID.getD "") hextw ?_
      exact hasKey_dbUpdate_self db "NameStoreJoin" (r.ID.getD "") (mergeNameStoreJoin r true)
        (fun x => rfl) (fun x => rfl)
    have hfixJ : MatchAll (modifyObject p1.2 "Name" nameObj.id
        (fun e => { e with isVisible := !parseBoolean r.inactive }))
        "NameStoreJoin" (r.ID.getD "")
        (fun x => mergeNameStoreJoin r true x = x) := by
      refine MatchAll_modifyObject_other p1.2 "Name" nameObj.id _ "NameStoreJoin" (r.ID.getD "")
        _ (by decide) (fun x => rfl) ?_
      have hbase := dbUpdate_matching_fixed db "NameStoreJoin" (r.ID.getD "")
        (mergeNameStoreJoin r true) (fun x => rfl)
      rcases hext1 with h | ⟨p, hpe, hp⟩
      · exact MatchAll_congr_objects _ p1.2 "NameStoreJoin" (r.ID.getD "") _ h hbase
      · refine MatchAll_append _ p1.2 p "NameStoreJoin" (r.ID.getD "") _ hp ?_ hbase
        intro h1 _
        exact absurd (hpe.symm.trans h1) (by decide)
    rw [dbUpdate_stable_snd _ "NameStoreJoin" (r.ID.getD "") (mergeNameStoreJoin r true)
      hkJ hfixJ]
    obtain ⟨res2, hstep2, href2⟩ := getObject_byid_stable env
      (modifyObject p1.2 "Name" nameObj.id
        (fun e => { e with isVisible := !parseBoolean r.inactive }))
      "Name" r.name_ID
      (fun s hks hs => by
        rw [hkid] at hks
        injection hks with hks
        subst hks
        refine hasKey_modifyObject p1.2 "Name" nameObj.id _ "Name" "id" nameObj.id
          (fun x => rfl) (fun x => by simp [keyFieldVal]) ?_
        exact hhk1 nameObj.id hkid hknz)
    rw [hstep2]
    simp only [Bind.bind, Except.bind]
    rw [hkid] at href2
    have hrk : refKey (some nameObj.id) = some nameObj.id := by
      simp only [refKey]
      rw [if_neg (length_not_lt_one nameObj.id hknz)]
    rw [hrk] at href2
    obtain ⟨name2, hres2, hid2⟩ := refId_eq_some res2 nameObj.id href2
    rw [hres2]
    simp only [pure, Except.pure, Except.ok.injEq]
    rw [hid2]
    have hQ := modifyObject_matching_post p1.2 "Name" nameObj.id
      (fun e => { e with isVisible := !parseBoolean r.inactive })
      (fun x => x.isVisible = !parseBoolean r.inactive) (fun x => rfl)
    refine modifyObject_stable _ "Name" nameObj.id _ ?_
    intro x hx hxt hxk
    have hq := hQ x hx hxt hxk
    show { x with isVisible := !parseBoolean r.inactive } = x
    rw [← hq]

theorem integrateItemBatch_idem (env : Env) (db db1 : DB) (r : WireRecord)
    (hok : integrateItemBatch env db r = .ok db1) :
    integrateItemBatch env db1 r = .ok db1 := by
  unfold integrateItemBatch at hok ⊢
  rcases hg1 : getObject env db "Item" r.item_ID "id" with u | p1
  · rw [hg1] at hok
    simp [Bind.bind, Except.bind] at hok
  rw [hg1] at hok
  simp only [Bind.bind, Except.bind] at hok
  obtain ⟨href1, hext1, hhk1⟩ := getObject_byid_run2 env db "Item" r.item_ID p1.1 p1.2
    (by rw [hg1]) (placeholder_fact_template env db "Item" (fun s => ⟨_, rfl, rfl, rfl⟩))
  rcases hg2 : getObject env p1.2 "Name" r.name_ID "id" with u | p2
  · rw [hg2] at hok
    simp at hok
  rw [hg2] at hok
  simp only [Bind.bind, Except.bind] at hok
  obtain ⟨href2, hext2, hhk2⟩ := getObject_byid_run2 env p1.2 "Name" r.name_ID p2.1 p2.2
    (by rw [hg2]) (placeholder_fact_template env p1.2 "Name" (fun s => ⟨_, rfl, rfl, rfl⟩))
  rcases hri : p1.1 with _ | item
  · rw [hri] at hok
    simp at hok
  rw [hri] at hok
  rw [hri] at href1
  obtain ⟨hkid, hknz⟩ := refKey_eq_some r.item_ID item.id href1.symm
  rw [href1, href2] at hok
  simp only [pure, Except.pure, Except.ok.injEq] at hok
  have hfst := dbUpdate_fst_id p2.2 "ItemBatch" (r.ID.getD "")
    (mergeItemBatch r (refKey r.item_ID) (refKey r.name_ID) (parseNumber r.pack_size))
    (fun x => rfl)
  rw [hfst] at hok
  subst hok
  have hextw : p2.2.objects = p1.2.objects ∨ ∃ p, p2.2.objects = p1.2.objects ++ [p] := by
    rcases hext2 with h | ⟨p, _, hp⟩
    · exact Or.inl h
    · exact Or.inr ⟨p, hp⟩
  have hkIB : hasKey (modifyObject
      (dbUpdate p2.2 "ItemBatch" (r.ID.getD "")
        (mergeItemBatch r (refKey r.item_ID) (refKey r.name_ID) (parseNumber r.pack_size))).2
      "Item" item.id
      (fun e => { e with batches := insertIfAbsent e.batches (r.ID.getD "") }))
      "ItemBatch" "id" (r.ID.getD "") := by
    refine hasKey_modifyObject _ "Item" item.id _ "ItemBatch" "id" (r.ID.getD "")
      (fun x => rfl) (fun x => by simp [keyFieldVal]) ?_
    exact hasKey_dbUpdate_self p2.2 "ItemBatch" (r.ID.getD "") _ (fun x => rfl) (fun x => rfl)
  have hfixIB : MatchAll (modifyObject
      (dbUpdate p2.2 "ItemBatch" (r.ID.getD "")
        (mergeItemBatch r (refKey r.item_ID) (refKey r.name_ID) (parseNumber r.pack_size))).2
      "Item" item.id
      (fun e => { e with batches := insertIfAbsent e.batches (r.ID.getD "") }))
      "ItemBatch" (r.ID.getD "")
      (fun x => mergeItemBatch r (refKey r.item_ID) (refKey r.name_ID)
        (parseNumber r.pack_size) x = x) := by
    refine MatchAll_modifyObject_other _ "Item" item.id _ "ItemBatch" (r.ID.getD "") _
      (by decide) (fun x => rfl) ?_
    exact dbUpdate_matching_fixed p2.2 "ItemBatch" (r.ID.getD "") _ (fun x => rfl)
  obtain ⟨res1, hstep1, href1b⟩ := getObject_byid_stable env
    (modifyObject
      (dbUpdate p2.2 "ItemBatch" (r.ID.getD "")
        (mergeItemBatch r (refKey r.item_ID) (refKey r.name_ID) (parseNumber r.pack_size))).2
      "Item" item.id
      (fun e => { e with batches := insertIfAbsent e.batches (r.ID.getD "") }))
    "Item" r.item_ID
    (fun s hks hs => by
      rw [hkid] at hks
      injection hks with hks
      subst hks
      refine hasKey_modifyObject _ "Item" item.id _ "Item" "id" item.id
        (fun x => rfl) (fun x => by simp [keyFieldVal]) ?_
      refine hasKey_dbUpdate p2.2 "ItemBatch" (r.ID.getD "") _ "Item" "id" item.id
        (fun x => rfl) (kf_id_set _ "ItemBatch" (r.ID.getD "") (fun x => rfl)) ?_
      exact hasKey_mono_objects p1.2 p2.2 "Item" "id" item.id hextw (hhk1 item.id hkid hknz))
  rw [hstep1]
  simp only [Bind.bind, Except.bind]
  obtain ⟨res2, hstep2, href2b⟩ := getObject_byid_stable env
    (modifyObject
      (dbUpdate p2.2 "ItemBatch" (r.ID.getD "")
        (mergeItemBatch r (refKey r.item_ID) (refKey r.name_ID) (parseNumber r.pack_size))).2
      "Item" item.id
      (fun e => { e with batches := insertIfAbsent e.batches (r.ID.getD "") }))
    "Name" r.name_ID
    (fun s hks hs => by
      refine hasKey_modifyObject _ "Item" item.id _ "Name" "id" s
        (fun x => rfl) (fun x => by simp [keyFieldVal]) ?_
      refine hasKey_dbUpdate p2.2 "ItemBatch" (r.ID.getD "") _ "Name" "id" s
        (fun x => rfl) (kf_id_set _ "ItemBatch" (r.ID.getD "") (fun x => rfl)) ?_
      exact hhk2 s hks hs)
  rw [hstep2]
  simp only [Bind.bind, Except.bind]
  rw [href1b, href2b]
  rw [hkid] at href1b
  have hrk : refKey (some item.id) = some item.id := by
    simp only [refKey]
    rw [if_neg (length_not_lt_one item.id hknz)]
  rw [hrk] at href1b
  obtain ⟨item2, hres1, hid1⟩ := refId_eq_some res1 item.id href1b
  rw [hres1]
  simp only [pure, Except.pure, Except.ok.injEq]
  rw [hid1]
  rw [dbUpdate_fst_id _ "ItemBatch" (r.ID.getD "")
    (mergeItemBatch r (refKey r.item_ID) (refKey r.name_ID) (parseNumber r.pack_size))
    (fun x => rfl)]
  rw [dbUpdate_stable_snd _ "ItemBatch" (r.ID.getD "")
    (mergeItemBatch r (refKey r.item_ID) (refKey r.name_ID) (parseNumber r.pack_size))
    hkIB hfixIB]
  have hQ := modifyObject_matching_post
    (dbUpdate p2.2 "ItemBatch" (r.ID.getD "")
      (mergeItemBatch r (refKey r.item_ID) (refKey r.name_ID) (parseNumber r.pack_size))).2
    "Item" item.id
    (fun e => { e with batches := insertIfAbsent e.batches (r.ID.getD "") })
    (fun x => (r.ID.getD "") ∈ x.batches)
    (fun x => insertIfAbsent_mem x.batches (r.ID.getD ""))
  refine modifyObject_stable _ "Item" item.id _ ?_
  intro x hx hxt hxk
  have hq := hQ x hx hxt hxk
  show { x with batches := insertIfAbsent x.batches (r.ID.getD "") } = x
  rw [insertIfAbsent_of_mem x.batches (r.ID.getD "") hq]

theorem integrateMasterListItem_idem (env : Env) (db db1 : DB) (r : WireRecord)
    (hok : integrateMasterListItem env db r = .ok db1) :
    integrateMasterListItem env db1 r = .ok db1 := by
  unfold integrateMasterListItem at hok ⊢
  rcases hg1 : getObject env db "MasterList" r.item_master_ID "id" with u | p1
  · rw [hg1] at hok
    simp [Bind.bind, Except.bind] at hok
  rw [hg1] at hok
  simp only [Bind.bind, Except.bind] at hok
  obtain ⟨href1, hext1, hhk1⟩ := getObject_byid_run2 env db "MasterList" r.item_master_ID
    p1.1 p1.2 (by rw [hg1])
    (placeholder_fact_template env db "MasterList" (fun s => ⟨_, rfl, rfl, rfl⟩))
  rcases hg2 : getObject env p1.2 "Item" r.item_ID "id" with u | p2
  · rw [hg2] at hok
    simp at hok
  rw [hg2] at hok
  simp only [Bind.bind, Except.bind] at hok
  obtain ⟨href2, hext2, hhk2⟩ := getObject_byid_run2 env p1.2 "Item" r.item_ID p2.1 p2.2
    (by rw [hg2]) (placeholder_fact_template env p1.2 "Item" (fun s => ⟨_, rfl, rfl, rfl⟩))
  rcases hri : p1.1 with _ | ml
  · rw [hri] at hok
    simp at hok
  rw [hri] at hok
  rw [hri] at href1
  obtain ⟨hkid, hknz⟩ := refKey_eq_some r.item_master_ID ml.id href1.symm
  rw [href1, href2] at hok
  simp only [pure, Except.pure, Except.ok.injEq] at hok
  have hfst := dbUpdate_fst_id p2.2 "MasterListItem" (r.ID.getD "")
    (mergeMasterListItem r (refKey r.item_ID) (refKey r.item_master_ID))
    (fun x => rfl)
  rw [hfst] at hok
  subst hok
  have hextw : p2.2.objects = p1.2.objects ∨ ∃ p, p2.2.objects = p1.2.objects ++ [p] := by
    rcases hext2 with h | ⟨p, _, hp⟩
    · exact Or.inl h
    · exact Or.inr ⟨p, hp⟩
  have hkMLI : hasKey (modifyObject
      (dbUpdate p2.2 "MasterListItem" (r.ID.getD "")
        (mergeMasterListItem r (refKey r.item_ID) (refKey r.item_master_ID))).2
      "MasterList" ml.id
      (fun e => { e with items := insertIfAbsent e.items (r.ID.getD "") }))
      "MasterListItem" "id" (r.ID.getD "") := by
    refine hasKey_modifyObject _ "MasterList" ml.id _ "MasterListItem" "id" (r.ID.getD "")
      (fun x => rfl) (fun x => by simp [keyFieldVal]) ?_
    exact hasKey_dbUpdate_self p2.2 "MasterListItem" (r.ID.getD "") _
      (fun x => rfl) (fun x => rfl)
  have hfixMLI : MatchAll (modifyObject
      (dbUpdate p2.2 "MasterListItem" (r.ID.getD "")
        (mergeMasterListItem r (refKey r.item_ID) (refKey r.item_master_ID))).2
      "MasterList" ml.id
      (fun e => { e with items := insertIfAbsent e.items (r.ID.getD "") }))
      "MasterListItem" (r.ID.getD "")
      (fun x => mergeMasterListItem r (refKey r.item_ID) (refKey r.item_master_ID) x = x) := by
    refine MatchAll_modifyObject_other _ "MasterList" ml.id _ "MasterListItem" (r.ID.getD "")
      _ (by decide) (fun x => rfl) ?_
    exact dbUpdate_matching_fixed p2.2 "MasterListItem" (r.ID.getD "") _ (fun x => rfl)
  obtain ⟨res1, hstep1, href1b⟩ := getObject_byid_stable env
    (modifyObject
      (dbUpdate p2.2 "MasterListItem" (r.ID.getD "")
        (mergeMasterListItem r (refKey r.item_ID) (refKey r.item_master_ID))).2
      "MasterList" ml.id
      (fun e => { e with items := insertIfAbsent e.items (r.ID.getD "") }))
    "MasterList" r.item_master_ID
    (fun s hks hs => by
      rw [hkid] at hks
      injection hks with hks
      subst hks
      refine hasKey_modifyObject _ "MasterList" ml.id _ "MasterList" "id" ml.id
        (fun x => rfl) (fun x => by simp [keyFieldVal]) ?_
      refine hasKey_dbUpdate p2.2 "MasterListItem" (r.ID.getD "") _ "MasterList" "id" ml.id
        (fun x => rfl) (kf_id_set _ "MasterListItem" (r.ID.getD "") (fun x => rfl)) ?_
      exact hasKey_mono_objects p1.2 p2.2 "MasterList" "id" ml.id hextw
        (hhk1 ml.id hkid hknz))
  rw [hstep1]
  simp only [Bind.bind, Except.bind]
  obtain ⟨res2, hstep2, href2b⟩ := getObject_byid_stable env
    (modifyObject
      (dbUpdate p2.2 "MasterListItem" (r.ID.getD "")
        (mergeMasterListItem r (refKey r.item_ID) (refKey r.item_master_ID))).2
      "MasterList" ml.id
      (fun e => { e with items := insertIfAbsent e.items (r.ID.getD "") }))
    "Item" r.item_ID
    (fun s hks hs => by
      refine hasKey_modifyObject _ "MasterList" ml.id _ "Item" "id" s
        (fun x => rfl) (fun x => by simp [keyFieldVal]) ?_
      refine hasKey_dbUpdate p2.2 "MasterListItem" (r.ID.getD "") _ "Item" "id" s
        (fun x => rfl) (kf_id_set _ "MasterListItem" (r.ID.getD "") (fun x => rfl)) ?_
      exact hhk2 s hks hs)
  rw [hstep2]
  simp only [Bind.bind, Except.bind]
  rw [href1b, href2b]
  rw [hkid] at href1b
  have hrk : refKey (some ml.id) = some ml.id := by
    simp only [refKey]
    rw [if_neg (length_not_lt_one ml.id hknz)]
  rw [hrk] at href1b
  obtain ⟨ml2, hres1, hid1⟩ := refId_eq_some res1 ml.id href1b
  rw [hres1]
  simp only [pure, Except.pure, Except.ok.injEq]
  rw [hid1]
  rw [dbUpdate_fst_id _ "MasterListItem" (r.ID.getD "")
    (mergeMasterListItem r (refKey r.item_ID) (refKey r.item_master_ID))
    (fun x => rfl)]
  rw [dbUpdate_stable_snd _ "MasterListItem" (r.ID.getD "")
    (mergeMasterListItem r (refKey r.item_ID) (refKey r.item_master_ID))
    hkMLI hfixMLI]
  have hQ := modifyObject_matching_post
    (dbUpdate p2.2 "MasterListItem" (r.ID.getD "")
      (mergeMasterListItem r (refKey r.item_ID) (refKey r.item_master_ID))).2
    "MasterList" ml.id
    (fun e => { e with items := insertIfAbsent e.items (r.ID.getD "") })
    (fun x => (r.ID.getD "") ∈ x.items)
    (fun x => insertIfAbsent_mem x.items (r.ID.getD ""))
  refine modifyObject_stable _ "MasterList" ml.id _ ?_
  intro x hx hxt hxk
  have hq := hQ x hx hxt hxk
  show { x with items := insertIfAbsent x.items (r.ID.getD "") } = x
  rw [insertIfAbsent_of_mem x.items (r.ID.getD "") hq]

theorem integrateStocktakeBatch_idem (env : Env) (db db1 : DB) (r : WireRecord)
    (hok : integrateStocktakeBatch env db r = .ok db1) :
    integrateStocktakeBatch env db1 r = .ok db1 := by
  unfold integrateStocktakeBatch at hok ⊢
  rcases hg1 : getObject env db "Stocktake" r.stock_take_ID "id" with u | p1
  · rw [hg1] at hok
    simp [Bind.bind, Except.bind] at hok
  rw [hg1] at hok
  simp only [Bind.bind, Except.bind] at hok
  obtain ⟨href1, hext1, hhk1⟩ := getObject_byid_run2 env db "Stocktake" r.stock_take_ID
    p1.1 p1.2 (by rw [hg1])
    (placeholder_fact_template env db "Stocktake" (fun s => ⟨_, rfl, rfl, rfl⟩))
  rcases hg2 : getObject env p1.2 "ItemBatch" r.item_line_ID "id" with u | p2
  · rw [hg2] at hok
    simp at hok
  rw [hg2] at hok
  simp only [Bind.bind, Except.bind] at hok
  obtain ⟨href2, hext2, hhk2⟩ := getObject_byid_run2 env p1.2 "ItemBatch" r.item_line_ID
    p2.1 p2.2 (by rw [hg2])
    (placeholder_fact_template env p1.2 "ItemBatch" (fun s => ⟨_, rfl, rfl, rfl⟩))
  rcases hri : p1.1 with _ | st
  · rw [hri] at hok
    simp at hok
  rw [hri] at hok
  rw [hri] at href1
  obtain ⟨hkid, hknz⟩ := refKey_eq_some r.stock_take_ID st.id href1.symm
  rw [href1, href2] at hok
  simp only [pure, Except.pure, Except.ok.injEq] at hok
  have hfst := dbUpdate_fst_id p2.2 "StocktakeBatch" (r.ID.getD "")
    (mergeStocktakeBatch r (refKey r.stock_take_ID) (refKey r.item_line_ID)
      (parseNumber r.snapshot_packsize)
      (jsMul (parseNumber r.snapshot_qty) (parseNumber r.snapshot_packsize)))
    (fun x => rfl)
  rw [hfst] at hok
  subst hok
  have hextw : p2.2.objects = p1.2.objects ∨ ∃ p, p2.2.objects = p1.2.objects ++ [p] := by
    rcases hext2 with h | ⟨p, _, hp⟩
    · exact Or.inl h
    · exact Or.inr ⟨p, hp⟩
  have hkSTB : hasKey (modifyObject
      (dbUpdate p2.2 "StocktakeBatch" (r.ID.getD "")
        (mergeStocktakeBatch r (refKey r.stock_take_ID) (refKey r.item_line_ID)
          (parseNumber r.snapshot_packsize)
          (jsMul (parseNumber r.snapshot_qty) (parseNumber r.snapshot_packsize)))).2
      "Stocktake" st.id
      (fun e => { e with batches := insertIfAbsent e.batches (r.ID.getD "") }))
      "StocktakeBatch" "id" (r.ID.getD "") := by
    refine hasKey_modifyObject _ "Stocktake" st.id _ "StocktakeBatch" "id" (r.ID.getD "")
      (fun x => rfl) (fun x => by simp [keyFieldVal]) ?_
    exact hasKey_dbUpdate_self p2.2 "StocktakeBatch" (r.ID.getD "") _
      (fun x => rfl) (fun x => rfl)
  have hfixSTB : MatchAll (modifyObject
      (dbUpdate p2.2 "StocktakeBatch" (r.ID.getD "")
        (mergeStocktakeBatch r (refKey r.stock_take_ID) (refKey r.item_line_ID)
          (parseNumber r.snapshot_packsize)
          (jsMul (parseNumber r.snapshot_qty) (parseNumber r.snapshot_packsize)))).2
      "Stocktake" st.id
      (fun e => { e with batches := insertIfAbsent e.batches (r.ID.getD "") }))
      "StocktakeBatch" (r.ID.getD "")
      (fun x => mergeStocktakeBatch r (refKey r.stock_take_ID) (refKey r.item_line_ID)
        (parseNumber r.snapshot_packsize)
        (jsMul (parseNumber r.snapshot_qty) (parseNumber r.snapshot_packsize)) x = x) := by
    refine MatchAll_modifyObject_other _ "Stocktake" st.id _ "StocktakeBatch" (r.ID.getD "")
      _ (by decide) (fun x => rfl) ?_
    exact dbUpdate_matching_fixed p2.2 "StocktakeBatch" (r.ID.getD "") _ (fun x => rfl)
  obtain ⟨res1, hstep1, href1b⟩ := getObject_byid_stable env
    (modifyObject
      (dbUpdate p2.2 "StocktakeBatch" (r.ID.getD "")
        (mergeStocktakeBatch r (refKey r.stock_take_ID) (refKey r.item_line_ID)
          (parseNumber r.snapshot_packsize)
          (jsMul (parseNumber r.snapshot_qty) (parseNumber r.snapshot_packsize)))).2
      "Stocktake" st.id
      (fun e => { e with batches := insertIfAbsent e.batches (r.ID.getD "") }))
    "Stocktake" r.stock_take_ID
    (fun s hks hs => by
      rw [hkid] at hks
      injection hks with hks
      subst hks
      refine hasKey_modifyObject _ "Stocktake" st.id _ "Stocktake" "id" st.id
        (fun x => rfl) (fun x => by simp [keyFieldVal]) ?_
      refine hasKey_dbUpdate p2.2 "StocktakeBatch" (r.ID.getD "") _ "Stocktake" "id" st.id
        (fun x => rfl) (kf_id_set _ "StocktakeBatch" (r.ID.getD "") (fun x => rfl)) ?_
      exact hasKey_mono_objects p1.2 p2.2 "Stocktake" "id" st.id hextw
        (hhk1 st.id hkid hknz))
  rw [hstep1]
  simp only [Bind.bind, Except.bind]
  obtain ⟨res2, hstep2, href2b⟩ := getObject_byid_stable env
    (modifyObject
      (dbUpdate p2.2 "StocktakeBatch" (r.ID.getD "")
        (mergeStocktakeBatch r (refKey r.stock_take_ID) (refKey r.item_line_ID)
          (parseNumber r.snapshot_packsize)
          (jsMul (parseNumber r.snapshot_qty) (parseNumber r.snapshot_packsize)))).2
      "Stocktake" st.id
      (fun e => { e with batches := insertIfAbsent e.batches (r.ID.getD "") }))
    "ItemBatch" r.item_line_ID
    (fun s hks hs => by
      refine hasKey_modifyObject _ "Stocktake" st.id _ "ItemBatch" "id" s
        (fun x => rfl) (fun x => by simp [keyFieldVal]) ?_
      refine hasKey_dbUpdate p2.2 "StocktakeBatch" (r.ID.getD "") _ "ItemBatch" "id" s
        (fun x => rfl) (kf_id_set _ "StocktakeBatch" (r.ID.getD "") (fun x => rfl)) ?_
      exact hhk2 s hks hs)
  rw [hstep2]
  simp only [Bind.bind, Except.bind]
  rw [href1b, href2b]
  rw [hkid] at href1b
  have hrk : refKey (some st.id) = some st.id := by
    simp only [refKey]
    rw [if_neg (length_not_lt_one st.id hknz)]
  rw [hrk] at href1b
  obtain ⟨st2, hres1, hid1⟩ := refId_eq_some res1 st.id href1b
  rw [hres1]
  simp only [pure, Except.pure, Except.ok.injEq]
  rw [hid1]
  rw [dbUpdate_fst_id _ "StocktakeBatch" (r.ID.getD "")
    (mergeStocktakeBatch r (refKey r.stock_take_ID) (refKey r.item_line_ID)
      (parseNumber r.snapshot_packsize)
      (jsMul (parseNumber r.snapshot_qty) (parseNumber r.snapshot_packsize)))
    (fun x => rfl)]
  rw [dbUpdate_stable_snd _ "StocktakeBatch" (r.ID.getD "")
    (mergeStocktakeBatch r (refKey r.stock_take_ID) (refKey r.item_line_ID)
      (parseNumber r.snapshot_packsize)
      (jsMul (parseNumber r.snapshot_qty) (parseNumber r.snapshot_packsize)))
    hkSTB hfixSTB]
  have hQ := modifyObject_matching_post
    (dbUpdate p2.2 "StocktakeBatch" (r.ID.getD "")
      (mergeStocktakeBatch r (refKey r.stock_take_ID) (refKey r.item_line_ID)
        (parseNumber r.snapshot_packsize)
        (jsMul (parseNumber r.snapshot_qty) (parseNumber r.snapshot_packsize)))).2
    "Stocktake" st.id
    (fun e => { e with batches := insertIfAbsent e.batches (r.ID.getD "") })
    (fun x => (r.ID.getD "") ∈ x.batches)
    (fun x => insertIfAbsent_mem x.batches (r.ID.getD ""))
  refine modifyObject_stable _ "Stocktake" st.id _ ?_
  intro x hx hxt hxk
  have hq := hQ x hx hxt hxk
  show { x with batches := insertIfAbsent x.batches (r.ID.getD "") } = x
  rw [insertIfAbsent_of_mem x.batches (r.ID.getD "") hq]

theorem integrateMasterListNameJoin_idem (env : Env) (db db1 : DB) (r : WireRecord)
    (hok : integrateMasterListNameJoin env db r = .ok db1) :
    integrateMasterListNameJoin env db1 r = .ok db1 := by
  unfold integrateMasterListNameJoin at hok ⊢
  rcases hg1 : getObject env db "Name" r.name_ID "id" with u | p1
  · rw [hg1] at hok
    simp [Bind.bind, Except.bind] at hok
  rw [hg1] at hok
  simp only [Bind.bind, Except.bind] at hok
  obtain ⟨href1, hext1, hhk1⟩ := getObject_byid_run2 env db "Name" r.name_ID p1.1 p1.2
    (by rw [hg1]) (placeholder_fact_template env db "Name" (fun s => ⟨_, rfl, rfl, rfl⟩))
  rcases hg2 : getObject env p1.2 "MasterList" r.list_master_ID "id" with u | p2
  · rw [hg2] at hok
    simp at hok
  rw [hg2] at hok
  simp only [Bind.bind, Except.bind] at hok
  obtain ⟨href2, hext2, hhk2⟩ := getObject_byid_run2 env p1.2 "MasterList" r.list_master_ID
    p2.1 p2.2 (by rw [hg2])
    (placeholder_fact_template env p1.2 "MasterList" (fun s => ⟨_, rfl, rfl, rfl⟩))
  rcases hri : p1.1 with _ | nameObj
  · rw [hri] at hok
    simp at hok
  rw [hri] at hok
  rw [hri] at href1
  obtain ⟨hkid, hknz⟩ := refKey_eq_some r.name_ID nameObj.id href1.symm
  rw [href2] at hok
  simp only [pure, Except.pure, Except.ok.injEq] at hok
  subst hok
  have hextw : p2.2.objects = p1.2.objects ∨ ∃ p, p2.2.objects = p1.2.objects ++ [p] := by
    rcases hext2 with h | ⟨p, _, hp⟩
    · exact Or.inl h
    · exact Or.inr ⟨p, hp⟩
  obtain ⟨res1, hstep1, href1b⟩ := getObject_byid_stable env
    (dbUpdate (modifyObject p2.2 "Name" nameObj.id
        (fun e => { e with masterList := refKey r.list_master_ID }))
      "MasterListNameJoin" (r.ID.getD "")
      (mergeMasterListNameJoin r (some nameObj.id) (refKey r.list_master_ID))).2
    "Name" r.name_ID
    (fun s hks hs => by
      rw [hkid] at hks
      injection hks with hks
      subst hks
      refine hasKey_dbUpdate _ "MasterListNameJoin" (r.ID.getD "") _ "Name" "id" nameObj.id
        (fun x => rfl) (kf_id_set _ "MasterListNameJoin" (r.ID.getD "") (fun x => rfl)) ?_
      refine hasKey_modifyObject p2.2 "Name" nameObj.id _ "Name" "id" nameObj.id
        (fun x => rfl) (fun x => by simp [keyFieldVal]) ?_
      exact hasKey_mono_objects p1.2 p2.2 "Name" "id" nameObj.id hextw
        (hhk1 nameObj.id hkid hknz))
  rw [hstep1]
  simp only [Bind.bind, Except.bind]
  obtain ⟨res2, hstep2, href2b⟩ := getObject_byid_stable env
    (dbUpdate (modifyObject p2.2 "Name" nameObj.id
        (fun e => { e with masterList := refKey r.list_master_ID }))
      "MasterListNameJoin" (r.ID.getD "")
      (mergeMasterListNameJoin r (some nameObj.id) (refKey r.list_master_ID))).2
    "MasterList" r.list_master_ID
    (fun s hks hs => by
      refine hasKey_dbUpdate _ "MasterListNameJoin" (r.ID.getD "") _ "MasterList" "id" s
        (fun x => rfl) (kf_id_set _ "MasterListNameJoin" (r.ID.getD "") (fun x => rfl)) ?_
      refine hasKey_modifyObject p2.2 "Name" nameObj.id _ "MasterList" "id" s
        (fun x => rfl) (fun x => by simp [keyFieldVal]) ?_
      exact hhk2 s hks hs)
  rw [hstep2]
  simp only [Bind.bind, Except.bind]
  rw [href2b]
  rw [hkid] at href1b
  have hrk : refKey (some nameObj.id) = some nameObj.id := by
    simp only [refKey]
    rw [if_neg (length_not_lt_one nameObj.id hknz)]
  rw [hrk] at href1b
  obtain ⟨name2, hres1, hid1⟩ := refId_eq_some res1 nameObj.id href1b
  rw [hres1]
  simp only [pure, Except.pure, Except.ok.injEq]
  rw [hid1]
  have hQ : MatchAll
      (dbUpdate (modifyObject p2.2 "Name" nameObj.id
          (fun e => { e with masterList := refKey r.list_master_ID }))
        "MasterListNameJoin" (r.ID.getD "")
        (mergeMasterListNameJoin r (some nameObj.id) (refKey r.list_master_ID))).2
      "Name" nameObj.id (fun x => x.masterList = refKey r.list_master_ID) := by
    refine MatchAll_dbUpdate_other _ "MasterListNameJoin" (r.ID.getD "") _ "Name" nameObj.id
      _ (by decide) (fun x => rfl) ?_
    exact modifyObject_matching_post p2.2 "Name" nameObj.id _ _ (fun x => rfl)
  have hmod : modifyObject
      (dbUpdate (modifyObject p2.2 "Name" nameObj.id
          (fun e => { e with masterList := refKey r.list_master_ID }))
        "MasterListNameJoin" (r.ID.getD "")
        (mergeMasterListNameJoin r (some nameObj.id) (refKey r.list_master_ID))).2
      "Name" nameObj.id (fun e => { e with masterList := refKey r.list_master_ID })
      = (dbUpdate (modifyObject p2.2 "Name" nameObj.id
          (fun e => { e with masterList := refKey r.list_master_ID }))
        "MasterListNameJoin" (r.ID.getD "")
        (mergeMasterListNameJoin r (some nameObj.id) (refKey r.list_master_ID))).2 := by
    refine modifyObject_stable _ "Name" nameObj.id _ ?_
    intro x hx hxt hxk
    have hq := hQ x hx hxt hxk
    show { x with masterList := refKey r.list_master_ID } = x
    rw [← hq]
  rw [hmod]
  rw [dbUpdate_stable_snd _ "MasterListNameJoin" (r.ID.getD "")
    (mergeMasterListNameJoin r (some nameObj.id) (refKey r.list_master_ID))
    (hasKey_dbUpdate_self (modifyObject p2.2 "Name" nameObj.id
        (fun e => { e with masterList := refKey r.list_master_ID }))
      "MasterListNameJoin" (r.ID.getD "")
      (mergeMasterListNameJoin r (some nameObj.id) (refKey r.list_master_ID))
      (fun x => rfl) (fun x => rfl))
    (dbUpdate_matching_fixed (modifyObject p2.2 "Name" nameObj.id
        (fun e => { e with masterList := refKey r.list_master_ID }))
      "MasterListNameJoin" (r.ID.getD "")
      (mergeMasterListNameJoin r (some nameObj.id) (refKey r.list_master_ID))
      (fun x => rfl))]

theorem integrateNumberToReuse_idem (env : Env) (db db1 : DB) (r : WireRecord)
    (hok : integrateNumberToReuse env db r = .ok db1) :
    integrateNumberToReuse env db1 r = .ok db1 := by
  unfold integrateNumberToReuse at hok ⊢
  rcases hsk : env.sequenceKeyTranslate r.name env.thisStoreId with _ | key
  · rw [hsk] at hok
    simp only [truthyStr, Bool.not_false, if_true, pure, Except.pure, Except.ok.injEq] at hok
    subst hok
    simp [truthyStr, pure, Except.pure]
  by_cases hknz : key = ""
  · subst hknz
    rw [hsk] at hok
    simp [truthyStr, pure, Except.pure, Except.ok.injEq] at hok
    subst hok
    simp [truthyStr, pure, Except.pure]
  rw [hsk] at hok
  have hgt : (!truthyStr (some key)) = false := by simp [truthyStr, hknz]
  simp only [hgt, Bool.false_eq_true, if_false] at hok ⊢
  rcases hg0 : getObject env db "NumberSequence" (some key) "sequenceKey" with u | p1
  · rw [hg0] at hok
    simp [Bind.bind, Except.bind] at hok
  rw [hg0] at hok
  simp only [Bind.bind, Except.bind] at hok
  obtain ⟨ns0, hres, hfind, hext⟩ := getObject_seqkey_run env db key p1.1 p1.2 hknz
    (by rw [hg0])
  rw [hres] at hok
  have hrefid : refId (some ns0) = some ns0.id := rfl
  rw [hrefid] at hok
  simp only [pure, Except.pure, Except.ok.injEq] at hok
  have hfst := dbUpdate_fst_id p1.2 "NumberToReuse" (r.ID.getD "")
    (mergeNumberToReuse r (some ns0.id)) (fun x => rfl)
  rw [hfst] at hok
  subst hok
  have hfind' : p1.2.objects.find? (keyPred "NumberSequence" "sequenceKey" key)
      = some ns0 := hfind
  have hp := List.find?_some hfind'
  have hnse : ns0.etype = "NumberSequence" := by
    simp only [keyPred, Bool.and_eq_true, decide_eq_true_eq] at hp
    exact hp.1
  have hfind2 : findByKey
      (modifyObject
        (dbUpdate p1.2 "NumberToReuse" (r.ID.getD "") (mergeNumberToReuse r (some ns0.id))).2
        "NumberSequence" ns0.id
        (fun e => { e with numbersToReuse := insertIfAbsent e.numbersToReuse (r.ID.getD "") }))
      "NumberSequence" "sequenceKey" key
      = some { ns0 with
               numbersToReuse := insertIfAbsent ns0.numbersToReuse (r.ID.getD "") } := by
    rw [findByKey_modifyObject_pres]
    rotate_left
    · exact fun x => ⟨rfl, rfl⟩
    rw [findByKey_dbUpdate_other]
    rotate_left
    · decide
    · exact fun x => rfl
    rw [hfind]
    simp [Option.map, hnse]
  rw [getObject_found env _ "NumberSequence" "sequenceKey" key _ hknz hfind2]
  simp only [Bind.bind, Except.bind]
  have hrefid2 : refId (some ({ ns0 with
      numbersToReuse := insertIfAbsent ns0.numbersToReuse (r.ID.getD "") } : Entity))
      = some ns0.id := rfl
  rw [hrefid2]
  have hkN : hasKey (modifyObject
      (dbUpdate p1.2 "NumberToReuse" (r.ID.getD "") (mergeNumberToReuse r (some ns0.id))).2
      "NumberSequence" ns0.id
      (fun e => { e with numbersToReuse := insertIfAbsent e.numbersToReuse (r.ID.getD "") }))
      "NumberToReuse" "id" (r.ID.getD "") := by
    refine hasKey_modifyObject _ "NumberSequence" ns0.id _ "NumberToReuse" "id" (r.ID.getD "")
      (fun x => rfl) (fun x => by simp [keyFieldVal]) ?_
    exact hasKey_dbUpdate_self p1.2 "NumberToReuse" (r.ID.getD "") _
      (fun x => rfl) (fun x => rfl)
  have hfixN : MatchAll (modifyObject
      (dbUpdate p1.2 "NumberToReuse" (r.ID.getD "") (mergeNumberToReuse r (some ns0.id))).2
      "NumberSequence" ns0.id
      (fun e => { e with numbersToReuse := insertIfAbsent e.numbersToReuse (r.ID.getD "") }))
      "NumberToReuse" (r.ID.getD "")
      (fun x => mergeNumberToReuse r (some ns0.id) x = x) := by
    refine MatchAll_modifyObject_other _ "NumberSequence" ns0.id _ "NumberToReuse"
      (r.ID.getD "") _ (by decide) (fun x => rfl) ?_
    exact dbUpdate_matching_fixed p1.2 "NumberToReuse" (r.ID.getD "") _ (fun x => rfl)
  rw [dbUpdate_fst_id _ "NumberToReuse" (r.ID.getD "") (mergeNumberToReuse r (some ns0.id))
    (fun x => rfl)]
  rw [dbUpdate_stable_snd _ "NumberToReuse" (r.ID.getD "") (mergeNumberToReuse r (some ns0.id))
    hkN hfixN]
  simp only [pure, Except.pure, Except.ok.injEq]
  have hQ := modifyObject_matching_post
    (dbUpdate p1.2 "NumberToReuse" (r.ID.getD "") (mergeNumberToReuse r (some ns0.id))).2
    "NumberSequence" ns0.id
    (fun e => { e with numbersToReuse := insertIfAbsent e.numbersToReuse (r.ID.getD "") })
    (fun x => (r.ID.getD "") ∈ x.numbersToReuse)
    (fun x => insertIfAbsent_mem x.numbersToReuse (r.ID.getD ""))
  refine modifyObject_stable _ "NumberSequence" _ _ ?_
  intro x hx hxt hxk
  have hq := hQ x hx hxt hxk
  show { x with numbersToReuse := insertIfAbsent x.numbersToReuse (r.ID.getD "") } = x
  rw [insertIfAbsent_of_mem x.numbersToReuse (r.ID.getD "") hq]

theorem integrateRequisitionItem_idem (env : Env) (db db1 : DB) (r : WireRecord)
    (hok : integrateRequisitionItem env db r = .ok db1) :
    integrateRequisitionItem env db1 r = .ok db1 := by
  unfold integrateRequisitionItem at hok ⊢
  rcases hg1 : getObject env db "Requisition" r.requisition_ID "id" with u | p1
  · rw [hg1] at hok
    simp [Bind.bind, Except.bind] at hok
  rw [hg1] at hok
  simp only [Bind.bind, Except.bind] at hok
  rcases getObject_ok_cases env db "Requisition" r.requisition_ID "id" p1.1 p1.2
      (by rw [hg1]) with ⟨hres, hdb, hk⟩ | ⟨s, e, hks, hs, hf, hres, hdb⟩ |
      ⟨s, pd, hks, hs, hf, hp, hres, hdb⟩
  · rw [hres] at hok
    simp at hok
  · have hpred := List.find?_some hf
    rw [keyPred_id] at hpred
    obtain ⟨hee, hei⟩ : e.etype = "Requisition" ∧ e.id = s := by
      simpa [Bool.and_eq_true, decide_eq_true_eq] using hpred
    subst hei
    rw [hres, hdb] at hok
    simp only [Bind.bind, Except.bind] at hok
    rcases hg2 : getObject env db "Item" r.item_ID "id" with u | p2
    · rw [hg2] at hok
      simp at hok
    rw [hg2] at hok
    simp only [Bind.bind, Except.bind] at hok
    obtain ⟨href2, hext2, hhk2⟩ := getObject_byid_run2 env db "Item" r.item_ID p2.1 p2.2
      (by rw [hg2]) (placeholder_fact_template env db "Item" (fun s => ⟨_, rfl, rfl, rfl⟩))
    rw [href2] at hok
    simp only [pure, Except.pure, Except.ok.injEq] at hok
    have hfst := dbUpdate_fst_id p2.2 "RequisitionItem" (r.ID.getD "")
      (mergeRequisitionItem r (some e.id) (refKey r.item_ID)
        (if e.daysToSupply.truthy = true
         then jsDiv (parseNumber r.Cust_stock_order) e.daysToSupply else JsNum.num 0))
      (fun x => rfl)
    rw [hfst] at hok
    subst hok
    have hf2 : findByKey p2.2 "Requisition" "id" e.id = some e := by
      rcases hext2 with h | ⟨p, _, hp2⟩
      · rw [findByKey_congr_objects p2.2 db "Requisition" "id" e.id h]
        exact hf
      · exact findByKey_append_found db p2.2 p "Requisition" "id" e.id e hp2 hf
    have hf3 : findByKey
        (dbUpdate p2.2 "RequisitionItem" (r.ID.getD "")
          (mergeRequisitionItem r (some e.id) (refKey r.item_ID)
            (if e.daysToSupply.truthy = true
             then jsDiv (parseNumber r.Cust_stock_order) e.daysToSupply else JsNum.num 0))).2
        "Requisition" "id" e.id = some e := by
      rw [findByKey_dbUpdate_other]
      rotate_left
      · decide
      · exact fun x => rfl
      exact hf2
    have hfind2 : findByKey
        (modifyObject
          (dbUpdate p2.2 "RequisitionItem" (r.ID.getD "")
            (mergeRequisitionItem r (some e.id) (refKey r.item_ID)
              (if e.daysToSupply.truthy = true
               then jsDiv (parseNumber r.Cust_stock_order) e.daysToSupply else JsNum.num 0))).2
          "Requisition" e.id
          (fun x => { x with items := insertIfAbsent x.items (r.ID.getD "") }))
        "Requisition" "id" e.id
        = some { e with items := insertIfAbsent e.items (r.ID.getD "") } := by
      rw [findByKey_modifyObject_pres]
      rotate_left
      · exact fun x => ⟨rfl, rfl⟩
      rw [hf3]
      simp [Option.map, hee]
    rw [hks]
    rw [getObject_found env _ "Requisition" "id" e.id _ hs hfind2]
    simp only [Bind.bind, Except.bind]
    obtain ⟨res2, hstep2, href2b⟩ := getObject_byid_stable env
      (modifyObject
        (dbUpdate p2.2 "RequisitionItem" (r.ID.getD "")
          (mergeRequisitionItem r (some e.id) (refKey r.item_ID)
            (if e.daysToSupply.truthy = true
             then jsDiv (parseNumber r.Cust_stock_order) e.daysToSupply else JsNum.num 0))).2
        "Requisition" e.id
        (fun x => { x with items := insertIfAbsent x.items (r.ID.getD "") }))
      "Item" r.item_ID
      (fun s2 hks2 hs2 => by
        refine hasKey_modifyObject _ "Requisition" e.id _ "Item" "id" s2
          (fun x => rfl) (fun x => by simp [keyFieldVal]) ?_
        refine hasKey_dbUpdate p2.2 "RequisitionItem" (r.ID.getD "") _ "Item" "id" s2
          (fun x => rfl) (kf_id_set _ "RequisitionItem" (r.ID.getD "") (fun x => rfl)) ?_
        exact hhk2 s2 hks2 hs2)
    rw [hstep2]
    simp only [Bind.bind, Except.bind]
    rw [href2b]
    simp only [pure, Except.pure, Except.ok.injEq]
    rw [dbUpdate_fst_id _ "RequisitionItem" (r.ID.getD "")
      (mergeRequisitionItem r (some e.id) (refKey r.item_ID)
        (if e.daysToSupply.truthy = true
         then jsDiv (parseNumber r.Cust_stock_order) e.daysToSupply else JsNum.num 0))
      (fun x => rfl)]
    rw [dbUpdate_stable_snd _ "RequisitionItem" (r.ID.getD "")
      (mergeRequisitionItem r (some e.id) (refKey r.item_ID)
        (if e.daysToSupply.truthy = true
         then jsDiv (parseNumber r.Cust_stock_order) e.daysToSupply else JsNum.num 0))
      (by
        refine hasKey_modifyObject _ "Requisition" e.id _ "RequisitionItem" "id" (r.ID.getD "")
          (fun x => rfl) (fun x => by simp [keyFieldVal]) ?_
        exact hasKey_dbUpdate_self p2.2 "RequisitionItem" (r.ID.getD "") _
          (fun x => rfl) (fun x => rfl))
      (by
        refine MatchAll_modifyObject_other _ "Requisition" e.id _ "RequisitionItem"
          (r.ID.getD "") _ (by decide) (fun x => rfl) ?_
        exact dbUpdate_matching_fixed p2.2 "RequisitionItem" (r.ID.getD "") _ (fun x => rfl))]
    have hQ := modifyObject_matching_post
      (dbUpdate p2.2 "RequisitionItem" (r.ID.getD "")
        (mergeRequisitionItem r (some e.id) (refKey r.item_ID)
          (if e.daysToSupply.truthy = true
           then jsDiv (parseNumber r.Cust_stock_order) e.daysToSupply else JsNum.num 0))).2
      "Requisition" e.id
      (fun x => { x with items := insertIfAbsent x.items (r.ID.getD "") })
      (fun x => (r.ID.getD "") ∈ x.items)
      (fun x => insertIfAbsent_mem x.items (r.ID.getD ""))
    refine modifyObject_stable _ "Requisition" _ _ ?_
    intro x hx hxt hxk
    have hq := hQ x hx hxt hxk
    show { x with items := insertIfAbsent x.items (r.ID.getD "") } = x
    rw [insertIfAbsent_of_mem x.items (r.ID.getD "") hq]
  · have hnone : generatePlaceholder env db "Requisition" s = none := rfl
    rw [hnone] at hp
    cases hp

theorem hasKey_extend (dbA dbB : DB) (t f s t2 : String)
    (h : dbB.objects = dbA.objects ∨ ∃ p, p.etype = t2 ∧ dbB.objects = dbA.objects ++ [p]) :
    hasKey dbA t f s → hasKey dbB t f s := by
  refine hasKey_mono_objects dbA dbB t f s ?_
  rcases h with h | ⟨p, _, hp⟩
  · exact Or.inl h
  · exact Or.inr ⟨p, hp⟩

theorem MatchAll_extend (dbA dbB : DB) (t k : String) (P : Entity → Prop) (t2 : String)
    (hne : t ≠ t2)
    (h : dbB.objects = dbA.objects ∨ ∃ p, p.etype = t2 ∧ dbB.objects = dbA.objects ++ [p]) :
    MatchAll dbA t k P → MatchAll dbB t k P := by
  rcases h with h | ⟨p, hpe, hp⟩
  · exact MatchAll_congr_objects dbA dbB t k P h
  · exact fun hm => MatchAll_append dbA dbB p t k P hp
      (fun h1 _ => absurd (hpe.symm.trans h1) hne.symm) hm

theorem integrateTransaction_idem (env : Env) (db db1 : DB) (r : WireRecord)
    (hok : integrateTransaction env db r = .ok db1) :
    integrateTransaction env db1 r = .ok db1 := by
  unfold integrateTransaction at hok ⊢
  rcases hg1 : getObject env db "Name" r.name_ID "id" with u | p1
  · rw [hg1] at hok
    simp [Bind.bind, Except.bind] at hok
  rw [hg1] at hok
  simp only [Bind.bind, Except.bind] at hok
  obtain ⟨href1, hext1, hhk1⟩ := getObject_byid_run2 env db "Name" r.name_ID p1.1 p1.2
    (by rw [hg1]) (placeholder_fact_template env db "Name" (fun s => ⟨_, rfl, rfl, rfl⟩))
  have hfst := dbUpdate_fst_id p1.2 "Transaction" (r.ID.getD "") (mergeTransaction env r)
    (fun x => rfl)
  rw [hfst] at hok
  rw [href1] at hok
  set dA := modifyObject
    (dbUpdate p1.2 "Transaction" (r.ID.getD "") (mergeTransaction env r)).2
    "Transaction" (r.ID.getD "")
    (fun e => { e with otherParty := refKey r.name_ID }) with hdA
  rcases hg2 : getObject env dA "User" r.user_ID "id" with u | p2
  · rw [hg2] at hok
    simp at hok
  rw [hg2] at hok
  simp only [Bind.bind, Except.bind] at hok
  obtain ⟨href2, hext2, hhk2⟩ := getObject_byid_run2 env dA "User" r.user_ID p2.1 p2.2
    (by rw [hg2]) (placeholder_fact_template env dA "User" (fun s => ⟨_, rfl, rfl, rfl⟩))
  rw [href2] at hok
  set dB := modifyObject p2.2 "Transaction" (r.ID.getD "")
    (fun e => { e with enteredBy := refKey r.user_ID }) with hdB
  rcases hg3 : getObject env dB "TransactionCategory" r.category_ID "id" with u | p3
  · rw [hg3] at hok
    simp at hok
  rw [hg3] at hok
  simp only [Bind.bind, Except.bind] at hok
  obtain ⟨href3, hext3, hhk3⟩ := getObject_byid_run2 env dB "TransactionCategory" r.category_ID
    p3.1 p3.2 (by rw [hg3])
    (placeholder_fact_template env dB "TransactionCategory" (fun s => ⟨_, rfl, rfl, rfl⟩))
  rw [href3] at hok
  set dC := modifyObject p3.2 "Transaction" (r.ID.getD "")
    (fun e => { e with category := refKey r.category_ID }) with hdC
  rcases hop : p1.1 with _ | op
  · rw [hop] at hok
    simp at hok
  rw [hop] at hok
  rw [hop] at href1
  obtain ⟨hkid, hknz⟩ := refKey_eq_some r.name_ID op.id href1.symm
  simp only [pure, Except.pure, Except.ok.injEq] at hok
  subst hok
  have hKT : hasKey (modifyObject dC "Name" op.id
      (fun e => { e with transactions := insertIfAbsent e.transactions (r.ID.getD "") }))
      "Transaction" "id" (r.ID.getD "") := by
    refine hasKey_modifyObject _ "Name" op.id _ "Transaction" "id" _
      (fun x => rfl) (fun x => by simp [keyFieldVal]) ?_
    rw [hdC]
    refine hasKey_modifyObject _ "Transaction" _ _ "Transaction" "id" _
      (fun x => rfl) (fun x => by simp [keyFieldVal]) ?_
    refine hasKey_extend dB p3.2 "Transaction" "id" _ "TransactionCategory" hext3 ?_
    rw [hdB]
    refine hasKey_modifyObject _ "Transaction" _ _ "Transaction" "id" _
      (fun x => rfl) (fun x => by simp [keyFieldVal]) ?_
    refine hasKey_extend dA p2.2 "Transaction" "id" _ "User" hext2 ?_
    rw [hdA]
    refine hasKey_modifyObject _ "Transaction" _ _ "Transaction" "id" _
      (fun x => rfl) (fun x => by simp [keyFieldVal]) ?_
    exact hasKey_dbUpdate_self p1.2 "Transaction" (r.ID.getD "") (mergeTransaction env r)
      (fun x => rfl) (fun x => rfl)
  have hFix : MatchAll (modifyObject dC "Name" op.id
      (fun e => { e with transactions := insertIfAbsent e.transactions (r.ID.getD "") }))
      "Transaction" (r.ID.getD "") (fun x => mergeTransaction env r x = x) := by
    refine MatchAll_modifyObject_other _ "Name" op.id _ "Transaction" (r.ID.getD "") _
      (by decide) (fun x => rfl) ?_
    rw [hdC]
    refine MatchAll_modifyObject_pres _ "Transaction" (r.ID.getD "") _ "Transaction"
      (r.ID.getD "") _ (fun x => rfl) (fun x => rfl)
      (fun x hx => congrArg (fun y : Entity => { y with category := refKey r.category_ID }) hx)
      ?_
    refine MatchAll_extend dB p3.2 "Transaction" (r.ID.getD "") _ "TransactionCategory"
      (by decide) hext3 ?_
    rw [hdB]
    refine MatchAll_modifyObject_pres _ "Transaction" (r.ID.getD "") _ "Transaction"
      (r.ID.getD "") _ (fun x => rfl) (fun x => rfl)
      (fun x hx => congrArg (fun y : Entity => { y with enteredBy := refKey r.user_ID }) hx)
      ?_
    refine MatchAll_extend dA p2.2 "Transaction" (r.ID.getD "") _ "User" (by decide) hext2 ?_
    rw [hdA]
    refine MatchAll_modifyObject_pres _ "Transaction" (r.ID.getD "") _ "Transaction"
      (r.ID.getD "") _ (fun x => rfl) (fun x => rfl)
      (fun x hx => congrArg (fun y : Entity => { y with otherParty := refKey r.name_ID }) hx)
      ?_
    exact dbUpdate_matching_fixed p1.2 "Transaction" (r.ID.getD "") (mergeTransaction env r)
      (fun x => rfl)
  have hKN : hasKey (modifyObject dC "Name" op.id
      (fun e => { e with transactions := insertIfAbsent e.transactions (r.ID.getD "") }))
      "Name" "id" op.id := by
    refine hasKey_modifyObject _ "Name" op.id _ "Name" "id" _
      (fun x => rfl) (fun x => by simp [keyFieldVal]) ?_
    rw [hdC]
    refine hasKey_modifyObject _ "Transaction" _ _ "Name" "id" _
      (fun x => rfl) (fun x => by simp [keyFieldVal]) ?_
    refine hasKey_extend dB p3.2 "Name" "id" _ "TransactionCategory" hext3 ?_
    rw [hdB]
    refine hasKey_modifyObject _ "Transaction" _ _ "Name" "id" _
      (fun x => rfl) (fun x => by simp [keyFieldVal]) ?_
    refine hasKey_extend dA p2.2 "Name" "id" _ "User" hext2 ?_
    rw [hdA]
    refine hasKey_modifyObject _ "Transaction" _ _ "Name" "id" _
      (fun x => rfl) (fun x => by simp [keyFieldVal]) ?_
    refine hasKey_dbUpdate p1.2 "Transaction" (r.ID.getD "") _ "Name" "id" op.id
      (fun x => rfl) (kf_id_set _ "Transaction" (r.ID.getD "") (fun x => rfl)) ?_
    exact hhk1 op.id hkid hknz
  have hQ1 : MatchAll (modifyObject dC "Name" op.id
      (fun e => { e with transactions := insertIfAbsent e.transactions (r.ID.getD "") }))
      "Transaction" (r.ID.getD "") (fun x => x.otherParty = refKey r.name_ID) := by
    refine MatchAll_modifyObject_other _ "Name" op.id _ "Transaction" (r.ID.getD "") _
      (by decide) (fun x => rfl) ?_
    rw [hdC]
    refine MatchAll_modifyObject_pres _ "Transaction" (r.ID.getD "") _ "Transaction"
      (r.ID.getD "") _ (fun x => rfl) (fun x => rfl) (fun x hx => hx) ?_
    refine MatchAll_extend dB p3.2 "Transaction" (r.ID.getD "") _ "TransactionCategory"
      (by decide) hext3 ?_
    rw [hdB]
    refine MatchAll_modifyObject_pres _ "Transaction" (r.ID.getD "") _ "Transaction"
      (r.ID.getD "") _ (fun x => rfl) (fun x => rfl) (fun x hx => hx) ?_
    refine MatchAll_extend dA p2.2 "Transaction" (r.ID.getD "") _ "User" (by decide) hext2 ?_
    rw [hdA]
    exact modifyObject_matching_post _ "Transaction" (r.ID.getD "") _ _ (fun x => rfl)
  have hQ2 : MatchAll (modifyObject dC "Name" op.id
      (fun e => { e with transactions := insertIfAbsent e.transactions (r.ID.getD "") }))
      "Transaction" (r.ID.getD "") (fun x => x.enteredBy = refKey r.user_ID) := by
    refine MatchAll_modifyObject_other _ "Name" op.id _ "Transaction" (r.ID.getD "") _
      (by decide) (fun x => rfl) ?_
    rw [hdC]
    refine MatchAll_modifyObject_pres _ "Transaction" (r.ID.getD "") _ "Transaction"
      (r.ID.getD "") _ (fun x => rfl) (fun x => rfl) (fun x hx => hx) ?_
    refine MatchAll_extend dB p3.2 "Transaction" (r.ID.getD "") _ "TransactionCategory"
      (by decide) hext3 ?_
    rw [hdB]
    exact modifyObject_matching_post _ "Transaction" (r.ID.getD "") _ _ (fun x => rfl)
  have hQ3 : MatchAll (modifyObject dC "Name" op.id
      (fun e => { e with transactions := insertIfAbsent e.transactions (r.ID.getD "") }))
      "Transaction" (r.ID.getD "") (fun x => x.category = refKey r.category_ID) := by
    refine MatchAll_modifyObject_other _ "Name" op.id _ "Transaction" (r.ID.getD "") _
      (by decide) (fun x => rfl) ?_
    rw [hdC]
    exact modifyObject_matching_post _ "Transaction" (r.ID.getD "") _ _ (fun x => rfl)
  have hQN := modifyObject_matching_post dC "Name" op.id
    (fun e => { e with transactions := insertIfAbsent e.transactions (r.ID.getD "") })
    (fun x => (r.ID.getD "") ∈ x.transactions)
    (fun x => insertIfAbsent_mem x.transactions (r.ID.getD ""))
  obtain ⟨res1, hstep1, href1b⟩ := getObject_byid_stable env
    (modifyObject dC "Name" op.id
      (fun e => { e with transactions := insertIfAbsent e.transactions (r.ID.getD "") }))
    "Name" r.name_ID
    (fun s hks hs => by
      rw [hkid] at hks
      injection hks with hks
      subst hks
      exact hKN)
  rw [hstep1]
  simp only [Bind.bind, Except.bind]
  rw [dbUpdate_fst_id _ "Transaction" (r.ID.getD "") (mergeTransaction env r) (fun x => rfl)]
  rw [href1b]
  rw [dbUpdate_stable_snd _ "Transaction" (r.ID.getD "") (mergeTransaction env r) hKT hFix]
  have hmod1 : modifyObject
      (modifyObject dC "Name" op.id
        (fun e => { e with transactions := insertIfAbsent e.transactions (r.ID.getD "") }))
      "Transaction" (r.ID.getD "") (fun e => { e with otherParty := refKey r.name_ID })
      = modifyObject dC "Name" op.id
        (fun e => { e with transactions := insertIfAbsent e.transactions (r.ID.getD "") }) := by
    refine modifyObject_stable _ "Transaction" _ _ ?_
    intro x hx hxt hxk
    have hq := hQ1 x hx hxt hxk
    show { x with otherParty := refKey r.name_ID } = x
    rw [← hq]
  rw [hmod1]
  obtain ⟨res2, hstep2, href2b⟩ := getObject_byid_stable env
    (modifyObject dC "Name" op.id
      (fun e => { e with transactions := insertIfAbsent e.transactions (r.ID.getD "") }))
    "User" r.user_ID
    (fun s hks hs => by
      refine hasKey_modifyObject _ "Name" op.id _ "User" "id" s
        (fun x => rfl) (fun x => by simp [keyFieldVal]) ?_
      rw [hdC]
      refine hasKey_modifyObject _ "Transaction" _ _ "User" "id" s
        (fun x => rfl) (fun x => by simp [keyFieldVal]) ?_
      refine hasKey_extend dB p3.2 "User" "id" s "TransactionCategory" hext3 ?_
      rw [hdB]
      refine hasKey_modifyObject _ "Transaction" _ _ "User" "id" s
        (fun x => rfl) (fun x => by simp [keyFieldVal]) ?_
      exact hhk2 s hks hs)
  rw [hstep2]
  simp only [Bind.bind, Except.bind]
  rw [href2b]
  have hmod2 : modifyObject
      (modifyObject dC "Name" op.id
        (fun e => { e with transactions := insertIfAbsent e.transactions (r.ID.getD "") }))
      "Transaction" (r.ID.getD "") (fun e => { e with enteredBy := refKey r.user_ID })
      = modifyObject dC "Name" op.id
        (fun e => { e with transactions := insertIfAbsent e.transactions (r.ID.getD "") }) := by
    refine modifyObject_stable _ "Transaction" _ _ ?_
    intro x hx hxt hxk
    have hq := hQ2 x hx hxt hxk
    show { x with enteredBy := refKey r.user_ID } = x
    rw [← hq]
  rw [hmod2]
  obtain ⟨res3, hstep3, href3b⟩ := getObject_byid_stable env
    (modifyObject dC "Name" op.id
      (fun e => { e with transactions := insertIfAbsent e.transactions (r.ID.getD "") }))
    "TransactionCategory" r.category_ID
    (fun s hks hs => by
      refine hasKey_modifyObject _ "Name" op.id _ "TransactionCategory" "id" s
        (fun x => rfl) (fun x => by simp [keyFieldVal]) ?_
      rw [hdC]
      refine hasKey_modifyObject _ "Transaction" _ _ "TransactionCategory" "id" s
        (fun x => rfl) (fun x => by simp [keyFieldVal]) ?_
      exact hhk3 s hks hs)
  rw [hstep3]
  simp only [Bind.bind, Except.bind]
  rw [href3b]
  have hmod3 : modifyObject
      (modifyObject dC "Name" op.id
        (fun e => { e with transactions := insertIfAbsent e.transactions (r.ID.getD "") }))
      "Transaction" (r.ID.getD "") (fun e => { e with category := refKey r.category_ID })
      = modifyObject dC "Name" op.id
        (fun e => { e with transactions := insertIfAbsent e.transactions (r.ID.getD "") }) := by
    refine modifyObject_stable _ "Transaction" _ _ ?_
    intro x hx hxt hxk
    have hq := hQ3 x hx hxt hxk
    show { x with category := refKey r.category_ID } = x
    rw [← hq]
  rw [hmod3]
  rw [hkid] at href1b
  have hrk : refKey (some op.id) = some op.id := by
    simp only [refKey]
    rw [if_neg (length_not_lt_one op.id hknz)]
  rw [hrk] at href1b
  obtain ⟨op2, hres1, hid1⟩ := refId_eq_some res1 op.id href1b
  rw [hres1]
  simp only [pure, Except.pure, Except.ok.injEq]
  rw [hid1]
  refine modifyObject_stable _ "Name" _ _ ?_
  intro x hx hxt hxk
  have hq := hQN x hx hxt hxk
  show { x with transactions := insertIfAbsent x.transactions (r.ID.getD "") } = x
  rw [insertIfAbsent_of_mem x.transactions (r.ID.getD "") hq]

theorem integrateTransactionBatch_idem (env : Env) (db db1 : DB) (r : WireRecord)
    (hok : integrateTransactionBatch env db r = .ok db1) :
    integrateTransactionBatch env db1 r = .ok db1 := by
  unfold integrateTransactionBatch at hok ⊢
  rcases hg1 : getObject env db "Transaction" r.transaction_ID "id" with u | p1
  · rw [hg1] at hok
    simp [Bind.bind, Except.bind] at hok
  rw [hg1] at hok
  simp only [Bind.bind, Except.bind] at hok
  obtain ⟨href1, hext1, hhk1⟩ := getObject_byid_run2 env db "Transaction" r.transaction_ID
    p1.1 p1.2 (by rw [hg1])
    (placeholder_fact_template env db "Transaction" (fun s => ⟨_, rfl, rfl, rfl⟩))
  rcases hg2 : getObject env p1.2 "ItemBatch" r.item_line_ID "id" with u | p2
  · rw [hg2] at hok
    simp at hok
  rw [hg2] at hok
  simp only [Bind.bind, Except.bind] at hok
  obtain ⟨href2, hext2, hhk2⟩ := getObject_byid_run2 env p1.2 "ItemBatch" r.item_line_ID
    p2.1 p2.2 (by rw [hg2])
    (placeholder_fact_template env p1.2 "ItemBatch" (fun s => ⟨_, rfl, rfl, rfl⟩))
  rcases hg3 : getObject env p2.2 "Item" r.item_ID "id" with u | p3
  · rw [hg3] at hok
    simp at hok
  rw [hg3] at hok
  simp only [Bind.bind, Except.bind] at hok
  obtain ⟨href3, hext3, hhk3⟩ := getObject_byid_run2 env p2.2 "Item" r.item_ID
    p3.1 p3.2 (by rw [hg3])
    (placeholder_fact_template env p2.2 "Item" (fun s => ⟨_, rfl, rfl, rfl⟩))
  rcases hb : p2.1 with _ | ib
  · rw [hb] at hok
    simp at hok
  rcases hi : p3.1 with _ | item
  · rw [hb, hi] at hok
    simp at hok
  rcases ht : p1.1 with _ | tx
  · rw [hb, hi, ht] at hok
    simp at hok
  rw [hb] at href2
  rw [hi] at href3
  rw [ht] at href1
  obtain ⟨hkib, hnzib⟩ := refKey_eq_some r.item_line_ID ib.id href2.symm
  obtain ⟨hkit, hnzit⟩ := refKey_eq_some r.item_ID item.id href3.symm
  obtain ⟨hktx, hnztx⟩ := refKey_eq_some r.transaction_ID tx.id href1.symm
  rw [hb, hi, ht] at hok
  simp only [pure, Except.pure, Except.ok.injEq] at hok
  set d1 := modifyObject p3.2 "ItemBatch" ib.id (fun e => { e with item := some item.id })
    with hd1
  set d2 := modifyObject d1 "Item" item.id
    (fun e => { e with batches := insertIfAbsent e.batches ib.id }) with hd2
  have hfst := dbUpdate_fst_id d2 "TransactionBatch" (r.ID.getD "")
    (mergeTransactionBatch r (some ib.id) (some tx.id) (parseNumber r.pack_size))
    (fun x => rfl)
  rw [hfst] at hok
  set d3 := modifyObject
    (dbUpdate d2 "TransactionBatch" (r.ID.getD "")
      (mergeTransactionBatch r (some ib.id) (some tx.id) (parseNumber r.pack_size))).2
    "Transaction" tx.id
    (fun e => { e with batches := insertIfAbsent e.batches (r.ID.getD "") }) with hd3
  subst hok
  have hKtx : hasKey (modifyObject d3 "ItemBatch" ib.id
      (fun e => { e with
        transactionBatches := insertIfAbsent e.transactionBatches (r.ID.getD "") }))
      "Transaction" "id" tx.id := by
    refine hasKey_modifyObject _ "ItemBatch" ib.id _ "Transaction" "id" _
      (fun x => rfl) (fun x => by simp [keyFieldVal]) ?_
    rw [hd3]
    refine hasKey_modifyObject _ "Transaction" _ _ "Transaction" "id" _
      (fun x => rfl) (fun x => by simp [keyFieldVal]) ?_
    refine hasKey_dbUpdate d2 "TransactionBatch" (r.ID.getD "") _ "Transaction" "id" tx.id
      (fun x => rfl) (kf_id_set _ "TransactionBatch" (r.ID.getD "") (fun x => rfl)) ?_
    rw [hd2]
    refine hasKey_modifyObject _ "Item" item.id _ "Transaction" "id" _
      (fun x => rfl) (fun x => by simp [keyFieldVal]) ?_
    rw [hd1]
    refine hasKey_modifyObject _ "ItemBatch" ib.id _ "Transaction" "id" _
      (fun x => rfl) (fun x => by simp [keyFieldVal]) ?_
    refine hasKey_extend p2.2 p3.2 "Transaction" "id" tx.id "Item" hext3 ?_
    refine hasKey_extend p1.2 p2.2 "Transaction" "id" tx.id "ItemBatch" hext2 ?_
    exact hhk1 tx.id hktx hnztx
  have hKib : hasKey (modifyObject d3 "ItemBatch" ib.id
      (fun e => { e with
        transactionBatches := insertIfAbsent e.transactionBatches (r.ID.getD "") }))
      "ItemBatch" "id" ib.id := by
    refine hasKey_modifyObject _ "ItemBatch" ib.id _ "ItemBatch" "id" _
      (fun x => rfl) (fun x => by simp [keyFieldVal]) ?_
    rw [hd3]
    refine hasKey_modifyObject _ "Transaction" _ _ "ItemBatch" "id" _
      (fun x => rfl) (fun x => by simp [keyFieldVal]) ?_
    refine hasKey_dbUpdate d2 "TransactionBatch" (r.ID.getD "") _ "ItemBatch" "id" ib.id
      (fun x => rfl) (kf_id_set _ "TransactionBatch" (r.ID.getD "") (fun x => rfl)) ?_
    rw [hd2]
    refine hasKey_modifyObject _ "Item" item.id _ "ItemBatch" "id" _
      (fun x => rfl) (fun x => by simp [keyFieldVal]) ?_
    rw [hd1]
    refine hasKey_modifyObject _ "ItemBatch" ib.id _ "ItemBatch" "id" _
      (fun x => rfl) (fun x => by simp [keyFieldVal]) ?_
    refine hasKey_extend p2.2 p3.2 "ItemBatch" "id" ib.id "Item" hext3 ?_
    exact hhk2 ib.id hkib hnzib
  have hKit : hasKey (modifyObject d3 "ItemBatch" ib.id
      (fun e => { e with
        transactionBatches := insertIfAbsent e.transactionBatches (r.ID.getD "") }))
      "Item" "id" item.id := by
    refine hasKey_modifyObject _ "ItemBatch" ib.id _ "Item" "id" _
      (fun x => rfl) (fun x => by simp [keyFieldVal]) ?_
    rw [hd3]
    refine hasKey_modifyObject _ "Transaction" _ _ "Item" "id" _
      (fun x => rfl) (fun x => by simp [keyFieldVal]) ?_
    refine hasKey_dbUpdate d2 "TransactionBatch" (r.ID.getD "") _ "Item" "id" item.id
      (fun x => rfl) (kf_id_set _ "TransactionBatch" (r.ID.getD "") (fun x => rfl)) ?_
    rw [hd2]
    refine hasKey_modifyObject _ "Item" item.id _ "Item" "id" _
      (fun x => rfl) (fun x => by simp [keyFieldVal]) ?_
    rw [hd1]
    refine hasKey_modifyObject _ "ItemBatch" ib.id _ "Item" "id" _
      (fun x => rfl) (fun x => by simp [keyFieldVal]) ?_
    exact hhk3 item.id hkit hnzit
  have hKTB : hasKey (modifyObject d3 "ItemBatch" ib.id
      (fun e => { e with
        transactionBatches := insertIfAbsent e.transactionBatches (r.ID.getD "") }))
      "TransactionBatch" "id" (r.ID.getD "") := by
    refine hasKey_modifyObject _ "ItemBatch" ib.id _ "TransactionBatch" "id" _
      (fun x => rfl) (fun x => by simp [keyFieldVal]) ?_
    rw [hd3]
    refine hasKey_modifyObject _ "Transaction" _ _ "TransactionBatch" "id" _
      (fun x => rfl) (fun x => by simp [keyFieldVal]) ?_
    exact hasKey_dbUpdate_self d2 "TransactionBatch" (r.ID.getD "") _
      (fun x => rfl) (fun x => rfl)
  have hFixTB : MatchAll (modifyObject d3 "ItemBatch" ib.id
      (fun e => { e with
        transactionBatches := insertIfAbsent e.transactionBatches (r.ID.getD "") }))
      "TransactionBatch" (r.ID.getD "")
      (fun x => mergeTransactionBatch r (some ib.id) (some tx.id)
        (parseNumber r.pack_size) x = x) := by
    refine MatchAll_modifyObject_other _ "ItemBatch" ib.id _ "TransactionBatch"
      (r.ID.getD "") _ (by decide) (fun x => rfl) ?_
    rw [hd3]
    refine MatchAll_modifyObject_other _ "Transaction" _ _ "TransactionBatch"
      (r.ID.getD "") _ (by decide) (fun x => rfl) ?_
    exact dbUpdate_matching_fixed d2 "TransactionBatch" (r.ID.getD "") _ (fun x => rfl)
  have hQib1 : MatchAll (modifyObject d3 "ItemBatch" ib.id
      (fun e => { e with
        transactionBatches := insertIfAbsent e.transactionBatches (r.ID.getD "") }))
      "ItemBatch" ib.id (fun x => x.item = some item.id) := by
    refine MatchAll_modifyObject_pres _ "ItemBatch" ib.id _ "ItemBatch" ib.id _
      (fun x => rfl) (fun x => rfl) (fun x hx => hx) ?_
    rw [hd3]
    refine MatchAll_modifyObject_other _ "Transaction" _ _ "ItemBatch" ib.id _
      (by decide) (fun x => rfl) ?_
    refine MatchAll_dbUpdate_other d2 "TransactionBatch" (r.ID.getD "") _ "ItemBatch" ib.id _
      (by decide) (fun x => rfl) ?_
    rw [hd2]
    refine MatchAll_modifyObject_other _ "Item" item.id _ "ItemBatch" ib.id _
      (by decide) (fun x => rfl) ?_
    rw [hd1]
    exact modifyObject_matching_post _ "ItemBatch" ib.id _ _ (fun x => rfl)
  have hQit : MatchAll (modifyObject d3 "ItemBatch" ib.id
      (fun e => { e with
        transactionBatches := insertIfAbsent e.transactionBatches (r.ID.getD "") }))
      "Item" item.id (fun x => ib.id ∈ x.batches) := by
    refine MatchAll_modifyObject_other _ "ItemBatch" ib.id _ "Item" item.id _
      (by decide) (fun x => rfl) ?_
    rw [hd3]
    refine MatchAll_modifyObject_other _ "Transaction" _ _ "Item" item.id _
      (by decide) (fun x => rfl) ?_
    refine MatchAll_dbUpdate_other d2 "TransactionBatch" (r.ID.getD "") _ "Item" item.id _
      (by decide) (fun x => rfl) ?_
    rw [hd2]
    exact modifyObject_matching_post _ "Item" item.id _ _
      (fun x => insertIfAbsent_mem x.batches ib.id)
  have hQtx : MatchAll (modifyObject d3 "ItemBatch" ib.id
      (fun e => { e with
        transactionBatches := insertIfAbsent e.transactionBatches (r.ID.getD "") }))
      "Transaction" tx.id (fun x => (r.ID.getD "") ∈ x.batches) := by
    refine MatchAll_modifyObject_other _ "ItemBatch" ib.id _ "Transaction" tx.id _
      (by decide) (fun x => rfl) ?_
    rw [hd3]
    exact modifyObject_matching_post _ "Transaction" tx.id _ _
      (fun x => insertIfAbsent_mem x.batches (r.ID.getD ""))
  have hQib2 := modifyObject_matching_post d3 "ItemBatch" ib.id
    (fun e => { e with
      transactionBatches := insertIfAbsent e.transactionBatches (r.ID.getD "") })
    (fun x => (r.ID.getD "") ∈ x.transactionBatches)
    (fun x => insertIfAbsent_mem x.transactionBatches (r.ID.getD ""))
  obtain ⟨res1, hstep1, href1b⟩ := getObject_byid_stable env
    (modifyObject d3 "ItemBatch" ib.id
      (fun e => { e with
        transactionBatches := insertIfAbsent e.transactionBatches (r.ID.getD "") }))
    "Transaction" r.transaction_ID
    (fun s hks hs => by
      rw [hktx] at hks
      injection hks with hks
      subst hks
      exact hKtx)
  rw [hstep1]
  simp only [Bind.bind, Except.bind]
  obtain ⟨res2, hstep2, href2b⟩ := getObject_byid_stable env
    (modifyObject d3 "ItemBatch" ib.id
      (fun e => { e with
        transactionBatches := insertIfAbsent e.transactionBatches (r.ID.getD "") }))
    "ItemBatch" r.item_line_ID
    (fun s hks hs => by
      rw [hkib] at hks
      injection hks with hks
      subst hks
      exact hKib)
  rw [hstep2]
  simp only [Bind.bind, Except.bind]
  obtain ⟨res3, hstep3, href3b⟩ := getObject_byid_stable env
    (modifyObject d3 "ItemBatch" ib.id
      (fun e => { e with
        transactionBatches := insertIfAbsent e.transactionBatches (r.ID.getD "") }))
    "Item" r.item_ID
    (fun s hks hs => by
      rw [hkit] at hks
      injection hks with hks
      subst hks
      exact hKit)
  rw [hstep3]
  simp only [Bind.bind, Except.bind]
  rw [hktx] at href1b
  rw [hkib] at href2b
  rw [hkit] at href3b
  have hrk1 : refKey (some tx.id) = some tx.id := by
    simp only [refKey]
    rw [if_neg (length_not_lt_one tx.id hnztx)]
  have hrk2 : refKey (some ib.id) = some ib.id := by
    simp only [refKey]
    rw [if_neg (length_not_lt_one ib.id hnzib)]
  have hrk3 : refKey (some item.id) = some item.id := by
    simp only [refKey]
    rw [if_neg (length_not_lt_one item.id hnzit)]
  rw [hrk1] at href1b
  rw [hrk2] at href2b
  rw [hrk3] at href3b
  obtain ⟨tx2, hres1, hidtx⟩ := refId_eq_some res1 tx.id href1b
  obtain ⟨ib2, hres2, hidib⟩ := refId_eq_some res2 ib.id href2b
  obtain ⟨item2, hres3, hidit⟩ := refId_eq_some res3 item.id href3b
  rw [hres1, hres2, hres3]
  simp only [pure, Except.pure, Except.ok.injEq]
  rw [hidtx, hidib, hidit]
  have hmodA : modifyObject
      (modifyObject d3 "ItemBatch" ib.id
        (fun e => { e with
          transactionBatches := insertIfAbsent e.transactionBatches (r.ID.getD "") }))
      "ItemBatch" ib.id (fun e => { e with item := some item.id })
      = modifyObject d3 "ItemBatch" ib.id
        (fun e => { e with
          transactionBatches := insertIfAbsent e.transactionBatches (r.ID.getD "") }) := by
    refine modifyObject_stable _ "ItemBatch" _ _ ?_
    intro x hx hxt hxk
    have hq := hQib1 x hx hxt hxk
    show { x with item := some item.id } = x
    rw [← hq]
  rw [hmodA]
  have hmodB : modifyObject
      (modifyObject d3 "ItemBatch" ib.id
        (fun e => { e with
          transactionBatches := insertIfAbsent e.transactionBatches (r.ID.getD "") }))
      "Item" item.id (fun e => { e with batches := insertIfAbsent e.batches ib.id })
      = modifyObject d3 "ItemBatch" ib.id
        (fun e => { e with
          transactionBatches := insertIfAbsent e.transactionBatches (r.ID.getD "") }) := by
    refine modifyObject_stable _ "Item" _ _ ?_
    intro x hx hxt hxk
    have hq := hQit x hx hxt hxk
    show { x with batches := insertIfAbsent x.batches ib.id } = x
    rw [insertIfAbsent_of_mem x.batches ib.id hq]
  rw [hmodB]
  rw [dbUpdate_fst_id _ "TransactionBatch" (r.ID.getD "")
    (mergeTransactionBatch r (some ib.id) (some tx.id) (parseNumber r.pack_size))
    (fun x => rfl)]
  rw [dbUpdate_stable_snd _ "TransactionBatch" (r.ID.getD "")
    (mergeTransactionBatch r (some ib.id) (some tx.id) (parseNumber r.pack_size))
    hKTB hFixTB]
  have hmodC : modifyObject
      (modifyObject d3 "ItemBatch" ib.id
        (fun e => { e with
          transactionBatches := insertIfAbsent e.transactionBatches (r.ID.getD "") }))
      "Transaction" tx.id
      (fun e => { e with batches := insertIfAbsent e.batches (r.ID.getD "") })
      = modifyObject d3 "ItemBatch" ib.id
        (fun e => { e with
          transactionBatches := insertIfAbsent e.transactionBatches (r.ID.getD "") }) := by
    refine modifyObject_stable _ "Transaction" _ _ ?_
    intro x hx hxt hxk
    have hq := hQtx x hx hxt hxk
    show { x with batches := insertIfAbsent x.batches (r.ID.getD "") } = x
    rw [insertIfAbsent_of_mem x.batches (r.ID.getD "") hq]
  rw [hmodC]
  refine modifyObject_stable _ "ItemBatch" _ _ ?_
  intro x hx hxt hxk
  have hq := hQib2 x hx hxt hxk
  show { x with transactionBatches := insertIfAbsent x.transactionBatches (r.ID.getD "") } = x
  rw [insertIfAbsent_of_mem x.transactionBatches (r.ID.getD "") hq]

/-- C1: `createOrUpdateRecord` is idempotent — re-integrating the same raw
record of the same type over the store produced by a successful first
integration succeeds and leaves that store unchanged, for every supported
record type (records failing the sanity check and unsupported types are
no-ops both times). -/
theorem c1_createOrUpdateRecord_idempotent (env : Env) (db db1 : DB)
    (recordType : String) (record : WireRecord)
    (hok : createOrUpdateRecord env db recordType record = .ok db1) :
    createOrUpdateRecord env db1 recordType record = .ok db1 := by
  unfold createOrUpdateRecord at hok ⊢
  rcases hs : sanityCheckIncomingRecord recordType record with _ | _
  · simp only [hs, Bool.not_false, if_true, Except.ok.injEq] at hok
    subst hok
    simp [hs]
  · simp only [hs, Bool.not_true, Bool.false_eq_true, if_false] at hok ⊢
    by_cases h1 : recordType = "Item"
    · subst h1
      exact integrateItem_idem env db db1 record hok
    by_cases h2 : recordType = "ItemCategory"
    · subst h2
      exact integrateItemCategory_idem db db1 record hok
    by_cases h3 : recordType = "ItemDepartment"
    · subst h3
      exact integrateItemDepartment_idem db db1 record hok
    by_cases h4 : recordType = "ItemBatch"
    · subst h4
      exact integrateItemBatch_idem env db db1 record hok
    by_cases h5 : recordType = "ItemStoreJoin"
    · subst h5
      exact integrateItemStoreJoin_idem env db db1 record hok
    by_cases h6 : recordType = "MasterListNameJoin"
    · subst h6
      exact integrateMasterListNameJoin_idem env db db1 record hok
    by_cases h7 : recordType = "MasterList"
    · subst h7
      exact integrateMasterList_idem db db1 record hok
    by_cases h8 : recordType = "MasterListItem"
    · subst h8
      exact integrateMasterListItem_idem env db db1 record hok
    by_cases h9 : recordType = "Name"
    · subst h9
      exact integrateName_idem env db db1 record hok
    by_cases h10 : recordType = "NameStoreJoin"
    · subst h10
      exact integrateNameStoreJoin_idem env db db1 record hok
    by_cases h11 : recordType = "NumberSequence"
    · subst h11
      exact integrateNumberSequence_idem env db db1 record hok
    by_cases h12 : recordType = "NumberToReuse"
    · subst h12
      exact integrateNumberToReuse_idem env db db1 record hok
    by_cases h13 : recordType = "Requisition"
    · subst h13
      exact integrateRequisition_idem env db db1 record hok
    by_cases h14 : recordType = "RequisitionItem"
    · subst h14
      exact integrateRequisitionItem_idem env db db1 record hok
    by_cases h15 : recordType = "Stocktake"
    · subst h15
      exact integrateStocktake_idem env db db1 record hok
    by_cases h16 : recordType = "StocktakeBatch"
    · subst h16
      exact integrateStocktakeBatch_idem env db db1 record hok
    by_cases h17 : recordType = "Transaction"
    · subst h17
      exact integrateTransaction_idem env db db1 record hok
    by_cases h18 : recordType = "TransactionCategory"
    · subst h18
      exact integrateTransactionCategory_idem env db db1 record hok
    by_cases h19 : recordType = "TransactionBatch"
    · subst h19
      exact integrateTransactionBatch_idem env db db1 record hok
    clear hok
    exfalso
    unfold sanityCheckIncomingRecord at hs
    rcases htr : truthyStr record.ID with _ | _
    · rw [htr] at hs
      simp at hs
    · rw [htr] at hs
      rw [Bool.not_true] at hs
      rw [if_neg (by simp)] at hs
      split at hs
      all_goals simp_all

/-- A concrete ItemCategory wire record for the idempotence run. -/
def rC1 : WireRecord := { ID := some "c1", Description := some "cat" }

theorem c1_createOrUpdateRecord_idempotent_witness :
    createOrUpdateRecord envW (runOk (createOrUpdateRecord envW dbW "ItemCategory" rC1) dbW)
      "ItemCategory" rC1
      = .ok (runOk (createOrUpdateRecord envW dbW "ItemCategory" rC1) dbW) :=
  c1_createOrUpdateRecord_idempotent envW dbW
    (runOk (createOrUpdateRecord envW dbW "ItemCategory" rC1) dbW) "ItemCategory" rC1
    (by rfl)
